import Mathlib

/-!
# WinDRBD device layer

A shallow embedding of the request path of `windrbd_device.c`:

* `windrbd_make_drbd_requests` validates one read/write, shortens it to the
  device size and splits it into fragments of at most `MAX_BIO_SIZE` bytes;
* `windrbd_bio_finished` is the completion callback of one fragment; the last
  one to arrive answers the IRP;
* `windrbd_io` and `windrbd_scsi` are the dispatch routines around both
  (device flags, remove lock, partition overlay, READ CAPACITY);
* `fake_partition_table` builds the cached prolog and epilog of the overlay,
  byte by byte, and
  `windrbd_check_for_filesystem_and_maybe_start_faking_partition_table`
  switches the overlay on and off;
* `windrbd_device_control` answers the two capacity queries of a disk device;
* `windrbd_flush` with `windrbd_bio_flush_finished`, `windrbd_create` and
  `windrbd_close` are the remaining dispatch routines that are modelled;
* `windrbd_make_drbd_requests_sync` is the variant without IRP that reads the
  boot sector;
* `step` runs the operations of the file on one disk device, one at a time;
* `kthread_create` and `wake_up_process` are taken from `windrbd_threads.c`.

C integers are mathematical integers reduced explicitly where the source
computes in a fixed width. Pointers are kept as "is not NULL". Calls into the
host environment whose result the source branches on (allocations, waits) are
read from an `Env` record. Declarations that are not part of the source file
are read off its use of them: `sector_t` is a 64-bit unsigned sector number,
`d_size` a signed 64-bit byte count, `bd_block_size`, `data_shift` and
`appended_sectors` are `int`.
-/

namespace WinDRBD

/-! ## Machine integers -/

/-- Conversion to `unsigned int`. -/
def u32 (x : Int) : Nat := (x % 2 ^ 32).toNat

/-- Conversion to a 64-bit unsigned type (`sector_t`, `unsigned long long`, `size_t`). -/
def u64 (x : Int) : Nat := (x % 2 ^ 64).toNat

/-- Result of an `int` operation, wrapped to 32 bits two's complement. -/
def s32 (x : Int) : Int := (x + 2 ^ 31) % 2 ^ 32 - 2 ^ 31

/-- Conversion to `int64_t` / `LONGLONG`. -/
def s64 (x : Int) : Int := (x + 2 ^ 63) % 2 ^ 64 - 2 ^ 63

/-- The constant `#define MAX_BIO_SIZE (1024*1024)`. -/
def MAX_BIO_SIZE : Nat := 1024 * 1024

/-! ## Byte buffers -/

/-- A zero-initialised memory buffer (`kzalloc`), given by its size and the
writes made to it, newest first. The byte at an offset is the one of the
newest write that covers the offset (its low 8 bits), 0 if there is none. -/
structure Buffer where
  size : Nat
  writes : List (Nat × List Nat)
  deriving DecidableEq, Repr

/-- See `Buffer`: the byte at offset `a` after the writes `ws` (newest first). -/
def writes_byte (a : Nat) : List (Nat × List Nat) → Nat
  | [] => 0
  | (off, bs) :: ws =>
    if off ≤ a ∧ a < off + bs.length then bs.getD (a - off) 0 else writes_byte a ws

/-- The byte at offset `a`, an `unsigned char`. -/
def Buffer.byte (b : Buffer) (a : Nat) : Nat := writes_byte a b.writes % 256

/-- `kzalloc(n)`. -/
def kzalloc (n : Nat) : Buffer := { size := n, writes := [] }

/-- `memcpy(b + off, bs, bs.length)`. -/
def Buffer.store (b : Buffer) (off : Nat) (bs : List Nat) : Buffer :=
  { b with writes := (off, bs) :: b.writes }

/-- The `len` bytes starting at offset `off`. -/
def Buffer.load (b : Buffer) (off len : Nat) : List Nat :=
  (List.range len).map fun i => b.byte (off + i)

/-- The `k` bytes of `x` in little-endian order, as a `k`-byte integer lies in
memory on the (little-endian) host. -/
def le_bytes : Nat → Nat → List Nat
  | 0, _ => []
  | k + 1, x => x % 256 :: le_bytes k (x / 256)

/-- The integer that the bytes `bs` hold in little-endian order. -/
def le_value : List Nat → Nat
  | [] => 0
  | b :: bs => b + 256 * le_value bs

/-- `*(uintN_t*)(b + off) = x` with `N = 8 * k`. -/
def Buffer.store_le (b : Buffer) (off k x : Nat) : Buffer := b.store off (le_bytes k x)

/-- `*(uintN_t*)(b + off)` with `N = 8 * k`. -/
def Buffer.load_le (b : Buffer) (off k : Nat) : Nat := le_value (b.load off k)

/-- The first `n` bytes of an array, missing ones read as 0. -/
def first_bytes (n : Nat) (l : List Nat) : List Nat :=
  (List.range n).map fun i => l.getD i 0

/-! ## Data model -/

/-- The status codes the modelled functions return or store.  `MINUS_EINVAL`
and `MINUS_ENOMEM` are the errno values `-EINVAL` and `-ENOMEM` that
`windrbd_make_drbd_requests` returns through its `NTSTATUS` result. -/
inductive NTSTATUS
  | STATUS_SUCCESS
  | STATUS_PENDING
  | STATUS_ALERTED
  | STATUS_USER_APC
  | STATUS_TIMEOUT
  | STATUS_UNSUCCESSFUL
  | STATUS_NOT_IMPLEMENTED
  | STATUS_INVALID_PARAMETER
  | STATUS_INVALID_DEVICE_REQUEST
  | STATUS_INSUFFICIENT_RESOURCES
  | STATUS_NO_SUCH_DEVICE
  | STATUS_DEVICE_DOES_NOT_EXIST
  | STATUS_BUFFER_TOO_SMALL
  | MINUS_EINVAL
  | MINUS_ENOMEM
  deriving DecidableEq, Repr

open NTSTATUS

/-- Data direction of a request (`READ` / `WRITE`). -/
inductive Dir
  | READ
  | WRITE
  deriving DecidableEq, Repr

/-- The fields of `struct bio` that the device layer writes or reads.
`bi_status` holds `blk_status_to_errno(bio->bi_status)`, the errno the engine
reports at completion (0 is success). Pointers are kept as "is not NULL". -/
structure bio where
  bi_opf : Dir
  bi_size : Nat
  bi_sector : Nat
  bi_mdl_offset : Nat
  bi_upper_irp : Bool
  bi_upper_irp_buffer : Bool
  bv_len : Nat
  bv_offset : Nat
  is_system_buffer : Bool
  bi_status : Int
  deriving DecidableEq, Repr

/-- The shared aggregator `struct bio_collection` of one request. -/
structure bio_collection where
  bc_num_completed : Nat
  bc_total_size : Nat
  bc_num_requests : Nat
  bc_device_failed : Bool
  deriving DecidableEq, Repr

/-- The fields of an IRP the request path touches.  `completed` counts the
calls of `IoCompleteRequest`, `status_writes` the assignments to
`IoStatus.Status`. -/
structure IRP where
  Status : NTSTATUS
  Information : Nat
  MdlAddress : Bool
  pending : Bool
  completed : Nat
  status_writes : Nat
  deriving DecidableEq, Repr

/-- The fields of `struct block_device` used by the request path.
`role_primary` is `drbd_device->resource->role[NOW] == R_PRIMARY`;
`io_workqueue`, `ref` and `drbd_device` are "pointer is not NULL".
`d_size` is a signed 64-bit byte count (the source tests `d_size <= 0`),
`bd_block_size` an `int` (printed with `%d`); `data_shift` and
`appended_sectors` are `int` sector counts; `disk_prolog` and `disk_epilog`
say whether the cached overlay buffers exist, `prolog` and `epilog` hold their
bytes; `boot_sector`, `has_guids`, `disk_guid` and `partition_guid` are the
boot sector read from the engine and the GUIDs derived from it. -/
structure block_device where
  d_size : Int
  bd_block_size : Int
  role_primary : Bool
  io_workqueue : Bool
  drbd_device : Bool
  ref : Bool
  delete_pending : Bool
  about_to_delete : Bool
  is_bootdevice : Bool
  suprise_removal : Bool
  ejected : Bool
  data_shift : Int
  appended_sectors : Int
  disk_prolog : Bool
  disk_epilog : Bool
  have_read_bootsector : Bool
  prolog : Buffer := kzalloc 0
  epilog : Buffer := kzalloc 0
  has_guids : Bool := false
  disk_guid : List Nat := []
  partition_guid : List Nat := []
  boot_sector : List Nat := []
  deriving DecidableEq, Repr

/-- Everything one request shares with its fragments: the IRP, the aggregator,
the device remove lock (as the number of acquisitions not yet released), and
what the completion path did (aggregator frees, fragments flagged for delayed
completion, copies into the caller buffer as offset and length). -/
structure IoCtx where
  irp : IRP
  common_data : bio_collection
  common_data_freed : Nat
  delayed_io_completion : Nat
  remove_lock : Int
  copies : List (Int × Nat)
  deriving DecidableEq, Repr

/-- Results of the environment calls the request path branches on: the IRQL
test, the wait on `io_not_suspended`, every allocation (the per-fragment ones
indexed by the fragment number `b`), whether the resource is Primary when
`wait_for_becoming_primary` stops waiting, and the value `wait_for_size`
returns. It also carries what the overlay code takes from outside the source
file: the boot sector the engine delivers, the table
`partition_table_template` of the header `partition_table_template.h`, the
function `crc32`, and the bytes `get_random_bytes` produces for the two
GUIDs. -/
structure Env where
  irql_passive : Bool
  io_not_suspended : NTSTATUS
  kzalloc_common_data : Bool
  bio_alloc : Nat → Bool
  kzalloc_page : Nat → Bool
  kmalloc_staging : Nat → Bool
  kzalloc_ioreq : Nat → Bool
  role_after_wait : Bool
  wait_for_size : Int
  boot_sector_data : List Nat := []
  partition_table_template : List Nat := []
  crc32 : List Nat → Nat := fun _ => 0
  random_disk_guid : List Nat := []
  random_partition_guid : List Nat := []

/-! ## Completion of one fragment -/

/-- The status `windrbd_bio_finished` derives for the fragment it is called
for (the local variable `status`). -/
def fragment_status (b : bio) (s : IoCtx) : NTSTATUS :=
  if b.bi_status = 0 then
    if b.bi_opf = Dir.READ then
      if !s.common_data.bc_device_failed && b.bi_upper_irp && s.irp.MdlAddress then
        if b.bi_upper_irp_buffer then STATUS_SUCCESS else STATUS_INVALID_PARAMETER
      else STATUS_SUCCESS
    else STATUS_SUCCESS
  else STATUS_DEVICE_DOES_NOT_EXIST

/-- The copy into the caller buffer a successful read fragment performs:
`RtlCopyMemory(user_buffer+offset, page, bv_len)` with `int offset`. -/
def fragment_copy (b : bio) (s : IoCtx) : List (Int × Nat) :=
  if b.bi_status = 0 ∧ b.bi_opf = Dir.READ ∧
      (!s.common_data.bc_device_failed && b.bi_upper_irp && s.irp.MdlAddress) = true ∧
      b.bi_upper_irp_buffer = true
  then [(s32 b.bi_mdl_offset, b.bv_len)] else []

/-- `windrbd_bio_finished`: called once per fragment when the engine has
finished it. -/
def windrbd_bio_finished (b : bio) (s : IoCtx) : IoCtx :=
  if !b.bi_upper_irp then s
  else
    let status := fragment_status b s
    let total_num_completed := s.common_data.bc_num_requests
    let total_size := s.common_data.bc_total_size
    let num_completed := s.common_data.bc_num_completed + 1
    let cd : bio_collection :=
      { s.common_data with
        bc_num_completed := num_completed
        bc_device_failed := if status ≠ STATUS_SUCCESS then true else s.common_data.bc_device_failed }
    let s1 : IoCtx := { s with common_data := cd, copies := s.copies ++ fragment_copy b s }
    let s2 : IoCtx :=
      if num_completed = total_num_completed then
        let irp1 : IRP :=
          { s1.irp with
            Information := if status = STATUS_SUCCESS then total_size else 0
            Status := status
            status_writes := s1.irp.status_writes + 1 }
        if b.bi_opf = Dir.WRITE then
          { s1 with
            irp := irp1
            delayed_io_completion := s1.delayed_io_completion + 1
            common_data_freed := s1.common_data_freed + 1 }
        else
          { s1 with
            irp := { irp1 with completed := irp1.completed + 1 }
            common_data_freed := s1.common_data_freed + 1 }
      else s1
    { s2 with remove_lock := s2.remove_lock - 1 }

/-- The completion callbacks of a list of fragments, run one after the other
in list order. -/
def run_completions (bs : List bio) (s : IoCtx) : IoCtx :=
  bs.foldl (fun acc b => windrbd_bio_finished b acc) s

/-! ## Splitting a request -/

/-- The expression `int bio_count = (total_size-1) / MAX_BIO_SIZE + 1` with
`unsigned int total_size`. -/
def bio_count (total_size : Nat) : Nat :=
  u32 ((total_size : Int) - 1) / MAX_BIO_SIZE + 1

/-- The variable `last_bio_size`: `total_size % MAX_BIO_SIZE`, replaced by
`MAX_BIO_SIZE` when that is 0. -/
def last_bio_size (total_size : Nat) : Nat :=
  if total_size % MAX_BIO_SIZE = 0 then MAX_BIO_SIZE else total_size % MAX_BIO_SIZE

/-- The bio built in iteration `b` of the loop.  `b*MAX_BIO_SIZE` in the sector
is an `int` product divided by the `int` block size and then added to the
64-bit sector; the buffer offset is `(unsigned long long)b*MAX_BIO_SIZE`. -/
def make_bio (irp : Bool) (dev : block_device) (buffer : Bool) (total_size : Nat)
    (sector : Nat) (rw : Dir) (b : Nat) : bio :=
  let this_bio_size :=
    if b = bio_count total_size - 1 then last_bio_size total_size else MAX_BIO_SIZE
  { bi_opf := rw
    bi_size := this_bio_size
    bi_sector := u64 ((sector : Int) + Int.tdiv (s32 ((b : Int) * MAX_BIO_SIZE)) dev.bd_block_size)
    bi_mdl_offset := u64 ((b : Int) * MAX_BIO_SIZE)
    bi_upper_irp := irp
    bi_upper_irp_buffer := buffer
    bv_len := this_bio_size
    bv_offset := 0
    is_system_buffer := !(irp && rw = Dir.READ)
    bi_status := 0 }

/-- The loop `for (b=0; b<bio_count; b++)`: `n` iterations are left, `b` is the
current index, `queued` the fragments already passed to `queue_work`.  The
result is the status returned and the fragments queued. -/
def submit_loop (env : Env) (irp : Bool) (dev : block_device) (buffer : Bool)
    (total_size : Nat) (sector : Nat) (rw : Dir) :
    Nat → Nat → List bio → NTSTATUS × List bio
  | 0, _, queued => (STATUS_SUCCESS, queued)
  | n + 1, b, queued =>
    if !env.bio_alloc b then (STATUS_INSUFFICIENT_RESOURCES, queued)
    else if !env.kzalloc_page b then (STATUS_INSUFFICIENT_RESOURCES, queued)
    else if (irp && rw = Dir.READ) && !env.kmalloc_staging b then
      (STATUS_INSUFFICIENT_RESOURCES, queued)
    else if !dev.io_workqueue then (MINUS_EINVAL, queued)
    else if !env.kzalloc_ioreq b then (MINUS_ENOMEM, queued)
    else
      submit_loop env irp dev buffer total_size sector rw n (b + 1)
        (queued ++ [make_bio irp dev buffer total_size sector rw b])

/-- The byte offset `sector * dev->bd_block_size`, a 64-bit unsigned product. -/
def byte_offset (dev : block_device) (sector : Nat) : Nat :=
  u64 ((sector : Int) * dev.bd_block_size)

/-- The value of `total_size` after the shortening step: when
`sector * bd_block_size + total_size > d_size` it becomes
`d_size - sector * bd_block_size`, stored in an `unsigned int`. -/
def effective_size (dev : block_device) (sector : Nat) (total_size : Nat) : Nat :=
  if u64 ((byte_offset dev sector : Int) + total_size) > u64 dev.d_size then
    u32 (dev.d_size - byte_offset dev sector)
  else total_size

/-- What one call of `windrbd_make_drbd_requests` leaves behind: the status
returned, the aggregator if it was allocated, whether the IRP was marked
pending, the fragments queued, and (synchronous variant) how many fragments the
caller waited for. -/
structure Submission where
  status : NTSTATUS
  common_data : Option bio_collection
  irp_pending : Bool
  queued : List bio
  sync_waits : Nat
  deriving DecidableEq, Repr

/-- `windrbd_make_drbd_requests(irp, dev, buffer, total_size, sector, rw)`;
`irp` and `buffer` say whether the pointers are non-NULL. -/
def windrbd_make_drbd_requests (env : Env) (irp : Bool) (dev : block_device)
    (buffer : Bool) (total_size : Nat) (sector : Nat) (rw : Dir) : Submission :=
  let reject (st : NTSTATUS) : Submission :=
    { status := st, common_data := none, irp_pending := false, queued := [], sync_waits := 0 }
  if rw = Dir.WRITE ∧ dev.role_primary = false then reject STATUS_INVALID_PARAMETER
  else if byte_offset dev sector ≥ u64 dev.d_size then reject STATUS_INVALID_PARAMETER
  else
    let total_size := effective_size dev sector total_size
    if total_size = 0 then reject STATUS_INVALID_PARAMETER
    else if buffer = false then reject STATUS_INSUFFICIENT_RESOURCES
    else if env.irql_passive = true ∧ env.io_not_suspended ≠ STATUS_SUCCESS then
      reject env.io_not_suspended
    else if env.kzalloc_common_data = false then reject STATUS_INSUFFICIENT_RESOURCES
    else
      let common_data : bio_collection :=
        { bc_num_completed := 0
          bc_total_size := total_size
          bc_num_requests := bio_count total_size
          bc_device_failed := false }
      let r := submit_loop env irp dev buffer total_size sector rw (bio_count total_size) 0 []
      { status := r.1
        common_data := some common_data
        irp_pending := irp
        queued := r.2
        sync_waits := if irp then 0 else r.2.length }


/-- Every allocation of the iterations `b < n` succeeds. -/
def allocations_ok (env : Env) (n : Nat) : Prop :=
  ∀ b, b < n → env.bio_alloc b = true ∧ env.kzalloc_page b = true ∧
    env.kmalloc_staging b = true ∧ env.kzalloc_ioreq b = true


/-! ## The read/write dispatch routine -/

/-- Major function of the current IRP stack location, as far as
`make_drbd_requests_from_irp` distinguishes it. -/
inductive Major
  | IRP_MJ_READ
  | IRP_MJ_WRITE
  | other
  deriving DecidableEq, Repr

/-- The current IRP stack location of a read/write IRP, with what is known of
its MDL: `present` is `s != NULL`, `mdl_next` is `mdl->Next != NULL`,
`system_address` is `MmGetSystemAddressForMdlSafe(mdl, ...) != NULL`.
`Length` is a `ULONG`, `ByteOffset` the signed 64-bit `QuadPart`. -/
structure StackLocation where
  present : Bool
  MajorFunction : Major
  Length : Nat
  ByteOffset : Int
  mdl_next : Bool
  system_address : Bool
  deriving DecidableEq, Repr

/-- What a dispatch routine leaves behind: the status it returns, the IRP, the
remove lock, the aggregator if one was allocated and the fragments queued. -/
structure Dispatched where
  status : NTSTATUS
  irp : IRP
  remove_lock : Int
  common_data : Option bio_collection
  queued : List bio
  deriving DecidableEq, Repr

/-- The pair `irp->IoStatus.Status = status; IoCompleteRequest(irp, ...)`. -/
def complete_irp (irp : IRP) (status : NTSTATUS) : IRP :=
  { irp with
    Status := status
    status_writes := irp.status_writes + 1
    completed := irp.completed + 1 }

/-- `wait_for_becoming_primary(bdev)`: after the wait (whose outcome is
`role_after`, the role being Primary or not) it reports
`STATUS_NO_SUCH_DEVICE` for a `delete_pending` device and otherwise success
exactly when the role is Primary. Without a DRBD device it does not wait. -/
def wait_for_becoming_primary (dev : block_device) (role_after : Bool) :
    NTSTATUS × block_device :=
  if dev.drbd_device = false then (STATUS_INVALID_PARAMETER, dev)
  else if dev.delete_pending then
    (STATUS_NO_SUCH_DEVICE, { dev with role_primary := role_after })
  else
    (if role_after then STATUS_SUCCESS else STATUS_UNSUCCESSFUL,
      { dev with role_primary := role_after })

/-- `make_drbd_requests_from_irp(irp, dev)`. -/
def make_drbd_requests_from_irp (env : Env) (irp : IRP) (s : StackLocation)
    (dev : block_device) : Submission :=
  let reject (st : NTSTATUS) : Submission :=
    { status := st, common_data := none, irp_pending := false, queued := [], sync_waits := 0 }
  if s.present = false then reject STATUS_INSUFFICIENT_RESOURCES
  else if irp.MdlAddress = false then reject STATUS_INVALID_PARAMETER
  else if s.mdl_next then reject STATUS_NOT_IMPLEMENTED
  else
    match s.MajorFunction with
    | Major.other => reject STATUS_INVALID_PARAMETER
    | Major.IRP_MJ_WRITE =>
      if s.system_address = false then reject STATUS_INSUFFICIENT_RESOURCES
      else
        windrbd_make_drbd_requests env true dev true s.Length
          (u64 (Int.tdiv s.ByteOffset dev.bd_block_size)) Dir.WRITE
    | Major.IRP_MJ_READ =>
      if s.system_address = false then reject STATUS_INSUFFICIENT_RESOURCES
      else
        windrbd_make_drbd_requests env true dev true s.Length
          (u64 (Int.tdiv s.ByteOffset dev.bd_block_size)) Dir.READ

/-- `windrbd_io(device, irp)`.  `is_root` says that `device` is one of
`mvolRootDeviceObject`, `user_device_object`, `drbd_bus_device`; `bdev` is
`ref->bdev` (`none` when `ref` or `ref->bdev` is NULL); `lock` is the remove
lock on entry. -/
def windrbd_io (env : Env) (is_root : Bool) (bdev : Option block_device) (lock : Int)
    (irp : IRP) (s : StackLocation) : Dispatched :=
  let gone : Dispatched :=
    { status := STATUS_NO_SUCH_DEVICE
      irp := { complete_irp irp STATUS_NO_SUCH_DEVICE with Information := 0 }
      remove_lock := lock, common_data := none, queued := [] }
  if is_root then
    { status := STATUS_SUCCESS, irp := complete_irp irp STATUS_SUCCESS
      remove_lock := lock, common_data := none, queued := [] }
  else
    match bdev with
    | none => gone
    | some dev =>
      if dev.delete_pending || dev.about_to_delete || !dev.ref then gone
      else if dev.drbd_device = false then
        { status := STATUS_INVALID_DEVICE_REQUEST
          irp := complete_irp irp STATUS_INVALID_DEVICE_REQUEST
          remove_lock := lock, common_data := none, queued := [] }
      else if dev.about_to_delete then
        { status := STATUS_INVALID_DEVICE_REQUEST
          irp := complete_irp irp STATUS_INVALID_DEVICE_REQUEST
          remove_lock := lock + 1 - 1, common_data := none, queued := [] }
      else
        let w : NTSTATUS × block_device :=
          if dev.is_bootdevice && !dev.role_primary then
            wait_for_becoming_primary dev env.role_after_wait
          else (STATUS_SUCCESS, dev)
        if w.1 ≠ STATUS_SUCCESS then
          { status := w.1, irp := complete_irp irp w.1
            remove_lock := lock + 1 - 1, common_data := none, queued := [] }
        else
          let sub := make_drbd_requests_from_irp env irp s w.2
          let irp1 : IRP := { irp with pending := irp.pending || sub.irp_pending }
          if sub.status ≠ STATUS_SUCCESS then
            { status := sub.status, irp := complete_irp irp1 sub.status
              remove_lock := lock + 1 - 1
              common_data := sub.common_data, queued := sub.queued }
          else
            { status := STATUS_PENDING, irp := irp1
              remove_lock := lock + 1
              common_data := sub.common_data, queued := sub.queued }

/-- The request context the fragments of a dispatched request complete
against, when an aggregator was allocated. -/
def Dispatched.ctx (d : Dispatched) : Option IoCtx :=
  d.common_data.map fun cd =>
    { irp := d.irp, common_data := cd, common_data_freed := 0
      delayed_io_completion := 0, remove_lock := d.remove_lock, copies := [] }

/-- The request passes every check that precedes the split loop of
`windrbd_make_drbd_requests` and the aggregator is allocated. -/
def reaches_split_loop (env : Env) (dev : block_device) (buffer : Bool)
    (total_size sector : Nat) (rw : Dir) : Prop :=
  ¬ (rw = Dir.WRITE ∧ dev.role_primary = false) ∧
  byte_offset dev sector < u64 dev.d_size ∧
  effective_size dev sector total_size ≠ 0 ∧
  buffer = true ∧
  ¬ (env.irql_passive = true ∧ env.io_not_suspended ≠ STATUS_SUCCESS) ∧
  env.kzalloc_common_data = true

instance (env : Env) (dev : block_device) (buffer : Bool) (total_size sector : Nat)
    (rw : Dir) : Decidable (reaches_split_loop env dev buffer total_size sector rw) := by
  unfold reaches_split_loop; infer_instance

/-! ## Concrete inputs used to exercise the model -/

/-- An environment in which no wait and no allocation fails. -/
def env_all_ok : Env :=
  { irql_passive := true
    io_not_suspended := STATUS_SUCCESS
    kzalloc_common_data := true
    bio_alloc := fun _ => true
    kzalloc_page := fun _ => true
    kmalloc_staging := fun _ => true
    kzalloc_ioreq := fun _ => true
    role_after_wait := true
    wait_for_size := 0 }

/-- A Primary disk of 4 GiB with 512-byte blocks, set up and not being
removed, without partition overlay. -/
def disk_4G : block_device :=
  { d_size := 4294967296
    bd_block_size := 512
    role_primary := true
    io_workqueue := true
    drbd_device := true
    ref := true
    delete_pending := false
    about_to_delete := false
    is_bootdevice := false
    suprise_removal := false
    ejected := false
    data_shift := 0
    appended_sectors := 0
    disk_prolog := false
    disk_epilog := false
    have_read_bootsector := false }

/-- A fresh IRP with a mapped MDL. -/
def fresh_irp : IRP :=
  { Status := STATUS_PENDING
    Information := 0
    MdlAddress := true
    pending := false
    completed := 0
    status_writes := 0 }

/-- The state the fragments of an asynchronous request complete against once
`windrbd_make_drbd_requests` has returned: the aggregator it allocated, the IRP
(marked pending) and the remove lock held for the request. -/
def Submission.ctx (sub : Submission) (irp : IRP) (lock : Int) : Option IoCtx :=
  sub.common_data.map fun cd =>
    { irp := { irp with pending := irp.pending || sub.irp_pending }
      common_data := cd, common_data_freed := 0
      delayed_io_completion := 0, remove_lock := lock, copies := [] }

/-- The engine finishing fragment number `p.1` of `queued` with errno `p.2`,
for each entry of `order` in turn. -/
def engine_results (queued : List bio) (order : List (Nat × Int)) : List bio :=
  order.filterMap fun p => (queued[p.1]?).map fun b => { b with bi_status := p.2 }

/-! ## The SCSI dispatch routine -/

/-- Operation code `cdb->AsByte[0]` as far as `windrbd_scsi` distinguishes it. -/
inductive ScsiOp
  | SCSIOP_TEST_UNIT_READY
  | SCSIOP_READ
  | SCSIOP_READ16
  | SCSIOP_WRITE
  | SCSIOP_WRITE16
  | SCSIOP_READ_CAPACITY
  | SCSIOP_READ_CAPACITY16
  | SCSIOP_MODE_SENSE
  | unsupported
  deriving DecidableEq, Repr

/-- The field `srb->Function`. -/
inductive SrbFunction
  | SRB_FUNCTION_EXECUTE_SCSI
  | SRB_FUNCTION_IO_CONTROL
  | SRB_FUNCTION_CLAIM_DEVICE
  | SRB_FUNCTION_RELEASE_DEVICE
  | SRB_FUNCTION_SHUTDOWN
  | SRB_FUNCTION_FLUSH
  | unimplemented
  deriving DecidableEq, Repr

/-- The values of `srb->SrbStatus` that occur. -/
inductive SRB_STATUS
  | SRB_STATUS_PENDING
  | SRB_STATUS_SUCCESS
  | SRB_STATUS_INVALID_REQUEST
  | SRB_STATUS_NO_DEVICE
  | SRB_STATUS_DATA_OVERRUN
  deriving DecidableEq, Repr

/-- The SCSI request block with its CDB decoded: `LogicalBlock` and
`TransferBlocks` are the big-endian start sector and sector count of the CDB
(64 and 32 bits in the 16-byte forms, 32 and 16 bits in the 10-byte forms);
`buffer_maps` says that mapping the transfer buffer eventually succeeds. -/
structure SCSI_REQUEST_BLOCK where
  Function : SrbFunction
  Lun : Nat
  opcode : ScsiOp
  LogicalBlock : Nat
  TransferBlocks : Nat
  DataTransferLength : Nat
  SrbStatus : SRB_STATUS
  buffer_maps : Bool
  deriving DecidableEq, Repr

/-- One access to the cached prolog (`epilog = false`) or epilog made on
behalf of a SCSI read or write: a copy out of the cache, a copy into it
(`to_cache`), or the zero fill that replaces the copy when the cache does not
exist. Offsets and length are in bytes; `buffer_offset` counts from the start
of the transfer buffer. -/
structure OverlayCopy where
  epilog : Bool
  to_cache : Bool
  zero_fill : Bool
  buffer_offset : Nat
  cache_offset : Nat
  length : Nat
  deriving DecidableEq, Repr

/-- The local variables of the read/write case of `windrbd_scsi` while the
request is cut along the overlay regions. `buffer` is the offset of the
pointer `buffer` from the start of the transfer buffer. -/
structure ScsiIo where
  start_sector : Nat
  sector_count : Int
  buffer : Nat
  status : NTSTATUS
  copies : List OverlayCopy
  call_drbd : Bool
  io_buffer : Nat
  io_start_sector : Int
  io_sector_count : Int
  deriving DecidableEq, Repr

/-- The part of the request below `data_shift`, served by the prolog. -/
def scsi_prolog_part (dev : block_device) (rw : Dir) (x : ScsiIo) : ScsiIo :=
  if x.start_sector < u64 dev.data_shift ∧ x.sector_count > 0 then
    let n0 := u64 (((u64 dev.data_shift : Int) - x.start_sector) * 512)
    let n := if n0 ≥ u64 (x.sector_count * 512) then u64 (x.sector_count * 512) else n0
    let status :=
      if dev.disk_prolog = false ∧ rw = Dir.WRITE then STATUS_INVALID_PARAMETER
      else STATUS_SUCCESS
    let copies : List OverlayCopy :=
      if dev.disk_prolog then
        [{ epilog := false, to_cache := decide (rw = Dir.WRITE), zero_fill := false
           buffer_offset := x.buffer, cache_offset := u64 ((x.start_sector : Int) * 512)
           length := n }]
      else if rw = Dir.READ then
        [{ epilog := false, to_cache := false, zero_fill := true
           buffer_offset := x.buffer, cache_offset := 0, length := n }]
      else []
    { x with
      start_sector := u64 ((x.start_sector : Int) + (n / 512 : Nat))
      sector_count := s64 (x.sector_count - (n / 512 : Nat))
      buffer := x.buffer + n
      status := status
      copies := x.copies ++ copies }
  else x

/-- The part of the request inside the data region, remembered for
`windrbd_make_drbd_requests`. -/
def scsi_data_part (dev : block_device) (x : ScsiIo) : ScsiIo :=
  if x.sector_count > 0 then
    let excess_sectors :=
      s64 ((u64 ((x.start_sector : Int) + x.sector_count) : Int)
        - s64 (Int.tdiv dev.d_size 512 + dev.data_shift))
    let num_sectors :=
      if excess_sectors > 0 then s64 (x.sector_count - excess_sectors) else x.sector_count
    if num_sectors > 0 then
      { x with
        io_buffer := x.buffer
        io_start_sector := s64 ((x.start_sector : Int) - dev.data_shift)
        io_sector_count := num_sectors
        call_drbd := true
        buffer := x.buffer + (num_sectors * 512).toNat
        sector_count := s64 (x.sector_count - num_sectors)
        start_sector := u64 ((x.start_sector : Int) + num_sectors) }
    else x
  else x

/-- The part of the request at or above the end of the data region, served by
the epilog. -/
def scsi_epilog_part (dev : block_device) (rw : Dir) (x : ScsiIo) : ScsiIo :=
  if x.sector_count > 0 then
    let first_backup_sector := u64 (dev.data_shift + Int.tdiv dev.d_size 512)
    let last_sector := u64 (dev.data_shift + Int.tdiv dev.d_size 512 + dev.appended_sectors)
    if x.start_sector ≥ first_backup_sector then
      let sector_count :=
        if u64 ((x.start_sector : Int) + x.sector_count) > last_sector then
          s64 ((last_sector : Int) - x.start_sector)
        else x.sector_count
      let status :=
        if dev.disk_epilog = false ∧ rw = Dir.WRITE then STATUS_INVALID_PARAMETER
        else STATUS_SUCCESS
      let copies : List OverlayCopy :=
        if dev.disk_epilog then
          [{ epilog := true, to_cache := decide (rw = Dir.WRITE), zero_fill := false
             buffer_offset := x.buffer
             cache_offset := u64 (((x.start_sector : Int) - first_backup_sector) * 512)
             length := u64 (sector_count * 512) }]
        else if rw = Dir.READ then
          [{ epilog := true, to_cache := false, zero_fill := true
             buffer_offset := x.buffer, cache_offset := 0
             length := u64 (sector_count * 512) }]
        else []
      { x with sector_count := sector_count, status := status, copies := x.copies ++ copies }
    else x
  else x

/-- The arguments of the call of `windrbd_make_drbd_requests` that
`windrbd_scsi` makes for the data part of a request: `io_buffer` (as an offset
into the transfer buffer), `io_start_sector` and `io_sector_count`. -/
structure Forwarded where
  io_buffer : Nat
  io_start_sector : Int
  io_sector_count : Int
  deriving DecidableEq, Repr

/-- The macros `REVERSE_BYTES` and `REVERSE_BYTES_QUAD`: the destination
receives the bytes of the source in reverse order. -/
def REVERSE_BYTES (src : List Nat) : List Nat := src.reverse

/-- What `windrbd_scsi` leaves behind: as for `windrbd_io`, plus the SRB, the
accesses to the overlay caches, the call forwarded to
`windrbd_make_drbd_requests` and the bytes of the READ CAPACITY answer in the
data buffer (in memory order). -/
structure ScsiDispatched where
  status : NTSTATUS
  irp : IRP
  srb : Option SCSI_REQUEST_BLOCK
  remove_lock : Int
  common_data : Option bio_collection
  queued : List bio
  copies : List OverlayCopy
  BytesPerBlock : Option (List Nat)
  LogicalBlockAddress : Option (List Nat)
  forwarded : Option Forwarded := none
  deriving DecidableEq, Repr

/-- Sizes of the Windows SDK structures `READ_CAPACITY_DATA`,
`READ_CAPACITY_DATA_EX` and `MODE_PARAMETER_HEADER`. -/
def sizeof_READ_CAPACITY_DATA : Nat := 8

/-- See `sizeof_READ_CAPACITY_DATA`. -/
def sizeof_READ_CAPACITY_DATA_EX : Nat := 12

/-- See `sizeof_READ_CAPACITY_DATA`. -/
def sizeof_MODE_PARAMETER_HEADER : Nat := 4

/-- The size the READ CAPACITY cases compute: the device size (for a boot
device the value `wait_for_size` returns) plus the overlay sectors. -/
def scsi_capacity_size (env : Env) (dev : block_device) : Int :=
  s64 ((if dev.is_bootdevice then env.wait_for_size else dev.d_size)
    + s32 (s32 (dev.data_shift + dev.appended_sectors) * 512))

/-- The label `out:` of `windrbd_scsi`: release the remove lock, store the
status, complete the IRP. -/
def scsi_out (status : NTSTATUS) (irp : IRP) (srb : Option SCSI_REQUEST_BLOCK) (lock : Int)
    (sub : Option Submission) (copies : List OverlayCopy)
    (bpb lba : Option (List Nat)) : ScsiDispatched :=
  { status := status
    irp := complete_irp irp status
    srb := srb
    remove_lock := lock - 1
    common_data := sub.bind fun s => s.common_data
    queued := (sub.map fun s => s.queued).getD []
    copies := copies
    BytesPerBlock := bpb
    LogicalBlockAddress := lba }

/-- The cases `SCSIOP_READ`, `SCSIOP_READ16`, `SCSIOP_WRITE`, `SCSIOP_WRITE16`
of `windrbd_scsi`; `lock` is the remove lock after the acquisition. The
result is `none` when the transfer buffer never maps (the retry loop does not
end). -/
def scsi_read_write (env : Env) (dev : block_device) (lock : Int) (irp : IRP)
    (srb : SCSI_REQUEST_BLOCK) (rw : Dir) : Option ScsiDispatched :=
  let w : NTSTATUS × block_device :=
    if rw = Dir.WRITE ∧ dev.is_bootdevice = true then
      wait_for_becoming_primary dev env.role_after_wait
    else (STATUS_SUCCESS, dev)
  if w.1 ≠ STATUS_SUCCESS then
    some (scsi_out w.1 { irp with Information := 0 }
      (some { srb with SrbStatus := SRB_STATUS.SRB_STATUS_NO_DEVICE, DataTransferLength := 0 })
      lock none [] none none)
  else
    let sector_count0 : Int := srb.TransferBlocks
    let sector_count : Int :=
      if s64 (sector_count0 * 512) > srb.DataTransferLength then
        (srb.DataTransferLength / 512 : Nat)
      else sector_count0
    let srb1 : SCSI_REQUEST_BLOCK :=
      { srb with
        DataTransferLength := u32 (sector_count * 512)
        SrbStatus := SRB_STATUS.SRB_STATUS_SUCCESS }
    if sector_count = 0 then
      some (scsi_out STATUS_SUCCESS { irp with Information := 0 } (some srb1) lock none []
        none none)
    else if srb.buffer_maps = false then none
    else
      let irp1 : IRP :=
        { irp with
          Information := 0
          Status := STATUS_PENDING
          status_writes := irp.status_writes + 1 }
      let x0 : ScsiIo :=
        { start_sector := srb.LogicalBlock, sector_count := sector_count, buffer := 0
          status := STATUS_SUCCESS, copies := [], call_drbd := false
          io_buffer := 0, io_start_sector := 0, io_sector_count := 0 }
      let x := scsi_epilog_part w.2 rw (scsi_data_part w.2 (scsi_prolog_part w.2 rw x0))
      if x.call_drbd then
        let sub := windrbd_make_drbd_requests env true w.2 true
          (u32 (x.io_sector_count * 512)) (u64 x.io_start_sector) rw
        let irp2 : IRP := { irp1 with pending := irp1.pending || sub.irp_pending }
        if sub.status = STATUS_SUCCESS then
          some
            { status := STATUS_PENDING
              irp := irp2
              srb := some srb1
              remove_lock := lock
              common_data := sub.common_data
              queued := sub.queued
              copies := x.copies
              BytesPerBlock := none
              LogicalBlockAddress := none
              forwarded := some
                { io_buffer := x.io_buffer, io_start_sector := x.io_start_sector
                  io_sector_count := x.io_sector_count } }
        else
          some
            { scsi_out sub.status irp2
                (some { srb1 with SrbStatus := SRB_STATUS.SRB_STATUS_NO_DEVICE })
                lock (some sub) x.copies none none with
              forwarded := some
                { io_buffer := x.io_buffer, io_start_sector := x.io_start_sector
                  io_sector_count := x.io_sector_count } }
      else if x.status ≠ STATUS_SUCCESS then
        some (scsi_out x.status irp1
          (some { srb1 with SrbStatus := SRB_STATUS.SRB_STATUS_NO_DEVICE })
          lock none x.copies none none)
      else some (scsi_out x.status irp1 (some srb1) lock none x.copies none none)

/-- `windrbd_scsi(device, irp)`; `bdev` is `ref->bdev` (`none` when `ref` or
`ref->bdev` is NULL), `srb` is `s->Parameters.Scsi.Srb`, `lock` the remove lock
on entry. -/
def windrbd_scsi (env : Env) (bdev : Option block_device) (lock : Int) (irp : IRP)
    (srb : Option SCSI_REQUEST_BLOCK) : Option ScsiDispatched :=
  let gone : ScsiDispatched :=
    { status := STATUS_NO_SUCH_DEVICE
      irp := { complete_irp irp STATUS_NO_SUCH_DEVICE with Information := 0 }
      srb := srb.map fun r => { r with SrbStatus := SRB_STATUS.SRB_STATUS_NO_DEVICE }
      remove_lock := lock, common_data := none, queued := [], copies := []
      BytesPerBlock := none, LogicalBlockAddress := none }
  match bdev with
  | none => some gone
  | some dev =>
    if dev.delete_pending || dev.about_to_delete || !dev.ref then some gone
    else if dev.about_to_delete then
      some (scsi_out STATUS_INVALID_DEVICE_REQUEST irp srb (lock + 1) none [] none none)
    else
      match srb with
      | none => some (scsi_out STATUS_INVALID_DEVICE_REQUEST irp none (lock + 1) none [] none none)
      | some r =>
        let r1 : SCSI_REQUEST_BLOCK := { r with SrbStatus := SRB_STATUS.SRB_STATUS_INVALID_REQUEST }
        let irp1 : IRP := { irp with Information := 0 }
        if r.Lun ≠ 0 then
          some (scsi_out STATUS_INVALID_DEVICE_REQUEST irp1 (some r1) (lock + 1) none [] none none)
        else
          let ok (s : SRB_STATUS) : Option ScsiDispatched :=
            some (scsi_out STATUS_SUCCESS irp1 (some { r1 with SrbStatus := s }) (lock + 1)
              none [] none none)
          match r.Function with
          | SrbFunction.SRB_FUNCTION_EXECUTE_SCSI =>
            match r.opcode with
            | ScsiOp.SCSIOP_TEST_UNIT_READY => ok SRB_STATUS.SRB_STATUS_SUCCESS
            | ScsiOp.SCSIOP_READ => scsi_read_write env dev (lock + 1) irp1 r1 Dir.READ
            | ScsiOp.SCSIOP_READ16 => scsi_read_write env dev (lock + 1) irp1 r1 Dir.READ
            | ScsiOp.SCSIOP_WRITE => scsi_read_write env dev (lock + 1) irp1 r1 Dir.WRITE
            | ScsiOp.SCSIOP_WRITE16 => scsi_read_write env dev (lock + 1) irp1 r1 Dir.WRITE
            | ScsiOp.SCSIOP_READ_CAPACITY =>
              let d_size := scsi_capacity_size env dev
              if d_size > 0 then
                let LargeTemp := s64 (Int.tdiv d_size 512 - 1)
                some (scsi_out STATUS_SUCCESS
                  { irp1 with Information := sizeof_READ_CAPACITY_DATA }
                  (some { r1 with SrbStatus := SRB_STATUS.SRB_STATUS_SUCCESS }) (lock + 1)
                  none [] (some (REVERSE_BYTES (le_bytes 4 512)))
                  (some (if LargeTemp > 0xffffffff then le_bytes 4 (u32 (-1))
                    else REVERSE_BYTES (le_bytes 4 (u32 LargeTemp)))))
              else
                some (scsi_out STATUS_NO_SUCH_DEVICE irp1
                  (some { r1 with SrbStatus := SRB_STATUS.SRB_STATUS_NO_DEVICE }) (lock + 1)
                  none [] (some (REVERSE_BYTES (le_bytes 4 512))) none)
            | ScsiOp.SCSIOP_READ_CAPACITY16 =>
              let d_size := scsi_capacity_size env dev
              if d_size > 0 then
                let LargeTemp := s64 (Int.tdiv d_size 512 - 1)
                some (scsi_out STATUS_SUCCESS
                  { irp1 with Information := sizeof_READ_CAPACITY_DATA_EX }
                  (some { r1 with SrbStatus := SRB_STATUS.SRB_STATUS_SUCCESS }) (lock + 1)
                  none [] (some (REVERSE_BYTES (le_bytes 4 512)))
                  (some (REVERSE_BYTES (le_bytes 8 (u64 LargeTemp)))))
              else
                some (scsi_out STATUS_NO_SUCH_DEVICE irp1
                  (some { r1 with SrbStatus := SRB_STATUS.SRB_STATUS_NO_DEVICE }) (lock + 1)
                  none [] (some (REVERSE_BYTES (le_bytes 4 512))) none)
            | ScsiOp.SCSIOP_MODE_SENSE =>
              if r.DataTransferLength < sizeof_MODE_PARAMETER_HEADER then
                ok SRB_STATUS.SRB_STATUS_DATA_OVERRUN
              else
                some (scsi_out STATUS_SUCCESS
                  { irp1 with Information := sizeof_MODE_PARAMETER_HEADER }
                  (some { r1 with
                    SrbStatus := SRB_STATUS.SRB_STATUS_SUCCESS
                    DataTransferLength := sizeof_MODE_PARAMETER_HEADER })
                  (lock + 1) none [] none none)
            | ScsiOp.unsupported =>
              some (scsi_out STATUS_NOT_IMPLEMENTED irp1 (some r1) (lock + 1) none [] none none)
          | SrbFunction.SRB_FUNCTION_IO_CONTROL => ok SRB_STATUS.SRB_STATUS_INVALID_REQUEST
          | SrbFunction.SRB_FUNCTION_CLAIM_DEVICE => ok SRB_STATUS.SRB_STATUS_SUCCESS
          | SrbFunction.SRB_FUNCTION_RELEASE_DEVICE => ok SRB_STATUS.SRB_STATUS_SUCCESS
          | SrbFunction.SRB_FUNCTION_SHUTDOWN => ok SRB_STATUS.SRB_STATUS_SUCCESS
          | SrbFunction.SRB_FUNCTION_FLUSH => ok SRB_STATUS.SRB_STATUS_SUCCESS
          | SrbFunction.unimplemented =>
            some (scsi_out STATUS_NOT_IMPLEMENTED irp1 (some r1) (lock + 1) none [] none none)

/-! ## Flush and the partition overlay switch -/

/-- The bio `windrbd_flush` builds: the two flags of `bi_opf`, the size, and
the errno the engine leaves in `bi_status`. -/
structure flush_bio where
  REQ_OP_WRITE : Bool
  REQ_PREFLUSH : Bool
  bi_size : Nat
  bi_status : Int
  deriving DecidableEq, Repr

/-- `windrbd_flush(device, irp)` on a disk device: the status returned, the
IRP, and the flush bio passed to `drbd_submit_bio`, if any. -/
def windrbd_flush (bdev : Option block_device) (bio_alloc : Bool) (irp : IRP) :
    NTSTATUS × IRP × Option flush_bio :=
  match bdev with
  | none =>
    (STATUS_NO_SUCH_DEVICE, { complete_irp irp STATUS_NO_SUCH_DEVICE with Information := 0 },
      none)
  | some dev =>
    if dev.delete_pending then
      (STATUS_NO_SUCH_DEVICE,
        { complete_irp irp STATUS_NO_SUCH_DEVICE with Information := 0 }, none)
    else if bio_alloc = false then
      (STATUS_INSUFFICIENT_RESOURCES, complete_irp irp STATUS_INSUFFICIENT_RESOURCES, none)
    else
      (STATUS_PENDING, { irp with pending := true },
        some { REQ_OP_WRITE := true, REQ_PREFLUSH := true, bi_size := 0, bi_status := 0 })

/-- `windrbd_bio_flush_finished(bio)`: the completion callback of the flush
bio, on the IRP stored in `bi_upper_irp`. -/
def windrbd_bio_flush_finished (b : flush_bio) (irp : IRP) : IRP :=
  if b.bi_status = 0 then
    { irp with
      Information := b.bi_size
      Status := STATUS_SUCCESS
      status_writes := irp.status_writes + 1
      completed := irp.completed + 1 }
  else
    { irp with
      Information := 0
      Status := STATUS_UNSUCCESSFUL
      status_writes := irp.status_writes + 1
      completed := irp.completed + 1 }

/-- `fake_partition_table(bdev)`: builds the prolog (boot sector, GPT header
at 0x200, partition entry at 0x400) from the template and the epilog (backup
entry and header) from the prolog, and publishes both. When one of the two
allocations fails the device is left as it is. -/
def fake_partition_table (env : Env) (dev : block_device) (prolog_alloc epilog_alloc : Bool) :
    block_device :=
  let old_partition_size := if dev.disk_prolog then dev.prolog.load_le 0x428 8 else 0
  let my_disk_guid :=
    if dev.has_guids then first_bytes 16 dev.disk_guid
    else first_bytes 16 env.random_disk_guid
  let my_partition_guid :=
    if dev.has_guids then first_bytes 16 dev.partition_guid
    else first_bytes 16 env.random_partition_guid
  if prolog_alloc = false then dev
  else if epilog_alloc = false then dev
  else
    let sectors := Int.tdiv dev.d_size 512
    let p0 := (kzalloc (s32 (dev.data_shift * 512)).toNat).store 0 env.partition_table_template
    let p1 := p0.store_le 0x1ca 4 (u32 (sectors + dev.data_shift + dev.appended_sectors - 1))
    let p2 := p1.store_le 0x220 8 (u64 (sectors + dev.data_shift + dev.appended_sectors - 1))
    let p3 := p2.store_le 0x230 8 (u64 (sectors + dev.data_shift - 1))
    let p4 := p3.store_le 0x428 8
      (if old_partition_size ≠ 0 then old_partition_size
        else u64 (sectors + dev.data_shift - 1))
    let p5 := p4.store 0x238 my_disk_guid
    let p6 := p5.store 0x410 my_partition_guid
    let p7 := p6.store_le 0x258 4 (env.crc32 (p6.load 0x400 (0x80 * 0x80)))
    let p8 := p7.store_le 0x210 4 0
    let p9 := p8.store_le 0x210 4 (env.crc32 (p8.load 0x200 0x5c))
    let last := (s32 ((dev.appended_sectors - 1) * 512)).toNat
    let b0 := (kzalloc (s32 (dev.appended_sectors * 512)).toNat).store last (p9.load 0x200 512)
    let b1 := b0.store 0 (p9.load (512 * 2) 512)
    let swap := b1.load_le (last + 0x20) 8
    let b2 := b1.store_le (last + 0x20) 8 (b1.load_le (last + 0x18) 8)
    let b3 := b2.store_le (last + 0x18) 8 swap
    let b4 := b3.store_le (last + 0x10) 4 0
    let b5 := b4.store_le (last + 0x10) 4 (env.crc32 (b4.load last 0x5c))
    { dev with disk_prolog := true, disk_epilog := true, prolog := p9, epilog := b5 }

/-- The GUIDs `windrbd_check_for_filesystem_and_maybe_start_faking_partition_table`
derives for an NTFS or ReFS boot sector: 8 bytes of serial number (at 0x48
for NTFS, at 0x38 for ReFS) followed by the last 8 bytes of a fixed GUID. -/
def derive_guids (dev : block_device) : block_device :=
  let ntfs := decide ((dev.boot_sector.drop 3).take 4 = [0x4e, 0x54, 0x46, 0x53])
  let refs := decide ((dev.boot_sector.drop 3).take 4 = [0x52, 0x65, 0x46, 0x53])
  let disk_tail := [0xac, 0x5c, 0x0f, 0xb5, 0x55, 0x05, 0x7c, 0xe6]
  let partition_tail := [0x38, 0x0d, 0x87, 0xfe, 0x28, 0x09, 0x7b, 0xa7]
  let dev1 : block_device :=
    if ntfs then
      { dev with
        has_guids := true
        disk_guid := first_bytes 8 (dev.boot_sector.drop 0x48) ++ disk_tail
        partition_guid := first_bytes 8 (dev.boot_sector.drop 0x48) ++ partition_tail }
    else dev
  if refs then
    { dev1 with
      has_guids := true
      disk_guid := first_bytes 8 (dev.boot_sector.drop 0x38) ++ disk_tail
      partition_guid := first_bytes 8 (dev.boot_sector.drop 0x38) ++ partition_tail }
  else dev1

/-- `windrbd_check_for_filesystem_and_maybe_start_faking_partition_table`:
`is_filesystem` is the result of the external `is_filesystem(boot_sector)`.
The status is `STATUS_SUCCESS` for the return value 0 and otherwise the status
of the failed boot sector read. -/
def windrbd_check_for_filesystem_and_maybe_start_faking_partition_table (env : Env)
    (dev : block_device) (is_filesystem prolog_alloc epilog_alloc : Bool) :
    NTSTATUS × block_device :=
  if dev.drbd_device = false ∨ dev.role_primary = false then (STATUS_SUCCESS, dev)
  else if dev.d_size ≤ 0 then (STATUS_SUCCESS, dev)
  else
    let err :=
      if dev.have_read_bootsector then STATUS_SUCCESS
      else (windrbd_make_drbd_requests env false dev true 512 0 Dir.READ).status
    if err ≠ STATUS_SUCCESS then (err, dev)
    else
      let dev1 : block_device :=
        { dev with
          have_read_bootsector := true
          boot_sector := if dev.have_read_bootsector then dev.boot_sector
            else env.boot_sector_data
          data_shift := 0, appended_sectors := 0 }
      if is_filesystem then
        (STATUS_SUCCESS,
          fake_partition_table env
            { derive_guids dev1 with data_shift := 128, appended_sectors := 128 }
            prolog_alloc epilog_alloc)
      else (STATUS_SUCCESS, dev1)

/-- `windrbd_device_size_change(bdev)`. -/
def windrbd_device_size_change (env : Env) (dev : block_device)
    (is_filesystem prolog_alloc epilog_alloc : Bool) : block_device :=
  if dev.d_size > 0 then
    (windrbd_check_for_filesystem_and_maybe_start_faking_partition_table env dev
      is_filesystem prolog_alloc epilog_alloc).2
  else dev

/-! ## The device as a state machine -/

/-- One disk device with the requests it has in flight. `bdev` is `ref->bdev`
of the device object (`none` when there is no block device), `remove_lock` the
number of acquisitions of `w_remove_lock` not yet released, `requests` the
requests for which an aggregator was allocated, `inflight` the fragments that
are at the engine (with the index of their request), `flushes` the flush bios
at the engine, `remove_waiting` says that the REMOVE_DEVICE handler is blocked
in `IoReleaseRemoveLockAndWait`. -/
structure System where
  bdev : Option block_device
  remove_lock : Int
  requests : List IoCtx
  inflight : List (Nat × bio)
  flushes : Nat
  remove_waiting : Bool
  device_removed_event : Bool
  device_ejected_event : Bool
  deriving DecidableEq, Repr

/-- The PnP minor functions of a disk device that are handled without
blocking. -/
inductive PnpMinor
  | IRP_MN_START_DEVICE
  | IRP_MN_QUERY_REMOVE_DEVICE
  | IRP_MN_CANCEL_REMOVE_DEVICE
  | IRP_MN_SURPRISE_REMOVAL
  | IRP_MN_EJECT
  | other
  deriving DecidableEq, Repr

/-- The non-blocking cases of `windrbd_pnp` for a disk device. -/
def windrbd_pnp (sys : System) (minor : PnpMinor) : System :=
  match sys.bdev with
  | none => sys
  | some dev =>
    match minor with
    | PnpMinor.IRP_MN_QUERY_REMOVE_DEVICE =>
      if dev.delete_pending then { sys with device_ejected_event := true } else sys
    | PnpMinor.IRP_MN_CANCEL_REMOVE_DEVICE => { sys with device_ejected_event := true }
    | PnpMinor.IRP_MN_SURPRISE_REMOVAL =>
      { sys with
        bdev := some { dev with suprise_removal := true }
        device_ejected_event := true }
    | PnpMinor.IRP_MN_EJECT => { sys with bdev := some { dev with ejected := true } }
    | PnpMinor.IRP_MN_START_DEVICE => sys
    | PnpMinor.other => sys

/-- `IRP_MN_REMOVE_DEVICE`, first half: up to the call of
`IoReleaseRemoveLockAndWait`. Without `bdev->ref` the handler does not wait
and runs to its end. -/
def pnp_remove_device_begin (sys : System) : System :=
  match sys.bdev with
  | none => sys
  | some dev =>
    let dev1 : block_device := { dev with suprise_removal := false, about_to_delete := true }
    if dev.ref then
      { sys with bdev := some dev1, remove_lock := sys.remove_lock + 1, remove_waiting := true }
    else
      { sys with bdev := some { dev1 with ref := false }, device_removed_event := true }

/-- `IRP_MN_REMOVE_DEVICE`, second half: `IoReleaseRemoveLockAndWait` returns
once no acquisition but the handler's own is outstanding; then `bdev->ref` is
cleared and `device_removed_event` is set. -/
def pnp_remove_device_end (sys : System) : Option System :=
  if sys.remove_waiting = true ∧ sys.remove_lock ≤ 1 then
    some
      { sys with
        bdev := sys.bdev.map fun dev => { dev with ref := false }
        remove_lock := sys.remove_lock - 1
        remove_waiting := false
        device_removed_event := true }
  else none

/-- The operations of the device layer on one disk device. -/
inductive Op
  | io (env : Env) (irp : IRP) (s : StackLocation)
  | scsi (env : Env) (irp : IRP) (srb : Option SCSI_REQUEST_BLOCK)
  | bio_finished (i : Nat) (error : Int)
  | flush (bio_alloc : Bool) (irp : IRP)
  | flush_finished
  | pnp (minor : PnpMinor)
  | remove_device_begin
  | remove_device_end
  | device_size_change (env : Env) (is_filesystem prolog_alloc epilog_alloc : Bool)
  | promote (primary : Bool)
  | other

/-- One operation on the device. `bio_finished i error` is the engine finishing
the in-flight fragment number `i` with errno `error`; `promote` is the role
change that `try_to_promote` inside `wait_for_becoming_primary` brings about;
`other` stands for the dispatch routines that write none of the fields of
`System` (create, close, cleanup, device control, power, system control,
shutdown). The result is
`none` when the operation cannot take place in this state: there is no such
fragment, the remove wait is not over, or `windrbd_bio_finished` would go
through the cleared `bdev->ref`. -/
def step (sys : System) : Op → Option System
  | Op.io env irp s =>
    let d := windrbd_io env false sys.bdev sys.remove_lock irp s
    some
      { sys with
        remove_lock := d.remove_lock
        requests := sys.requests ++ d.ctx.toList
        inflight := sys.inflight ++ d.queued.map fun b => (sys.requests.length, b) }
  | Op.scsi env irp srb =>
    match windrbd_scsi env sys.bdev sys.remove_lock irp srb with
    | none => some { sys with remove_lock := sys.remove_lock + 1 }
    | some d =>
      some
        { sys with
          remove_lock := d.remove_lock
          requests := sys.requests ++
            (d.common_data.map fun cd =>
              ({ irp := d.irp, common_data := cd, common_data_freed := 0
                 delayed_io_completion := 0, remove_lock := d.remove_lock
                 copies := [] } : IoCtx)).toList
          inflight := sys.inflight ++ d.queued.map fun b => (sys.requests.length, b) }
  | Op.bio_finished i error =>
    match sys.inflight[i]?, sys.bdev with
    | some (rid, b), some dev =>
      match sys.requests[rid]? with
      | some ctx =>
        if dev.ref then
          let c := windrbd_bio_finished { b with bi_status := error }
            { ctx with remove_lock := sys.remove_lock }
          some
            { sys with
              requests := sys.requests.set rid c
              remove_lock := c.remove_lock
              inflight := sys.inflight.eraseIdx i }
        else none
      | none => none
    | _, _ => none
  | Op.flush bio_alloc irp =>
    some (if (windrbd_flush sys.bdev bio_alloc irp).2.2.isSome then
      { sys with flushes := sys.flushes + 1 } else sys)
  | Op.flush_finished =>
    if sys.flushes = 0 then none else some { sys with flushes := sys.flushes - 1 }
  | Op.pnp minor => some (windrbd_pnp sys minor)
  | Op.remove_device_begin => some (pnp_remove_device_begin sys)
  | Op.remove_device_end => pnp_remove_device_end sys
  | Op.device_size_change env is_filesystem prolog_alloc epilog_alloc =>
    some
      { sys with
        bdev := sys.bdev.map fun dev =>
          windrbd_device_size_change env dev is_filesystem prolog_alloc epilog_alloc }
  | Op.promote primary =>
    some { sys with bdev := sys.bdev.map fun dev => { dev with role_primary := primary } }
  | Op.other => some sys

/-- A sequence of operations, one after the other. -/
def run (sys : System) : List Op → Option System
  | [] => some sys
  | op :: ops => (step sys op).bind fun s => run s ops

/-- A read of 2 MiB at byte offset 0. -/
def read_2M : StackLocation :=
  { present := true
    MajorFunction := Major.IRP_MJ_READ
    Length := 2097152
    ByteOffset := 0
    mdl_next := false
    system_address := true }

/-- An environment in which only the allocation of the work item of fragment
1 fails. -/
def env_ioreq_fails_at_1 : Env :=
  { env_all_ok with kzalloc_ioreq := fun b => decide (b ≠ 1) }

/-- An environment in which every `bio_alloc` fails and nothing else does. -/
def env_bio_alloc_fails : Env :=
  { env_all_ok with bio_alloc := fun _ => false }

/-- The 4 GiB disk, idle. -/
def idle_system : System :=
  { bdev := some disk_4G
    remove_lock := 0
    requests := []
    inflight := []
    flushes := 0
    remove_waiting := false
    device_removed_event := false
    device_ejected_event := false }

/-- A SCSI READ(10) of 8 sectors at sector 0 with a mapped 4096-byte buffer. -/
def scsi_read_8 : SCSI_REQUEST_BLOCK :=
  { Function := SrbFunction.SRB_FUNCTION_EXECUTE_SCSI
    Lun := 0
    opcode := ScsiOp.SCSIOP_READ
    LogicalBlock := 0
    TransferBlocks := 8
    DataTransferLength := 4096
    SrbStatus := SRB_STATUS.SRB_STATUS_PENDING
    buffer_maps := true }

/-- The 4 GiB disk after a completed `IRP_MN_REMOVE_DEVICE` followed by a
surprise removal notification. -/
def removed_system : System :=
  { bdev := some { disk_4G with about_to_delete := true, ref := false, suprise_removal := true }
    remove_lock := 0
    requests := []
    inflight := []
    flushes := 0
    remove_waiting := false
    device_removed_event := true
    device_ejected_event := true }

/-! ## The overlay regions as the specification names them -/

/-- The split of a read of `n` sectors at presented sector `s` that the
specification describes, for a device with `shift` prolog sectors in front of
`q` data sectors: the sectors below `shift` (prolog), those of the rest that
lie below `shift + q` (data), and what remains (epilog). -/
def region_split (shift q s n : Nat) : Nat × Nat × Nat :=
  let p := min n (shift - s)
  let d := min (n - p) (shift + q - (s + p))
  (p, d, n - p - d)

/-- The 4 GiB disk presented with a partition overlay: 128 prolog sectors,
128 epilog sectors, both caches allocated (and holding zeros). -/
def disk_4G_overlay : block_device :=
  { disk_4G with
    data_shift := 128
    appended_sectors := 128
    disk_prolog := true
    disk_epilog := true
    have_read_bootsector := true
    prolog := kzalloc (128 * 512)
    epilog := kzalloc (128 * 512) }

/-- A SCSI READ(10) of 5 sectors at sector 126 with a mapped 2560-byte
buffer. -/
def scsi_read_5_at_126 : SCSI_REQUEST_BLOCK :=
  { Function := SrbFunction.SRB_FUNCTION_EXECUTE_SCSI
    Lun := 0
    opcode := ScsiOp.SCSIOP_READ
    LogicalBlock := 126
    TransferBlocks := 5
    DataTransferLength := 2560
    SrbStatus := SRB_STATUS.SRB_STATUS_PENDING
    buffer_maps := true }

/-- A SCSI READ(16) of one sector at logical block 2^63 + 2^55 with a mapped
512-byte buffer. -/
def scsi_read16_beyond_2_63 : SCSI_REQUEST_BLOCK :=
  { Function := SrbFunction.SRB_FUNCTION_EXECUTE_SCSI
    Lun := 0
    opcode := ScsiOp.SCSIOP_READ16
    LogicalBlock := 2 ^ 63 + 2 ^ 55
    TransferBlocks := 1
    DataTransferLength := 512
    SrbStatus := SRB_STATUS.SRB_STATUS_PENDING
    buffer_maps := true }

/-- A SCSI READ(10) of one sector at logical block `lba` with a mapped
512-byte buffer. -/
def scsi_read_1_at (lba : Nat) : SCSI_REQUEST_BLOCK :=
  { Function := SrbFunction.SRB_FUNCTION_EXECUTE_SCSI
    Lun := 0
    opcode := ScsiOp.SCSIOP_READ
    LogicalBlock := lba
    TransferBlocks := 1
    DataTransferLength := 512
    SrbStatus := SRB_STATUS.SRB_STATUS_PENDING
    buffer_maps := true }

/-- The state the fragments of a forwarded SCSI request complete against: the
aggregator allocated for it, the IRP and the remove lock as `windrbd_scsi`
left them. -/
def ScsiDispatched.ctx (d : ScsiDispatched) : Option IoCtx :=
  d.common_data.map fun cd =>
    { irp := d.irp, common_data := cd, common_data_freed := 0
      delayed_io_completion := 0, remove_lock := d.remove_lock, copies := [] }

/-! ## Device control -/

/-- The I/O control codes of the two capacity queries of a disk device. -/
inductive IoControlCode
  | IOCTL_DISK_GET_DRIVE_GEOMETRY_EX
  | IOCTL_DISK_GET_LENGTH_INFO
  deriving DecidableEq, Repr

/-- The sizes `sizeof(struct _DISK_GEOMETRY_EX)` and
`sizeof(struct _GET_LENGTH_INFORMATION)` of the Windows SDK structures. -/
structure IoctlSizes where
  DISK_GEOMETRY_EX : Nat
  GET_LENGTH_INFORMATION : Nat
  deriving DecidableEq, Repr

/-- What `windrbd_device_control` leaves behind: the status returned, the IRP,
and the fields written to the output buffer: the geometry
(`BytesPerSector`, `Cylinders`, `TracksPerCylinder`, `SectorsPerTrack`),
`DiskSize.QuadPart` and `Length.QuadPart`. -/
structure DeviceControlled where
  status : NTSTATUS
  irp : IRP
  Geometry : Option (Nat × Int × Nat × Nat)
  DiskSize : Option Int
  Length : Option Int
  deriving DecidableEq, Repr

/-- `fill_drive_geometry(g, dev)`; `none` when the division
`d_size / bd_block_size` traps (division by zero, or the quotient of -2^63
by -1). -/
def fill_drive_geometry (dev : block_device) : Option (Nat × Int × Nat × Nat) :=
  if dev.bd_block_size = 0 ∨ (dev.d_size = -2 ^ 63 ∧ dev.bd_block_size = -1) then none
  else
    some (u32 dev.bd_block_size,
      Int.tdiv (Int.tdiv (Int.tdiv dev.d_size dev.bd_block_size) 255) 63, 255, 63)

/-- `windrbd_device_control(device, irp)` on a disk device (neither the bus
device nor the root or user device), for the control codes
`IOCTL_DISK_GET_DRIVE_GEOMETRY_EX` and `IOCTL_DISK_GET_LENGTH_INFO`; `bdev` is
`ref->bdev` (`none` when `ref` or `ref->bdev` is NULL). The result is `none`
when `fill_drive_geometry` traps. -/
def windrbd_device_control (env : Env) (sz : IoctlSizes) (bdev : Option block_device)
    (irp : IRP) (code : IoControlCode) (OutputBufferLength : Nat) :
    Option DeviceControlled :=
  let out (status : NTSTATUS) (irp : IRP) (g : Option (Nat × Int × Nat × Nat))
      (d l : Option Int) : Option DeviceControlled :=
    some
      { status := status, irp := complete_irp irp status, Geometry := g, DiskSize := d
        Length := l }
  match bdev with
  | none => out STATUS_NO_SUCH_DEVICE { irp with Information := 0 } none none none
  | some dev0 =>
    if dev0.delete_pending then
      out STATUS_NO_SUCH_DEVICE { irp with Information := 0 } none none none
    else
      let w : NTSTATUS × block_device :=
        if dev0.is_bootdevice then wait_for_becoming_primary dev0 env.role_after_wait
        else (STATUS_SUCCESS, dev0)
      let dev := w.2
      if w.1 ≠ STATUS_SUCCESS then out w.1 irp none none none
      else
        match code with
        | IoControlCode.IOCTL_DISK_GET_DRIVE_GEOMETRY_EX =>
          if OutputBufferLength < sz.DISK_GEOMETRY_EX then
            out STATUS_BUFFER_TOO_SMALL irp none none none
          else
            match fill_drive_geometry dev with
            | none => none
            | some g =>
              out STATUS_SUCCESS { irp with Information := sz.DISK_GEOMETRY_EX }
                (some g) (some dev.d_size) none
        | IoControlCode.IOCTL_DISK_GET_LENGTH_INFO =>
          if OutputBufferLength < sz.GET_LENGTH_INFORMATION then
            out STATUS_BUFFER_TOO_SMALL irp none none none
          else
            out STATUS_SUCCESS { irp with Information := sz.GET_LENGTH_INFORMATION }
              none none (some dev.d_size)

/-- The sizes of the two structures in the Windows SDK for x64. -/
def sdk_sizes : IoctlSizes := { DISK_GEOMETRY_EX := 40, GET_LENGTH_INFORMATION := 8 }

/-! ## Byte order as the specification names it -/

/-- The integer that the bytes `bytes` hold in big-endian order (most
significant byte first). -/
def be_value (bytes : List Nat) : Nat := bytes.foldl (fun acc b => acc * 256 + b) 0

/-- A SCSI READ CAPACITY(16) request. -/
def scsi_read_capacity16 : SCSI_REQUEST_BLOCK :=
  { Function := SrbFunction.SRB_FUNCTION_EXECUTE_SCSI
    Lun := 0
    opcode := ScsiOp.SCSIOP_READ_CAPACITY16
    LogicalBlock := 0
    TransferBlocks := 0
    DataTransferLength := 12
    SrbStatus := SRB_STATUS.SRB_STATUS_PENDING
    buffer_maps := true }

/-- The 4 GiB disk with overlay whose cached prolog and epilog hold only
zeros (as after the table sectors have been overwritten with zeros). -/
def disk_4G_wiped : block_device :=
  { disk_4G_overlay with prolog := kzalloc (128 * 512), epilog := kzalloc (128 * 512) }

/-- The 4 GiB disk with overlay whose prolog holds the partition end 8388735
(= 4 GiB / 512 + 128 - 1) at offset 0x428. -/
def disk_4G_published : block_device :=
  { disk_4G_overlay with
    prolog := (kzalloc (128 * 512)).store_le 0x428 8 8388735
    epilog := kzalloc (128 * 512) }

/-! ## The synchronous variant -/

/-- `windrbd_internal_io_finished(bio)`, the completion callback of the
synchronous variant: it sets the event the submitting thread waits for and
reads no field of the bio. The result says that the event is signalled. -/
def windrbd_internal_io_finished (_b : bio) : Bool := true

/-- The synchronous variant of `windrbd_make_drbd_requests` (`irp == NULL`)
together with the engine: `engine b` is the errno the engine leaves in
`bi_status` of fragment `b` before it calls `bi_end_io`. For each fragment the
loop waits until the event is signalled and then frees the fragment. The
result is the status returned and the fragments as the engine completed them;
it is `none` when an event is never signalled. -/
def windrbd_make_drbd_requests_sync (env : Env) (dev : block_device) (buffer : Bool)
    (total_size sector : Nat) (rw : Dir) (engine : Nat → Int) :
    Option (NTSTATUS × List bio) :=
  let sub := windrbd_make_drbd_requests env false dev buffer total_size sector rw
  let completed := sub.queued.enum.map fun p => { p.2 with bi_status := engine p.1 }
  if completed.all windrbd_internal_io_finished then some (sub.status, completed) else none

/-- `read_boot_sector_from_drbd(bdev, bootsect)`. -/
def read_boot_sector_from_drbd (env : Env) (dev : block_device) (engine : Nat → Int) :
    Option (NTSTATUS × List bio) :=
  windrbd_make_drbd_requests_sync env dev true 512 0 Dir.READ engine

/-! ## Create and close -/

/-- `windrbd_create(device, irp)` on a disk device. `num_openers` is
`dev->num_openers` (an `int`) before the call, `drbd_open_err` the value
`drbd_open` returns; `dev->drbd_device->this_bdev` is the device itself. The
result is the status, the IRP and `num_openers` after the call. -/
def windrbd_create (env : Env) (bdev : Option block_device) (num_openers : Int) (irp : IRP)
    (drbd_open_err : Int) : NTSTATUS × IRP × Int :=
  match bdev with
  | none =>
    (STATUS_NO_SUCH_DEVICE, { complete_irp irp STATUS_NO_SUCH_DEVICE with Information := 0 },
      num_openers)
  | some dev =>
    if dev.delete_pending then
      (STATUS_NO_SUCH_DEVICE,
        { complete_irp irp STATUS_NO_SUCH_DEVICE with Information := 0 }, num_openers)
    else
      let status : NTSTATUS :=
        if dev.drbd_device then
          let w : NTSTATUS :=
            if dev.is_bootdevice then (wait_for_becoming_primary dev env.role_after_wait).1
            else STATUS_SUCCESS
          if w ≠ STATUS_SUCCESS then w
          else if drbd_open_err < 0 then STATUS_INVALID_DEVICE_REQUEST
          else STATUS_SUCCESS
        else STATUS_SUCCESS
      (status, complete_irp irp status,
        if status = STATUS_SUCCESS then s32 (num_openers + 1) else num_openers)

/-- `windrbd_close(device, irp)` on a disk device; arguments and result as for
`windrbd_create`. The `release` method of the disk is taken not to write
`num_openers`. -/
def windrbd_close (bdev : Option block_device) (num_openers : Int) (irp : IRP) :
    NTSTATUS × IRP × Int :=
  match bdev with
  | none =>
    (STATUS_NO_SUCH_DEVICE, { complete_irp irp STATUS_NO_SUCH_DEVICE with Information := 0 },
      num_openers)
  | some dev =>
    if dev.delete_pending then
      (STATUS_SUCCESS, { complete_irp irp STATUS_SUCCESS with Information := 0 }, num_openers)
    else
      (STATUS_SUCCESS, complete_irp irp STATUS_SUCCESS,
        if num_openers > 0 then num_openers - 1 else num_openers)

/-- A create or a close call on a disk device, with the state of the device
and the outcomes of the environment at the time of the call. -/
inductive OpenClose
  | create (env : Env) (bdev : Option block_device) (irp : IRP) (drbd_open_err : Int)
  | close (bdev : Option block_device) (irp : IRP)

/-- The value of `num_openers` after one call. -/
def open_close (num_openers : Int) : OpenClose → Int
  | OpenClose.create env bdev irp err => (windrbd_create env bdev num_openers irp err).2.2
  | OpenClose.close bdev irp => (windrbd_close bdev num_openers irp).2.2

/-! ## Threads (`windrbd_threads.c`) -/

/-- The fields of `struct task_struct` that `windrbd_threads.c` uses.
`windows_thread`, `wait_queue` and `wait_queue_entry` are "pointer is not
NULL"; `threadfn`, `data` and `comm` are kept as given; `start_event` and
`sig_event` say whether the event is signalled. -/
structure task_struct where
  windows_thread : Bool
  threadfn : Nat
  data : Nat
  comm : List Nat
  pid : Int
  is_root : Int
  has_sig_event : Bool
  sig : Int
  in_rcu : Bool
  is_zombie : Bool
  thread_started : Bool
  start_event : Bool
  sig_event : Bool
  wait_queue : Bool
  wait_queue_entry : Bool
  deriving DecidableEq, Repr

/-- `kthread_create(threadfn, data, name, ...)`: `alloc` says whether `kzalloc`
succeeds, `comm` is the formatted name, `current_is_root` the `is_root` of the
calling thread, `next_pid` the counter before the call, `status` what
`windrbd_create_windows_thread` returns. The result is the task (`none` for
`ERR_PTR(-ENOMEM)`) and the counter after the call. -/
def kthread_create (alloc : Bool) (threadfn data : Nat) (comm : List Nat)
    (current_is_root : Int) (next_pid : Int) (status : NTSTATUS) :
    Option task_struct × Int :=
  if alloc = false then (none, next_pid)
  else if status ≠ STATUS_SUCCESS then (none, s32 (next_pid + 1))
  else
    (some
      { windows_thread := true
        threadfn := threadfn
        data := data
        comm := comm
        pid := s32 (next_pid + 1)
        is_root := current_is_root
        has_sig_event := true
        sig := -1
        in_rcu := false
        is_zombie := false
        thread_started := false
        start_event := false
        sig_event := false
        wait_queue := false
        wait_queue_entry := false },
      s32 (next_pid + 1))

/-- `wake_up_process(t)`: the value returned and the task afterwards. -/
def wake_up_process (t : task_struct) : Int × task_struct :=
  if t.thread_started then (0, t)
  else (1, { t with thread_started := true, start_event := true })

/-- `windrbd_thread_setup(t)` up to the return of
`KeWaitForSingleObject(&t->start_event, ...)`: the wait returns once the event
is signalled and resets it (a synchronization event); `none` while the thread
stays blocked. -/
def windrbd_thread_setup_wait (t : task_struct) : Option task_struct :=
  if t.start_event then some { t with start_event := false } else none

/-- `windrbd_thread_setup(t)` after the thread function has returned. -/
def windrbd_thread_setup_exit (t : task_struct) : task_struct :=
  { t with is_zombie := true }

/-- What happens to one task: a call of `wake_up_process`, or the next stage of
its own thread. -/
inductive TaskOp
  | wake
  | thread_waits
  | thread_exits
  deriving DecidableEq, Repr

/-- One operation on a task; `none` when the thread cannot take the stage. -/
def task_step (t : task_struct) : TaskOp → Option task_struct
  | TaskOp.wake => some (wake_up_process t).2
  | TaskOp.thread_waits => windrbd_thread_setup_wait t
  | TaskOp.thread_exits => some (windrbd_thread_setup_exit t)

/-- A sequence of operations on a task. -/
def task_run (t : task_struct) : List TaskOp → Option task_struct
  | [] => some t
  | op :: ops => (task_step t op).bind fun s => task_run s ops

/-! ## More concrete inputs -/

/-- A SCSI READ CAPACITY(10) request. -/
def scsi_read_capacity10 : SCSI_REQUEST_BLOCK :=
  { Function := SrbFunction.SRB_FUNCTION_EXECUTE_SCSI
    Lun := 0
    opcode := ScsiOp.SCSIOP_READ_CAPACITY
    LogicalBlock := 0
    TransferBlocks := 0
    DataTransferLength := 8
    SrbStatus := SRB_STATUS.SRB_STATUS_PENDING
    buffer_maps := true }

/-- A SCSI WRITE(10) of one sector at logical block `lba` with a mapped
512-byte buffer. -/
def scsi_write_1_at (lba : Nat) : SCSI_REQUEST_BLOCK :=
  { Function := SrbFunction.SRB_FUNCTION_EXECUTE_SCSI
    Lun := 0
    opcode := ScsiOp.SCSIOP_WRITE
    LogicalBlock := lba
    TransferBlocks := 1
    DataTransferLength := 512
    SrbStatus := SRB_STATUS.SRB_STATUS_PENDING
    buffer_maps := true }

/-- The disk with overlay after its size was set to 0 (the overlay stays). -/
def disk_overlay_no_size : block_device := { disk_4G_overlay with d_size := 0 }

/-- The disk with overlay as a boot device. -/
def boot_disk_overlay : block_device := { disk_4G_overlay with is_bootdevice := true }

/-- An environment in which `wait_for_size` returns -1. -/
def env_size_unknown : Env := { env_all_ok with wait_for_size := -1 }

/-- A FAT boot sector: jump, then the OEM name "MSDOS5.0" at offset 3. -/
def boot_sector_fat : List Nat :=
  [0xeb, 0x3c, 0x90, 0x4d, 0x53, 0x44, 0x4f, 0x53, 0x35, 0x2e, 0x30]

/-- An NTFS boot sector: "NTFS" at offset 3 and the volume serial number
1, 2, ..., 8 at offset 0x48. -/
def boot_sector_ntfs : List Nat :=
  [0xeb, 0x52, 0x90, 0x4e, 0x54, 0x46, 0x53] ++ List.replicate 65 0x20 ++
    [1, 2, 3, 4, 5, 6, 7, 8]

/-- The 4 GiB disk whose boot sector has been read and is `bs`. -/
def disk_4G_with_boot_sector (bs : List Nat) : block_device :=
  { disk_4G with have_read_bootsector := true, boot_sector := bs }

/-- Two environments that differ in the bytes `get_random_bytes` delivers. -/
def env_random_a : Env :=
  { env_all_ok with
    random_disk_guid := List.replicate 16 0x11
    random_partition_guid := List.replicate 16 0x22 }

/-- See `env_random_a`. -/
def env_random_b : Env :=
  { env_all_ok with
    random_disk_guid := List.replicate 16 0x33
    random_partition_guid := List.replicate 16 0x44 }
/-! ## Arithmetic helpers -/

theorem u32_of_lt (x : Int) (h0 : 0 ≤ x) (h : x < 2 ^ 32) : u32 x = x.toNat := by
  unfold u32; omega

theorem u64_of_lt (x : Int) (h0 : 0 ≤ x) (h : x < 2 ^ 64) : u64 x = x.toNat := by
  unfold u64; omega

theorem bio_count_eq (L : Nat) (h0 : 0 < L) (h : L < 2 ^ 32) :
    bio_count L = (L + MAX_BIO_SIZE - 1) / MAX_BIO_SIZE := by
  unfold bio_count u32 MAX_BIO_SIZE; omega

theorem bio_count_pos (L : Nat) : 0 < bio_count L := by
  unfold bio_count; exact Nat.succ_pos _

theorem last_bio_size_le (L : Nat) : last_bio_size L ≤ MAX_BIO_SIZE := by
  unfold last_bio_size MAX_BIO_SIZE; split <;> omega

theorem split_sum (L : Nat) (h0 : 0 < L) (h : L < 2 ^ 32) :
    (bio_count L - 1) * MAX_BIO_SIZE + last_bio_size L = L := by
  unfold bio_count last_bio_size u32 MAX_BIO_SIZE; split <;> omega

/-! ## The split loop when nothing fails -/

theorem submit_loop_ok (env : Env) (irp : Bool) (dev : block_device) (buffer : Bool)
    (L sector : Nat) (rw : Dir) (hq : dev.io_workqueue = true) :
    ∀ (n b : Nat) (queued : List bio), allocations_ok env (b + n) →
      submit_loop env irp dev buffer L sector rw n b queued =
        (STATUS_SUCCESS, queued ++ (List.range' b n).map (make_bio irp dev buffer L sector rw)) := by
  intro n
  induction n with
  | zero => intro b queued _; simp [submit_loop]
  | succ n ih =>
    intro b queued h
    obtain ⟨h1, h2, h3, h4⟩ := h b (by omega)
    have h' : allocations_ok env (b + 1 + n) := by
      intro i hi; exact h i (by omega)
    simp [submit_loop, h1, h2, h3, h4, hq, ih (b + 1) _ h', List.range'_succ]

theorem submit_loop_success (env : Env) (irp : Bool) (dev : block_device) (buffer : Bool)
    (L sector : Nat) (rw : Dir) :
    ∀ (n b : Nat) (queued : List bio),
      (submit_loop env irp dev buffer L sector rw n b queued).1 = STATUS_SUCCESS →
      (submit_loop env irp dev buffer L sector rw n b queued).2 =
        queued ++ (List.range' b n).map (make_bio irp dev buffer L sector rw) := by
  intro n
  induction n with
  | zero => intro b queued _; simp [submit_loop]
  | succ n ih =>
    intro b queued h
    unfold submit_loop at h ⊢
    split_ifs at h ⊢
    simp_all [List.range'_succ]


/-- The whole result of `windrbd_make_drbd_requests` for a request that
reaches the split loop when no allocation fails and the work queue exists. -/
theorem make_requests_ok (env : Env) (irp : Bool) (dev : block_device) (buffer : Bool)
    (total_size sector : Nat) (rw : Dir)
    (hreach : reaches_split_loop env dev buffer total_size sector rw)
    (halloc : allocations_ok env (bio_count (effective_size dev sector total_size)))
    (hq : dev.io_workqueue = true) :
    windrbd_make_drbd_requests env irp dev buffer total_size sector rw =
      { status := STATUS_SUCCESS
        common_data := some
          { bc_num_completed := 0
            bc_total_size := effective_size dev sector total_size
            bc_num_requests := bio_count (effective_size dev sector total_size)
            bc_device_failed := false }
        irp_pending := irp
        queued := (List.range' 0 (bio_count (effective_size dev sector total_size))).map
          (make_bio irp dev buffer (effective_size dev sector total_size) sector rw)
        sync_waits := if irp then 0
          else bio_count (effective_size dev sector total_size) } := by
  obtain ⟨h1, h2, h3, h4, h5, h6⟩ := hreach
  have hl := submit_loop_ok env irp dev buffer (effective_size dev sector total_size) sector rw hq
    (bio_count (effective_size dev sector total_size)) 0 [] (by simpa using halloc)
  unfold windrbd_make_drbd_requests
  rw [if_neg h1, if_neg (by omega), if_neg h3, if_neg (by simp [h4]), if_neg h5,
    if_neg (by simp [h6])]
  simp [hl]

/-- A successful return of `windrbd_make_drbd_requests` means that every
check was passed and every fragment of the request was queued. -/
theorem make_requests_success (env : Env) (irp : Bool) (dev : block_device) (buffer : Bool)
    (total_size sector : Nat) (rw : Dir)
    (h : (windrbd_make_drbd_requests env irp dev buffer total_size sector rw).status
      = STATUS_SUCCESS) :
    reaches_split_loop env dev buffer total_size sector rw ∧
    (windrbd_make_drbd_requests env irp dev buffer total_size sector rw).common_data = some
      { bc_num_completed := 0
        bc_total_size := effective_size dev sector total_size
        bc_num_requests := bio_count (effective_size dev sector total_size)
        bc_device_failed := false } ∧
    (windrbd_make_drbd_requests env irp dev buffer total_size sector rw).queued =
      (List.range' 0 (bio_count (effective_size dev sector total_size))).map
        (make_bio irp dev buffer (effective_size dev sector total_size) sector rw) := by
  by_cases h1 : rw = Dir.WRITE ∧ dev.role_primary = false
  · simp [windrbd_make_drbd_requests, h1] at h
  by_cases h2 : byte_offset dev sector ≥ u64 dev.d_size
  · simp [windrbd_make_drbd_requests, h1, h2] at h
  by_cases h3 : effective_size dev sector total_size = 0
  · simp [windrbd_make_drbd_requests, h1, h2, h3] at h
  by_cases h4 : buffer = false
  · simp [windrbd_make_drbd_requests, h1, h2, h3, h4] at h
  by_cases h5 : env.irql_passive = true ∧ env.io_not_suspended ≠ STATUS_SUCCESS
  · simp [windrbd_make_drbd_requests, h1, h2, h3, h4, h5] at h
  by_cases h6 : env.kzalloc_common_data = false
  · simp [windrbd_make_drbd_requests, h1, h2, h3, h4, h5, h6] at h
  unfold windrbd_make_drbd_requests at h ⊢
  rw [if_neg h1, if_neg h2] at h ⊢
  simp only [if_neg h3, if_neg h4, if_neg h5, if_neg h6] at h ⊢
  have hs := submit_loop_success env irp dev buffer (effective_size dev sector total_size)
    sector rw (bio_count (effective_size dev sector total_size)) 0 [] h
  refine ⟨⟨h1, by omega, h3, by simpa using h4, h5, by simpa using h6⟩, ?_, ?_⟩
  · simp
  · simpa using hs

theorem getElem?_map_range' {α : Type} (f : Nat → α) (n i : Nat) (h : i < n) :
    ((List.range' 0 n).map f)[i]? = some (f i) := by
  rw [List.getElem?_map, @List.getElem?_range' 0 1 i n h]; simp

theorem make_bio_size (irp : Bool) (dev : block_device) (buffer : Bool)
    (L sector : Nat) (rw : Dir) (b : Nat) :
    (make_bio irp dev buffer L sector rw b).bi_size =
      if b = bio_count L - 1 then last_bio_size L else MAX_BIO_SIZE := rfl

theorem sum_sizes_aux (f : Nat → Nat) (C : Nat) :
    ∀ n : Nat, (∀ i, i < n → f i = C) → ((List.range n).map f).sum = n * C := by
  intro n
  induction n with
  | zero => intro _; simp
  | succ n ih =>
    intro h
    rw [List.range_succ, List.map_append, List.sum_append, ih (fun i hi => h i (by omega))]
    simp [h n (by omega)]; ring

/-- The sizes of the fragments created for an effective length `L` add up
to `L`. -/
theorem fragment_sizes_sum (irp : Bool) (dev : block_device) (buffer : Bool)
    (L sector : Nat) (rw : Dir) (h0 : 0 < L) (h : L < 2 ^ 32) :
    (((List.range' 0 (bio_count L)).map (make_bio irp dev buffer L sector rw)).map
      bio.bi_size).sum = L := by
  obtain ⟨m, hm⟩ : ∃ m, bio_count L = m + 1 := ⟨bio_count L - 1, by
    have := bio_count_pos L; omega⟩
  have hsum := split_sum L h0 h
  rw [← List.range_eq_range', List.map_map, hm, List.range_succ, List.map_append,
    List.sum_append, sum_sizes_aux _ MAX_BIO_SIZE m]
  · simp [make_bio_size, hm]
    rw [hm] at hsum; simpa using hsum
  · intro i hi
    simp [make_bio_size, hm]
    omega

/-- What one call of `windrbd_bio_finished` does to the shared state. -/
theorem bio_finished_step (b : bio) (s : IoCtx) (hb : b.bi_upper_irp = true) :
    (windrbd_bio_finished b s).common_data.bc_num_completed
        = s.common_data.bc_num_completed + 1 ∧
    (windrbd_bio_finished b s).common_data.bc_num_requests = s.common_data.bc_num_requests ∧
    (windrbd_bio_finished b s).common_data.bc_total_size = s.common_data.bc_total_size ∧
    (windrbd_bio_finished b s).remove_lock = s.remove_lock - 1 ∧
    (s.common_data.bc_num_completed + 1 ≠ s.common_data.bc_num_requests →
      (windrbd_bio_finished b s).irp = s.irp ∧
      (windrbd_bio_finished b s).delayed_io_completion = s.delayed_io_completion ∧
      (windrbd_bio_finished b s).common_data_freed = s.common_data_freed) ∧
    (s.common_data.bc_num_completed + 1 = s.common_data.bc_num_requests →
      (windrbd_bio_finished b s).irp.status_writes = s.irp.status_writes + 1 ∧
      (windrbd_bio_finished b s).irp.completed + (windrbd_bio_finished b s).delayed_io_completion
        = s.irp.completed + s.delayed_io_completion + 1 ∧
      (windrbd_bio_finished b s).common_data_freed = s.common_data_freed + 1 ∧
      (windrbd_bio_finished b s).irp.Status = fragment_status b s ∧
      (windrbd_bio_finished b s).irp.Information
        = (if fragment_status b s = STATUS_SUCCESS then s.common_data.bc_total_size else 0)) := by
  unfold windrbd_bio_finished
  simp only [hb, Bool.not_true, Bool.false_eq_true, if_false]
  by_cases hc : s.common_data.bc_num_completed + 1 = s.common_data.bc_num_requests
  · by_cases hw : b.bi_opf = Dir.WRITE
    · simp [hc, hw]; omega
    · simp [hc, hw]; omega
  · simp [hc]

theorem run_completions_append (xs ys : List bio) (s : IoCtx) :
    run_completions (xs ++ ys) s = run_completions ys (run_completions xs s) := by
  simp [run_completions, List.foldl_append]

theorem run_completions_concat (xs : List bio) (b : bio) (s : IoCtx) :
    run_completions (xs ++ [b]) s = windrbd_bio_finished b (run_completions xs s) := by
  simp [run_completions, List.foldl_append]

/-- As long as fewer fragments have completed than the request has, the
completion callbacks only count: the IRP is untouched, nothing is signalled and
the aggregator is not freed. -/
theorem run_completions_counting (bs : List bio) :
    ∀ s : IoCtx, (∀ b ∈ bs, b.bi_upper_irp = true) →
      s.common_data.bc_num_completed + bs.length < s.common_data.bc_num_requests →
      (run_completions bs s).common_data.bc_num_completed
          = s.common_data.bc_num_completed + bs.length ∧
      (run_completions bs s).common_data.bc_num_requests = s.common_data.bc_num_requests ∧
      (run_completions bs s).common_data.bc_total_size = s.common_data.bc_total_size ∧
      (run_completions bs s).remove_lock = s.remove_lock - bs.length ∧
      (run_completions bs s).irp = s.irp ∧
      (run_completions bs s).delayed_io_completion = s.delayed_io_completion ∧
      (run_completions bs s).common_data_freed = s.common_data_freed := by
  induction bs using List.reverseRecOn with
  | nil => intro s _ _; simp [run_completions]
  | append_singleton xs b ih =>
    intro s hirp hlt
    simp only [List.length_append, List.length_singleton] at hlt
    obtain ⟨i1, i2, i3, i4, i5, i6, i7⟩ :=
      ih s (fun x hx => hirp x (by simp [hx])) (by omega)
    obtain ⟨j1, j2, j3, j4, j5, _⟩ :=
      bio_finished_step b (run_completions xs s) (hirp b (by simp))
    obtain ⟨k1, k2, k3⟩ := j5 (by omega)
    rw [run_completions_concat]
    simp only [List.length_append, List.length_singleton, Nat.cast_add, Nat.cast_one]
    refine ⟨by omega, by omega, by omega, by omega, ?_, by omega, by omega⟩
    rw [k1, i5]

/-- When the callbacks of all fragments of a request have run, the IRP status
was written once, the completion was signalled once and the aggregator was
freed once, all by the last call, which reports its own fragment status. -/
theorem run_completions_all (xs : List bio) (b : bio) (s : IoCtx)
    (hirp : ∀ x ∈ xs ++ [b], x.bi_upper_irp = true)
    (hN : s.common_data.bc_num_completed + (xs.length + 1) = s.common_data.bc_num_requests) :
    (run_completions (xs ++ [b]) s).common_data.bc_num_completed
        = s.common_data.bc_num_requests ∧
    (run_completions (xs ++ [b]) s).remove_lock = s.remove_lock - (xs.length + 1) ∧
    (run_completions (xs ++ [b]) s).irp.status_writes = s.irp.status_writes + 1 ∧
    (run_completions (xs ++ [b]) s).irp.completed
        + (run_completions (xs ++ [b]) s).delayed_io_completion
      = s.irp.completed + s.delayed_io_completion + 1 ∧
    (run_completions (xs ++ [b]) s).common_data_freed = s.common_data_freed + 1 ∧
    (run_completions (xs ++ [b]) s).irp.Status = fragment_status b (run_completions xs s) ∧
    (run_completions (xs ++ [b]) s).irp.Information
      = (if fragment_status b (run_completions xs s) = STATUS_SUCCESS
          then s.common_data.bc_total_size else 0) := by
  obtain ⟨i1, i2, i3, i4, i5, i6, i7⟩ :=
    run_completions_counting xs s (fun x hx => hirp x (by simp [hx])) (by omega)
  obtain ⟨j1, j2, j3, j4, _, j6⟩ :=
    bio_finished_step b (run_completions xs s) (hirp b (by simp))
  obtain ⟨k1, k2, k3, k4, k5⟩ := j6 (by omega)
  rw [run_completions_concat]
  refine ⟨by omega, by omega, ?_, ?_, by omega, k4, ?_⟩
  · rw [k1, i5]
  · rw [k2, i5, i6]
  · rw [k5, i3]

/-- C2: for N >= 1 fragment completions processed one at a time in any
order, the state after the first k calls (k <= N) shows that the IRP status
was written, the completion signalled and the aggregator freed exactly once if
k = N and not at all if k < N: the N-th call, which brings bc_num_completed to
bc_num_requests, is the only one that completes the request. -/
theorem aggregate_completion_fires_once (bs : List bio) (s : IoCtx) (k : Nat)
    (hN : 1 ≤ bs.length)
    (hirp : ∀ b ∈ bs, b.bi_upper_irp = true)
    (h0 : s.common_data.bc_num_completed = 0)
    (hreq : s.common_data.bc_num_requests = bs.length)
    (hk : k ≤ bs.length) :
    (run_completions (bs.take k) s).common_data.bc_num_completed = k ∧
    (run_completions (bs.take k) s).irp.status_writes
      = s.irp.status_writes + (if k = bs.length then 1 else 0) ∧
    (run_completions (bs.take k) s).irp.completed
        + (run_completions (bs.take k) s).delayed_io_completion
      = s.irp.completed + s.delayed_io_completion + (if k = bs.length then 1 else 0) ∧
    (run_completions (bs.take k) s).common_data_freed
      = s.common_data_freed + (if k = bs.length then 1 else 0) := by
  by_cases hkN : k = bs.length
  · subst hkN
    rw [List.take_length]
    rcases List.eq_nil_or_concat bs with hnil | ⟨xs, b, hcat⟩
    · rw [hnil] at hN; simp at hN
    · rw [List.concat_eq_append] at hcat
      subst hcat
      have hlen : (xs ++ [b]).length = xs.length + 1 := by simp
      obtain ⟨a1, _, a3, a4, a5, _, _⟩ :=
        run_completions_all xs b s hirp (by rw [h0, hreq, hlen]; omega)
      refine ⟨by rw [a1, hreq], ?_, ?_, ?_⟩
      · rw [a3]; simp
      · rw [a4]; simp
      · rw [a5]; simp
  · have hlen : (bs.take k).length = k := by
      rw [List.length_take]; omega
    obtain ⟨a1, _, _, _, a5, a6, a7⟩ :=
      run_completions_counting (bs.take k) s
        (fun x hx => hirp x (List.mem_of_mem_take hx)) (by rw [h0, hreq, hlen]; omega)
    refine ⟨by rw [a1, h0, hlen]; omega, ?_, ?_, ?_⟩
    · rw [a5]; simp [hkN]
    · rw [a5, a6]; simp [hkN]
    · rw [a7]; simp [hkN]

theorem fragment_status_ok (b : bio) (s : IoCtx) (h0 : b.bi_status = 0)
    (hbuf : b.bi_opf = Dir.READ → b.bi_upper_irp_buffer = true) :
    fragment_status b s = STATUS_SUCCESS := by
  unfold fragment_status
  by_cases hr : b.bi_opf = Dir.READ
  · simp [h0, hr, hbuf hr]
  · simp [h0, hr]

theorem fragment_status_error (b : bio) (s : IoCtx) (h0 : b.bi_status ≠ 0) :
    fragment_status b s = STATUS_DEVICE_DOES_NOT_EXIST := by
  simp [fragment_status, h0]

/-- C2 witness: the three fragments of a 2,621,440-byte read, completed in
the order 2, 0, 1. -/
theorem aggregate_completion_fires_once_witness :
    ((run_completions ((engine_results (windrbd_make_drbd_requests env_all_ok true disk_4G
          true 2621440 0 Dir.READ).queued [(2, 0), (0, 0), (1, 0)]).take 2)
        ⟨fresh_irp, ⟨0, 2621440, 3, false⟩, 0, 0, 1, []⟩).irp.completed = 0 ∧
     (run_completions ((engine_results (windrbd_make_drbd_requests env_all_ok true disk_4G
          true 2621440 0 Dir.READ).queued [(2, 0), (0, 0), (1, 0)]).take 3)
        ⟨fresh_irp, ⟨0, 2621440, 3, false⟩, 0, 0, 1, []⟩).irp.completed = 1) ∧
    ((run_completions ((engine_results (windrbd_make_drbd_requests env_all_ok true disk_4G
          true 2621440 0 Dir.READ).queued [(2, 0), (0, 0), (1, 0)]).take 3)
        ⟨fresh_irp, ⟨0, 2621440, 3, false⟩, 0, 0, 1, []⟩).common_data.bc_num_completed = 3 ∧
    (run_completions ((engine_results (windrbd_make_drbd_requests env_all_ok true disk_4G
          true 2621440 0 Dir.READ).queued [(2, 0), (0, 0), (1, 0)]).take 3)
        ⟨fresh_irp, ⟨0, 2621440, 3, false⟩, 0, 0, 1, []⟩).irp.status_writes
      = fresh_irp.status_writes + (if 3 = (engine_results (windrbd_make_drbd_requests
          env_all_ok true disk_4G true 2621440 0 Dir.READ).queued
          [(2, 0), (0, 0), (1, 0)]).length then 1 else 0) ∧
    (run_completions ((engine_results (windrbd_make_drbd_requests env_all_ok true disk_4G
          true 2621440 0 Dir.READ).queued [(2, 0), (0, 0), (1, 0)]).take 3)
        ⟨fresh_irp, ⟨0, 2621440, 3, false⟩, 0, 0, 1, []⟩).irp.completed
      + (run_completions ((engine_results (windrbd_make_drbd_requests env_all_ok true disk_4G
          true 2621440 0 Dir.READ).queued [(2, 0), (0, 0), (1, 0)]).take 3)
        ⟨fresh_irp, ⟨0, 2621440, 3, false⟩, 0, 0, 1, []⟩).delayed_io_completion
      = fresh_irp.completed + 0 + (if 3 = (engine_results (windrbd_make_drbd_requests
          env_all_ok true disk_4G true 2621440 0 Dir.READ).queued
          [(2, 0), (0, 0), (1, 0)]).length then 1 else 0) ∧
    (run_completions ((engine_results (windrbd_make_drbd_requests env_all_ok true disk_4G
          true 2621440 0 Dir.READ).queued [(2, 0), (0, 0), (1, 0)]).take 3)
        ⟨fresh_irp, ⟨0, 2621440, 3, false⟩, 0, 0, 1, []⟩).common_data_freed
      = 0 + (if 3 = (engine_results (windrbd_make_drbd_requests
          env_all_ok true disk_4G true 2621440 0 Dir.READ).queued
          [(2, 0), (0, 0), (1, 0)]).length then 1 else 0)) :=
  ⟨by decide,
   aggregate_completion_fires_once
    (engine_results (windrbd_make_drbd_requests env_all_ok true disk_4G true 2621440 0
      Dir.READ).queued [(2, 0), (0, 0), (1, 0)])
    ⟨fresh_irp, ⟨0, 2621440, 3, false⟩, 0, 0, 1, []⟩ 3
    (by decide) (by decide) rfl (by decide) (by decide)⟩

/-- C3 (code evaluated at the failing input): a read of 2 MiB is split in two
fragments; the engine fails fragment 0 first (errno -5) and then finishes
fragment 1 without error. The failure is recorded in `bc_device_failed`, yet
the IRP is completed with `STATUS_SUCCESS` and the full byte count, because the
status written is the one of the fragment that completes last. -/
theorem failed_fragment_reported_as_success :
    ((windrbd_make_drbd_requests env_all_ok true disk_4G true 2097152 0 Dir.READ).ctx
        fresh_irp 1).map (fun c =>
      let s := run_completions (engine_results (windrbd_make_drbd_requests env_all_ok true
        disk_4G true 2097152 0 Dir.READ).queued [(0, -5), (1, 0)]) c
      (s.common_data.bc_num_completed, s.common_data.bc_device_failed, s.irp.completed,
        s.irp.Status, s.irp.Information))
      = some (2, true, 1, STATUS_SUCCESS, 2097152) := by
  decide

/-- The status and byte count of the aggregate completion are those of the
fragment whose callback runs last, whatever the earlier fragments reported. -/
theorem aggregate_status_is_last (xs : List bio) (b : bio) (s : IoCtx)
    (hirp : ∀ x ∈ xs ++ [b], x.bi_upper_irp = true)
    (h0 : s.common_data.bc_num_completed = 0)
    (hN : s.common_data.bc_num_requests = xs.length + 1) :
    (run_completions (xs ++ [b]) s).irp.Status = fragment_status b (run_completions xs s) ∧
    (run_completions (xs ++ [b]) s).irp.Information
      = (if fragment_status b (run_completions xs s) = STATUS_SUCCESS
          then s.common_data.bc_total_size else 0) := by
  obtain ⟨_, _, _, _, _, a6, a7⟩ := run_completions_all xs b s hirp (by omega)
  exact ⟨a6, a7⟩

/-- Every fragment queued by a successful asynchronous call carries the IRP,
the caller buffer and no error. -/
theorem queued_fragment_fields (env : Env) (dev : block_device) (buffer : Bool)
    (total_size sector : Nat) (rw : Dir)
    (h : (windrbd_make_drbd_requests env true dev buffer total_size sector rw).status
      = STATUS_SUCCESS)
    (b : bio)
    (hb : b ∈ (windrbd_make_drbd_requests env true dev buffer total_size sector rw).queued) :
    b.bi_upper_irp = true ∧ b.bi_upper_irp_buffer = true ∧ b.bi_status = 0 := by
  obtain ⟨hreach, _, hq⟩ := make_requests_success env true dev buffer total_size sector rw h
  rw [hq] at hb
  obtain ⟨i, _, rfl⟩ := List.mem_map.mp hb
  exact ⟨rfl, hreach.2.2.2.1, rfl⟩

/-- After a successful asynchronous call, the callbacks of the queued fragments
(which carry no error), run in any order, complete the IRP once with
`STATUS_SUCCESS` and the effective length. -/
theorem completions_report_effective_size (env : Env) (dev : block_device) (buffer : Bool)
    (total_size sector : Nat) (rw : Dir) (irp : IRP) (lock : Int) (order : List bio)
    (h : (windrbd_make_drbd_requests env true dev buffer total_size sector rw).status
      = STATUS_SUCCESS)
    (hperm : order.Perm
      (windrbd_make_drbd_requests env true dev buffer total_size sector rw).queued) :
    ((windrbd_make_drbd_requests env true dev buffer total_size sector rw).ctx irp lock).map
      (fun c => (c.common_data.bc_total_size,
        (run_completions order c).irp.Status,
        (run_completions order c).irp.Information,
        (run_completions order c).irp.completed
          + (run_completions order c).delayed_io_completion))
      = some (effective_size dev sector total_size, STATUS_SUCCESS,
          effective_size dev sector total_size, irp.completed + 1) := by
  obtain ⟨hreach, hcd, hq⟩ := make_requests_success env true dev buffer total_size sector rw h
  have hfields := queued_fragment_fields env dev buffer total_size sector rw h
  have hlen : order.length = bio_count (effective_size dev sector total_size) := by
    rw [hperm.length_eq, hq]; simp
  have hpos := bio_count_pos (effective_size dev sector total_size)
  rcases List.eq_nil_or_concat order with hnil | ⟨xs, b, hcat⟩
  · rw [hnil] at hlen; simp at hlen; omega
  · rw [List.concat_eq_append] at hcat
    subst hcat
    have hmem : ∀ x ∈ xs ++ [b], x.bi_upper_irp = true ∧ x.bi_upper_irp_buffer = true ∧
        x.bi_status = 0 := fun x hx => hfields x (hperm.subset hx)
    simp only [List.length_append, List.length_singleton] at hlen
    simp only [Submission.ctx, hcd, Option.map_some']
    obtain ⟨_, _, _, a4, _, a6, a7⟩ := run_completions_all xs b
      { irp := { irp with pending := irp.pending ||
            (windrbd_make_drbd_requests env true dev buffer total_size sector rw).irp_pending }
        common_data :=
          { bc_num_completed := 0
            bc_total_size := effective_size dev sector total_size
            bc_num_requests := bio_count (effective_size dev sector total_size)
            bc_device_failed := false }
        common_data_freed := 0, delayed_io_completion := 0, remove_lock := lock, copies := [] }
      (fun x hx => (hmem x hx).1) (by simp; omega)
    obtain ⟨_, hbuf, hst⟩ := hmem b (by simp)
    rw [fragment_status_ok b _ hst (fun _ => hbuf)] at a6 a7
    simp only [if_true] at a7
    rw [a6, a7, a4]
    simp

/-- C4: when windrbd_make_drbd_requests has queued the fragments of a request
and every fragment completes without error, then for every order of the
completions the IRP ends with STATUS_SUCCESS and IoStatus.Information equal to
the effective length of the request, the value stored in bc_total_size. -/
theorem all_fragments_succeed (env : Env) (dev : block_device) (buffer : Bool)
    (total_size sector : Nat) (rw : Dir) (irp : IRP) (lock : Int) (order : List bio)
    (h : (windrbd_make_drbd_requests env true dev buffer total_size sector rw).status
      = STATUS_SUCCESS)
    (hperm : order.Perm
      (windrbd_make_drbd_requests env true dev buffer total_size sector rw).queued) :
    ((windrbd_make_drbd_requests env true dev buffer total_size sector rw).ctx irp lock).map
      (fun c => (c.common_data.bc_total_size,
        (run_completions order c).irp.Status,
        (run_completions order c).irp.Information,
        (run_completions order c).irp.completed
          + (run_completions order c).delayed_io_completion))
      = some (effective_size dev sector total_size, STATUS_SUCCESS,
          effective_size dev sector total_size, irp.completed + 1) :=
  completions_report_effective_size env dev buffer total_size sector rw irp lock order h hperm

/-- C4 witness: the three fragments of a 2,621,440-byte write completing in
reverse order. -/
theorem all_fragments_succeed_witness :
    (windrbd_make_drbd_requests env_all_ok true disk_4G true 2621440 8 Dir.WRITE).status
      = STATUS_SUCCESS ∧
    ((windrbd_make_drbd_requests env_all_ok true disk_4G true 2621440 8 Dir.WRITE).ctx
        fresh_irp 1).map
      (fun c => (c.common_data.bc_total_size,
        (run_completions (windrbd_make_drbd_requests env_all_ok true disk_4G true 2621440 8
          Dir.WRITE).queued.reverse c).irp.Status,
        (run_completions (windrbd_make_drbd_requests env_all_ok true disk_4G true 2621440 8
          Dir.WRITE).queued.reverse c).irp.Information,
        (run_completions (windrbd_make_drbd_requests env_all_ok true disk_4G true 2621440 8
          Dir.WRITE).queued.reverse c).irp.completed
          + (run_completions (windrbd_make_drbd_requests env_all_ok true disk_4G true 2621440 8
          Dir.WRITE).queued.reverse c).delayed_io_completion))
      = some (effective_size disk_4G 8 2621440, STATUS_SUCCESS,
          effective_size disk_4G 8 2621440, fresh_irp.completed + 1) :=
  ⟨by decide,
   all_fragments_succeed env_all_ok disk_4G true 2621440 8 Dir.WRITE fresh_irp 1
    (windrbd_make_drbd_requests env_all_ok true disk_4G true 2621440 8 Dir.WRITE).queued.reverse
    (by decide) (List.reverse_perm _)⟩

/-! ## Placement of the fragments -/

/-- Below 2 GiB the fragments tile the request: with 512-byte blocks fragment
`b < 2048` starts at buffer offset `b` MiB and at sector `sector + b * 2048`. -/
theorem make_bio_placement_below_2GiB (irp : Bool) (dev : block_device) (buffer : Bool)
    (L sector : Nat) (rw : Dir) (b : Nat)
    (hbs : dev.bd_block_size = 512) (hb : b < 2048) (hs : sector + b * 2048 < 2 ^ 64) :
    (make_bio irp dev buffer L sector rw b).bi_mdl_offset = b * MAX_BIO_SIZE ∧
    (make_bio irp dev buffer L sector rw b).bi_sector = sector + b * 2048 := by
  unfold make_bio
  simp only [hbs, u64, s32, MAX_BIO_SIZE]
  constructor
  · omega
  · have h1 : ((b : Int) * ((1024 * 1024 : Nat) : Int) + 2 ^ 31) % 2 ^ 32 - 2 ^ 31
        = (b : Int) * 1048576 := by
      push_cast; omega
    rw [h1]
    have h2 : ((b : Int) * 1048576).tdiv 512 = (b : Int) * 2048 := by
      rw [Int.tdiv_eq_ediv (by omega) (by norm_num)]; omega
    rw [h2]; omega

/-- C5 (code evaluated at the failing input): a read of 2 GiB + 1 byte at
sector 0 with 512-byte blocks. Fragment 2047 starts at sector 4192256 and ends
at sector 4194304, buffer offset 2 GiB. Fragment 2048 gets the buffer offset
2 GiB, but its sector is computed from the `int` product 2048 * 1048576, which
wraps to -2^31: the sector is 0 - 4194304 modulo 2^64 and not 4194304. -/
theorem fragment_2048_sector_wraps :
    ((windrbd_make_drbd_requests env_all_ok true disk_4G true 2147483649 0
        Dir.READ).queued[2047]?).map (fun b => (b.bi_mdl_offset, b.bi_sector, b.bi_size))
      = some (2146435072, 4192256, 1048576) ∧
    ((windrbd_make_drbd_requests env_all_ok true disk_4G true 2147483649 0
        Dir.READ).queued[2048]?).map (fun b => (b.bi_mdl_offset, b.bi_sector, b.bi_size))
      = some (2147483648, 18446744073705357312, 1) ∧
    (18446744073705357312 : Nat) = 2 ^ 64 - 4194304 := by
  rw [make_requests_ok env_all_ok true disk_4G true 2147483649 0 Dir.READ (by decide)
    (fun _ _ => ⟨rfl, rfl, rfl, rfl⟩) rfl]
  refine ⟨?_, ?_, by norm_num⟩
  · rw [getElem?_map_range' _ _ 2047 (by decide)]; decide
  · rw [getElem?_map_range' _ _ 2048 (by decide)]; decide

/-! ## Validation and shortening -/

theorem byte_offset_exact (dev : block_device) (sector : Nat)
    (hbs : 0 ≤ dev.bd_block_size) (ho : (sector : Int) * dev.bd_block_size < 2 ^ 64) :
    (byte_offset dev sector : Int) = (sector : Int) * dev.bd_block_size := by
  have h0 : 0 ≤ (sector : Int) * dev.bd_block_size := mul_nonneg (by omega) hbs
  unfold byte_offset u64
  generalize (sector : Int) * dev.bd_block_size = o at *
  omega

/-- The checks in front of the split loop, on the values the code compares:
`windrbd_make_drbd_requests` returns a failure status without allocating the
aggregator, marking the IRP pending or queuing a fragment when the request is a
write on a non-Primary resource, when the 64-bit product sector * block size is
at least d_size, when the effective length is 0 (STATUS_INVALID_PARAMETER) or
when the buffer is NULL (STATUS_INSUFFICIENT_RESOURCES); when none of these
holds and the wait, the allocations and the work queue are available it returns
STATUS_SUCCESS. The 64-bit product is the byte offset of the request only as
long as that offset is below 2^64. -/
theorem rejects_synchronously (env : Env) (irp : Bool) (dev : block_device) (buffer : Bool)
    (total_size sector : Nat) (rw : Dir) :
    (((rw = Dir.WRITE ∧ dev.role_primary = false) ∨
        byte_offset dev sector ≥ u64 dev.d_size ∨
        effective_size dev sector total_size = 0 ∨ buffer = false) →
      (windrbd_make_drbd_requests env irp dev buffer total_size sector rw).status
        ≠ STATUS_SUCCESS ∧
      (windrbd_make_drbd_requests env irp dev buffer total_size sector rw).common_data = none ∧
      (windrbd_make_drbd_requests env irp dev buffer total_size sector rw).irp_pending = false ∧
      (windrbd_make_drbd_requests env irp dev buffer total_size sector rw).queued = []) ∧
    (((rw = Dir.WRITE ∧ dev.role_primary = false) ∨
        byte_offset dev sector ≥ u64 dev.d_size ∨
        effective_size dev sector total_size = 0) →
      (windrbd_make_drbd_requests env irp dev buffer total_size sector rw).status
        = STATUS_INVALID_PARAMETER) ∧
    (¬ (rw = Dir.WRITE ∧ dev.role_primary = false) →
      byte_offset dev sector < u64 dev.d_size →
      effective_size dev sector total_size ≠ 0 → buffer = false →
      (windrbd_make_drbd_requests env irp dev buffer total_size sector rw).status
        = STATUS_INSUFFICIENT_RESOURCES) ∧
    (reaches_split_loop env dev buffer total_size sector rw →
      allocations_ok env (bio_count (effective_size dev sector total_size)) →
      dev.io_workqueue = true →
      (windrbd_make_drbd_requests env irp dev buffer total_size sector rw).status
        = STATUS_SUCCESS) ∧
    (0 ≤ dev.d_size → dev.d_size < 2 ^ 63 → 0 ≤ dev.bd_block_size →
      (sector : Int) * dev.bd_block_size < 2 ^ 64 →
      (byte_offset dev sector ≥ u64 dev.d_size ↔
        (sector : Int) * dev.bd_block_size ≥ dev.d_size)) := by
  refine ⟨?_, ?_, ?_, ?_, ?_⟩
  · intro h
    by_cases h1 : rw = Dir.WRITE ∧ dev.role_primary = false
    · simp [windrbd_make_drbd_requests, h1]
    by_cases h2 : byte_offset dev sector ≥ u64 dev.d_size
    · simp [windrbd_make_drbd_requests, h1, h2]
    by_cases h3 : effective_size dev sector total_size = 0
    · simp [windrbd_make_drbd_requests, h1, h2, h3]
    have h4 : buffer = false := by tauto
    simp [windrbd_make_drbd_requests, h1, h2, h3, h4]
  · intro h
    by_cases h1 : rw = Dir.WRITE ∧ dev.role_primary = false
    · simp [windrbd_make_drbd_requests, h1]
    by_cases h2 : byte_offset dev sector ≥ u64 dev.d_size
    · simp [windrbd_make_drbd_requests, h1, h2]
    have h3 : effective_size dev sector total_size = 0 := by tauto
    simp [windrbd_make_drbd_requests, h1, h2, h3]
  · intro h1 h2 h3 h4
    have h2' : ¬ byte_offset dev sector ≥ u64 dev.d_size := by omega
    simp [windrbd_make_drbd_requests, h1, h2', h3, h4]
  · intro hreach halloc hq
    rw [make_requests_ok env irp dev buffer total_size sector rw hreach halloc hq]
  · intro hd0 hd hbs ho
    have hb := byte_offset_exact dev sector hbs ho
    have hu : (u64 dev.d_size : Int) = dev.d_size := by unfold u64; omega
    constructor
    · intro h; omega
    · intro h; omega

/-- The checks of `rejects_synchronously` on the 4 GiB disk: a read with a
NULL buffer, a read starting at the end of the device, a read of length 0 and a
well-formed read. -/
theorem rejects_synchronously_witness :
    (windrbd_make_drbd_requests env_all_ok true disk_4G false 4096 0 Dir.READ).status
      = STATUS_INSUFFICIENT_RESOURCES ∧
    ((windrbd_make_drbd_requests env_all_ok true disk_4G true 4096 8388608 Dir.READ).status
        ≠ STATUS_SUCCESS ∧
      (windrbd_make_drbd_requests env_all_ok true disk_4G true 4096 8388608
        Dir.READ).common_data = none ∧
      (windrbd_make_drbd_requests env_all_ok true disk_4G true 4096 8388608
        Dir.READ).irp_pending = false ∧
      (windrbd_make_drbd_requests env_all_ok true disk_4G true 4096 8388608
        Dir.READ).queued = []) ∧
    (windrbd_make_drbd_requests env_all_ok true disk_4G true 0 0 Dir.READ).status
      = STATUS_INVALID_PARAMETER ∧
    (windrbd_make_drbd_requests env_all_ok true disk_4G true 4096 0 Dir.READ).status
      = STATUS_SUCCESS :=
  ⟨(rejects_synchronously env_all_ok true disk_4G false 4096 0 Dir.READ).2.2.1
      (by decide) (by decide) (by decide) rfl,
   (rejects_synchronously env_all_ok true disk_4G true 4096 8388608 Dir.READ).1
      (Or.inr (Or.inl (by decide))),
   (rejects_synchronously env_all_ok true disk_4G true 0 0 Dir.READ).2.1
      (Or.inr (Or.inr (by decide))),
   (rejects_synchronously env_all_ok true disk_4G true 4096 0 Dir.READ).2.2.2.1
      (by decide) (fun _ _ => ⟨rfl, rfl, rfl, rfl⟩) rfl⟩

/-- C6 (code evaluated at the failing input): a read of 512 bytes at sector
2^63 + 2^55 of the 4 GiB disk (512-byte blocks) starts at byte 2^72 + 2^64, far
past the end of the device. The product `sector * dev->bd_block_size` is taken
in 64 bits and is 0, so the test against `d_size` passes:
`windrbd_make_drbd_requests` allocates the aggregator, marks the IRP pending,
queues one fragment of 512 bytes at sector 2^63 + 2^55 and returns
`STATUS_SUCCESS`. This is the call `windrbd_scsi` makes for a READ(16) of one
sector at that logical block. A read at sector 8388608, the first one past the
end, is rejected with `STATUS_INVALID_PARAMETER`. -/
theorem start_past_end_accepted :
    ((2 ^ 63 + 2 ^ 55 : Nat) : Int) * disk_4G.bd_block_size = 2 ^ 72 + 2 ^ 64 ∧
    disk_4G.d_size = 2 ^ 32 ∧
    byte_offset disk_4G (2 ^ 63 + 2 ^ 55) = 0 ∧
    (fun r : Submission => (r.status, r.common_data.isSome, r.irp_pending,
        r.queued.map fun b => (b.bi_sector, b.bi_size)))
      (windrbd_make_drbd_requests env_all_ok true disk_4G true 512 (2 ^ 63 + 2 ^ 55) Dir.READ)
      = (STATUS_SUCCESS, true, true, [(2 ^ 63 + 2 ^ 55, 512)]) ∧
    (windrbd_scsi env_all_ok (some disk_4G) 0 fresh_irp (some scsi_read16_beyond_2_63)).map
        (fun r => r.queued)
      = some (windrbd_make_drbd_requests env_all_ok true disk_4G true 512 (2 ^ 63 + 2 ^ 55)
          Dir.READ).queued ∧
    (windrbd_make_drbd_requests env_all_ok true disk_4G true 512 8388608 Dir.READ).status
      = STATUS_INVALID_PARAMETER := by
  refine ⟨by decide, by decide, by decide, by decide, by decide, by decide⟩


/-- C8 (code evaluated at the failing input): a 2 MiB read needs two
fragments; the work item of fragment 1 cannot be allocated after fragment 0 was
queued. `windrbd_io` releases the remove lock and completes the IRP with the
failure status at once, while fragment 0 is still at the engine. When
fragment 0 completes later, `bc_num_completed` becomes 1 of 2: the callback
neither completes the request nor frees the aggregator, and it releases the
remove lock a second time. -/
theorem partial_submission_completes_early :
    ((windrbd_io env_ioreq_fails_at_1 false (some disk_4G) 0 fresh_irp read_2M).status,
      (windrbd_io env_ioreq_fails_at_1 false (some disk_4G) 0 fresh_irp read_2M).irp.Status,
      (windrbd_io env_ioreq_fails_at_1 false (some disk_4G) 0 fresh_irp read_2M).irp.pending,
      (windrbd_io env_ioreq_fails_at_1 false (some disk_4G) 0 fresh_irp read_2M).irp.completed,
      (windrbd_io env_ioreq_fails_at_1 false (some disk_4G) 0 fresh_irp read_2M).queued.length,
      (windrbd_io env_ioreq_fails_at_1 false (some disk_4G) 0 fresh_irp read_2M).remove_lock)
      = (MINUS_ENOMEM, MINUS_ENOMEM, true, 1, 1, 0) ∧
    ((windrbd_io env_ioreq_fails_at_1 false (some disk_4G) 0 fresh_irp read_2M).ctx).map
      (fun c =>
        let s := run_completions (engine_results
          (windrbd_io env_ioreq_fails_at_1 false (some disk_4G) 0 fresh_irp read_2M).queued
          [(0, 0)]) c
        (s.common_data.bc_num_completed, s.common_data.bc_num_requests, s.irp.completed,
          s.common_data_freed, s.remove_lock))
      = some (1, 2, 1, 0, -1) := by
  decide

/-- The remove lock after all fragments of a request have completed: one
release per fragment. -/
theorem remove_lock_after_completions (bs : List bio) (s : IoCtx)
    (hirp : ∀ b ∈ bs, b.bi_upper_irp = true)
    (h0 : s.common_data.bc_num_completed = 0)
    (hreq : s.common_data.bc_num_requests = bs.length) :
    (run_completions bs s).remove_lock = s.remove_lock - bs.length := by
  rcases List.eq_nil_or_concat bs with hnil | ⟨xs, b, hcat⟩
  · subst hnil; simp [run_completions]
  · rw [List.concat_eq_append] at hcat
    subst hcat
    have hlen : (xs ++ [b]).length = xs.length + 1 := by simp
    obtain ⟨_, a2, _⟩ := run_completions_all xs b s hirp (by rw [h0, hreq, hlen]; omega)
    rw [a2, hlen]; push_cast; ring

/-- C10 (code evaluated at the failing input): a 2 MiB read is admitted by
`windrbd_io` with one `IoAcquireRemoveLock` (the count goes from 0 to 1) and
split into two fragments; each of the two calls of `windrbd_bio_finished`
releases the lock, so after the aggregate completion the count is -1 and not
0. -/
theorem remove_lock_released_per_fragment :
    ((windrbd_io env_all_ok false (some disk_4G) 0 fresh_irp read_2M).status,
      (windrbd_io env_all_ok false (some disk_4G) 0 fresh_irp read_2M).queued.length,
      (windrbd_io env_all_ok false (some disk_4G) 0 fresh_irp read_2M).remove_lock)
      = (STATUS_PENDING, 2, 1) ∧
    ((windrbd_io env_all_ok false (some disk_4G) 0 fresh_irp read_2M).ctx).map
      (fun c =>
        let s := run_completions (engine_results
          (windrbd_io env_all_ok false (some disk_4G) 0 fresh_irp read_2M).queued
          [(0, 0), (1, 0)]) c
        (s.irp.completed, s.irp.Status, s.remove_lock))
      = some (1, STATUS_SUCCESS, -1) := by
  decide

/-! ## The admission gate -/

theorem fake_partition_table_about_to_delete (env : Env) (dev : block_device) (p e : Bool) :
    (fake_partition_table env dev p e).about_to_delete = dev.about_to_delete := by
  unfold fake_partition_table
  dsimp only
  split_ifs <;> rfl

theorem derive_guids_about_to_delete (dev : block_device) :
    (derive_guids dev).about_to_delete = dev.about_to_delete := by
  unfold derive_guids
  dsimp only
  split_ifs <;> rfl

theorem device_size_change_about_to_delete (env : Env) (dev : block_device)
    (f p e : Bool) :
    (windrbd_device_size_change env dev f p e).about_to_delete = dev.about_to_delete := by
  unfold windrbd_device_size_change
    windrbd_check_for_filesystem_and_maybe_start_faking_partition_table
  dsimp only
  split_ifs <;>
    simp only [fake_partition_table_about_to_delete, derive_guids_about_to_delete]

/-- No operation clears `about_to_delete`. -/
theorem step_keeps_about_to_delete (sys sys1 : System) (op : Op)
    (h : ∃ dev, sys.bdev = some dev ∧ dev.about_to_delete = true)
    (hs : step sys op = some sys1) :
    ∃ dev, sys1.bdev = some dev ∧ dev.about_to_delete = true := by
  obtain ⟨dev, hb, ha⟩ := h
  cases op with
  | io env irp s =>
    simp only [step, Option.some.injEq] at hs
    subst hs; exact ⟨dev, hb, ha⟩
  | scsi env irp srb =>
    simp only [step] at hs
    split at hs
    · simp only [Option.some.injEq] at hs
      subst hs; exact ⟨dev, hb, ha⟩
    · simp only [Option.some.injEq] at hs
      subst hs; exact ⟨dev, hb, ha⟩
  | bio_finished i error =>
    simp only [step] at hs
    split at hs
    · split at hs
      · split_ifs at hs
        simp only [Option.some.injEq] at hs
        subst hs; exact ⟨dev, hb, ha⟩
      · simp at hs
    · simp at hs
  | flush bio_alloc irp =>
    simp only [step, Option.some.injEq] at hs
    subst hs
    split_ifs
    · exact ⟨dev, hb, ha⟩
    · exact ⟨dev, hb, ha⟩
  | flush_finished =>
    simp only [step] at hs
    split_ifs at hs
    simp only [Option.some.injEq] at hs
    subst hs; exact ⟨dev, hb, ha⟩
  | pnp minor =>
    simp only [step, Option.some.injEq] at hs
    subst hs
    cases minor <;> simp only [windrbd_pnp, hb] <;>
      first
        | exact ⟨dev, hb, ha⟩
        | exact ⟨_, rfl, ha⟩
        | (split_ifs <;> first | exact ⟨dev, hb, ha⟩ | exact ⟨_, rfl, ha⟩)
  | remove_device_begin =>
    simp only [step, Option.some.injEq] at hs
    subst hs
    simp only [pnp_remove_device_begin, hb]
    split_ifs
    · exact ⟨_, rfl, rfl⟩
    · exact ⟨_, rfl, rfl⟩
  | remove_device_end =>
    simp only [step, pnp_remove_device_end] at hs
    split_ifs at hs
    simp only [Option.some.injEq] at hs
    subst hs
    refine ⟨{ dev with ref := false }, ?_, ha⟩
    simp only [hb, Option.map_some']
  | device_size_change env f p e =>
    simp only [step, Option.some.injEq] at hs
    subst hs
    refine ⟨windrbd_device_size_change env dev f p e, ?_, ?_⟩
    · simp only [hb, Option.map_some']
    · rw [device_size_change_about_to_delete]; exact ha
  | promote primary =>
    simp only [step, Option.some.injEq] at hs
    subst hs
    refine ⟨{ dev with role_primary := primary }, ?_, ha⟩
    simp only [hb, Option.map_some']
  | other =>
    simp only [step, Option.some.injEq] at hs
    subst hs; exact ⟨dev, hb, ha⟩

theorem run_keeps_about_to_delete (ops : List Op) :
    ∀ (sys sys1 : System), (∃ dev, sys.bdev = some dev ∧ dev.about_to_delete = true) →
      run sys ops = some sys1 → ∃ dev, sys1.bdev = some dev ∧ dev.about_to_delete = true := by
  induction ops with
  | nil =>
    intro sys sys1 h hr
    simp only [run, Option.some.injEq] at hr
    subst hr; exact h
  | cons op ops ih =>
    intro sys sys1 h hr
    simp only [run] at hr
    cases hst : step sys op with
    | none => rw [hst] at hr; simp at hr
    | some s1 =>
      rw [hst] at hr
      exact ih s1 sys1 (step_keeps_about_to_delete sys s1 op h hst) hr

theorem remove_device_begin_sets_flag (sys : System) (dev : block_device)
    (hb : sys.bdev = some dev) :
    ∃ dev1, (pnp_remove_device_begin sys).bdev = some dev1 ∧ dev1.about_to_delete = true := by
  simp only [pnp_remove_device_begin, hb]
  split_ifs
  · exact ⟨_, rfl, rfl⟩
  · exact ⟨_, rfl, rfl⟩

theorem io_gate_closed (env : Env) (dev : block_device) (lock : Int) (irp : IRP)
    (s : StackLocation) (ha : dev.about_to_delete = true) :
    windrbd_io env false (some dev) lock irp s =
      { status := STATUS_NO_SUCH_DEVICE
        irp := { complete_irp irp STATUS_NO_SUCH_DEVICE with Information := 0 }
        remove_lock := lock, common_data := none, queued := [] } := by
  simp [windrbd_io, ha]

theorem scsi_gate_closed (env : Env) (dev : block_device) (lock : Int) (irp : IRP)
    (srb : Option SCSI_REQUEST_BLOCK) (ha : dev.about_to_delete = true) :
    windrbd_scsi env (some dev) lock irp srb = some
      { status := STATUS_NO_SUCH_DEVICE
        irp := { complete_irp irp STATUS_NO_SUCH_DEVICE with Information := 0 }
        srb := srb.map fun r => { r with SrbStatus := SRB_STATUS.SRB_STATUS_NO_DEVICE }
        remove_lock := lock, common_data := none, queued := [], copies := []
        BytesPerBlock := none, LogicalBlockAddress := none } := by
  simp [windrbd_scsi, ha]

/-- C9: once the REMOVE_DEVICE handler has set about_to_delete on a disk
device, after any sequence of further operations the flag is still set, and a
read/write (windrbd_io) or SCSI request (windrbd_scsi) arriving then is
completed once with STATUS_NO_SUCH_DEVICE and IoStatus.Information 0, queues no
fragment, allocates no aggregator and leaves the remove lock as it was. -/
theorem no_admission_after_remove (sys0 sys : System) (dev0 : block_device) (ops : List Op)
    (env : Env) (irp : IRP) (s : StackLocation) (srb : Option SCSI_REQUEST_BLOCK)
    (hb : sys0.bdev = some dev0)
    (hrun : run sys0 (Op.remove_device_begin :: ops) = some sys) :
    (∃ dev, sys.bdev = some dev ∧ dev.about_to_delete = true) ∧
    windrbd_io env false sys.bdev sys.remove_lock irp s =
      { status := STATUS_NO_SUCH_DEVICE
        irp := { complete_irp irp STATUS_NO_SUCH_DEVICE with Information := 0 }
        remove_lock := sys.remove_lock, common_data := none, queued := [] } ∧
    windrbd_scsi env sys.bdev sys.remove_lock irp srb = some
      { status := STATUS_NO_SUCH_DEVICE
        irp := { complete_irp irp STATUS_NO_SUCH_DEVICE with Information := 0 }
        srb := srb.map fun r => { r with SrbStatus := SRB_STATUS.SRB_STATUS_NO_DEVICE }
        remove_lock := sys.remove_lock, common_data := none, queued := [], copies := []
        BytesPerBlock := none, LogicalBlockAddress := none } ∧
    step sys (Op.io env irp s) = some sys ∧
    step sys (Op.scsi env irp srb) = some sys := by
  have h1 : ∃ dev, (pnp_remove_device_begin sys0).bdev = some dev ∧ dev.about_to_delete = true :=
    remove_device_begin_sets_flag sys0 dev0 hb
  have hrun1 : run (pnp_remove_device_begin sys0) ops = some sys := by
    simpa [run, step] using hrun
  obtain ⟨dev, hd, ha⟩ := run_keeps_about_to_delete ops _ sys h1 hrun1
  have hio := io_gate_closed env dev sys.remove_lock irp s ha
  have hscsi := scsi_gate_closed env dev sys.remove_lock irp srb ha
  rw [← hd] at hio hscsi
  refine ⟨⟨dev, hd, ha⟩, hio, hscsi, ?_, ?_⟩
  · simp only [step, hio, Dispatched.ctx]
    cases sys
    simp
  · simp only [step, hscsi]
    cases sys
    simp

/-- C9 witness: the idle 4 GiB disk is removed (the wait ends at once), a
surprise removal is notified and another dispatch routine runs; afterwards a
2 MiB read and a SCSI READ(10) are refused. -/
theorem no_admission_after_remove_witness :
    run idle_system [Op.remove_device_begin, Op.remove_device_end,
      Op.pnp PnpMinor.IRP_MN_SURPRISE_REMOVAL, Op.other] = some removed_system ∧
    ((∃ dev, removed_system.bdev = some dev ∧ dev.about_to_delete = true) ∧
    windrbd_io env_all_ok false removed_system.bdev removed_system.remove_lock fresh_irp read_2M =
      { status := STATUS_NO_SUCH_DEVICE
        irp := { complete_irp fresh_irp STATUS_NO_SUCH_DEVICE with Information := 0 }
        remove_lock := removed_system.remove_lock, common_data := none, queued := [] } ∧
    windrbd_scsi env_all_ok removed_system.bdev removed_system.remove_lock fresh_irp
        (some scsi_read_8) = some
      { status := STATUS_NO_SUCH_DEVICE
        irp := { complete_irp fresh_irp STATUS_NO_SUCH_DEVICE with Information := 0 }
        srb := (some scsi_read_8).map fun r =>
          { r with SrbStatus := SRB_STATUS.SRB_STATUS_NO_DEVICE }
        remove_lock := removed_system.remove_lock, common_data := none, queued := []
        copies := [], BytesPerBlock := none, LogicalBlockAddress := none } ∧
    step removed_system (Op.io env_all_ok fresh_irp read_2M) = some removed_system ∧
    step removed_system (Op.scsi env_all_ok fresh_irp (some scsi_read_8))
      = some removed_system) :=
  ⟨by decide,
   no_admission_after_remove idle_system removed_system disk_4G
    [Op.remove_device_end, Op.pnp PnpMinor.IRP_MN_SURPRISE_REMOVAL, Op.other]
    env_all_ok fresh_irp read_2M (some scsi_read_8) rfl (by decide)⟩

/-! ## Removal -/

/-- C11 (code evaluated at the failing input): a 2 MiB read is admitted (one
acquisition of the remove lock, two fragments), fragment 0 completes and
releases the lock, then IRP_MN_REMOVE_DEVICE arrives. The handler sets
about_to_delete and acquires the lock; as no other acquisition is outstanding
`IoReleaseRemoveLockAndWait` returns, `bdev->ref` is cleared and
`device_removed_event` is set while fragment 1 is still at the engine. Its
callback can then no longer run: it goes through the cleared `bdev->ref`. -/
theorem removed_with_fragment_in_flight :
    (run idle_system [Op.io env_all_ok fresh_irp read_2M, Op.bio_finished 0 0]).map
      (fun s => (s.remove_lock, s.inflight.length)) = some (0, 1) ∧
    (run idle_system [Op.io env_all_ok fresh_irp read_2M, Op.bio_finished 0 0,
        Op.remove_device_begin]).map
      (fun s => (s.bdev.map fun d => d.about_to_delete, s.remove_waiting, s.remove_lock,
        s.device_removed_event)) = some (some true, true, 1, false) ∧
    (run idle_system [Op.io env_all_ok fresh_irp read_2M, Op.bio_finished 0 0,
        Op.remove_device_begin, Op.remove_device_end]).map
      (fun s => (s.device_removed_event, s.bdev.map fun d => d.ref, s.remove_lock,
        s.inflight.length, (step s (Op.bio_finished 0 0)).isSome))
      = some (true, some false, 0, 1, false) := by
  decide

theorem make_bio_congr (irp : Bool) (dev1 dev2 : block_device) (buffer : Bool)
    (L sector : Nat) (rw : Dir) (b : Nat) (h : dev1.bd_block_size = dev2.bd_block_size) :
    make_bio irp dev1 buffer L sector rw b = make_bio irp dev2 buffer L sector rw b := by
  simp [make_bio, h]

theorem submit_loop_congr (env : Env) (irp : Bool) (dev1 dev2 : block_device) (buffer : Bool)
    (L sector : Nat) (rw : Dir) (h1 : dev1.bd_block_size = dev2.bd_block_size)
    (h2 : dev1.io_workqueue = dev2.io_workqueue) :
    ∀ (n b : Nat) (queued : List bio),
      submit_loop env irp dev1 buffer L sector rw n b queued =
        submit_loop env irp dev2 buffer L sector rw n b queued := by
  intro n
  induction n with
  | zero => intro b queued; simp [submit_loop]
  | succ n ih =>
    intro b queued
    simp only [submit_loop, h2, make_bio_congr irp dev1 dev2 buffer L sector rw b h1, ih]

/-- `windrbd_make_drbd_requests` reads four fields of the device: the size,
the block size, the role and the work queue. -/
theorem make_requests_congr (env : Env) (irp : Bool) (dev1 dev2 : block_device)
    (buffer : Bool) (total_size sector : Nat) (rw : Dir)
    (h0 : dev1.d_size = dev2.d_size) (h1 : dev1.bd_block_size = dev2.bd_block_size)
    (h2 : dev1.io_workqueue = dev2.io_workqueue) (h3 : dev1.role_primary = dev2.role_primary) :
    windrbd_make_drbd_requests env irp dev1 buffer total_size sector rw =
      windrbd_make_drbd_requests env irp dev2 buffer total_size sector rw := by
  have hb : byte_offset dev1 sector = byte_offset dev2 sector := by simp [byte_offset, h1]
  have he : effective_size dev1 sector total_size = effective_size dev2 sector total_size := by
    simp [effective_size, hb, h0]
  simp only [windrbd_make_drbd_requests, hb, he, h0, h3,
    submit_loop_congr env irp dev1 dev2 buffer _ sector rw h1 h2]

theorem from_irp_congr (env : Env) (irp : IRP) (s : StackLocation) (dev1 dev2 : block_device)
    (h0 : dev1.d_size = dev2.d_size) (h1 : dev1.bd_block_size = dev2.bd_block_size)
    (h2 : dev1.io_workqueue = dev2.io_workqueue) (h3 : dev1.role_primary = dev2.role_primary) :
    make_drbd_requests_from_irp env irp s dev1 = make_drbd_requests_from_irp env irp s dev2 := by
  simp only [make_drbd_requests_from_irp, h1]
  rw [make_requests_congr env true dev1 dev2 true s.Length _ Dir.WRITE h0 h1 h2 h3,
    make_requests_congr env true dev1 dev2 true s.Length _ Dir.READ h0 h1 h2 h3]

theorem io_ignores_suprise_removal (env : Env) (dev : block_device) (lock : Int) (irp : IRP)
    (s : StackLocation) (v : Bool) :
    windrbd_io env false (some { dev with suprise_removal := v }) lock irp s =
      windrbd_io env false (some dev) lock irp s := by
  have hw1 : (wait_for_becoming_primary { dev with suprise_removal := v }
      env.role_after_wait).1 = (wait_for_becoming_primary dev env.role_after_wait).1 := by
    unfold wait_for_becoming_primary; dsimp only; split_ifs <;> rfl
  have hw2 : make_drbd_requests_from_irp env irp s
      (wait_for_becoming_primary { dev with suprise_removal := v } env.role_after_wait).2 =
      make_drbd_requests_from_irp env irp s
        (wait_for_becoming_primary dev env.role_after_wait).2 := by
    apply from_irp_congr <;>
      (unfold wait_for_becoming_primary; dsimp only; split_ifs <;> rfl)
  have hm : make_drbd_requests_from_irp env irp s { dev with suprise_removal := v } =
      make_drbd_requests_from_irp env irp s dev := from_irp_congr env irp s _ _ rfl rfl rfl rfl
  unfold windrbd_io
  dsimp only
  by_cases hc : (dev.is_bootdevice && !dev.role_primary) = true
  · simp only [if_pos hc, hw1, hw2]
  · simp only [if_neg hc, hm]

/-- The three overlay parts read the size, the overlay widths and the two
cache pointers of the device. -/
theorem scsi_parts_congr (dev1 dev2 : block_device) (rw : Dir) (x : ScsiIo)
    (h0 : dev1.d_size = dev2.d_size) (h1 : dev1.data_shift = dev2.data_shift)
    (h2 : dev1.appended_sectors = dev2.appended_sectors)
    (h3 : dev1.disk_prolog = dev2.disk_prolog) (h4 : dev1.disk_epilog = dev2.disk_epilog) :
    scsi_epilog_part dev1 rw (scsi_data_part dev1 (scsi_prolog_part dev1 rw x)) =
      scsi_epilog_part dev2 rw (scsi_data_part dev2 (scsi_prolog_part dev2 rw x)) := by
  have a : ∀ y, scsi_prolog_part dev1 rw y = scsi_prolog_part dev2 rw y := by
    intro y; simp only [scsi_prolog_part, h1, h3]
  have b : ∀ y, scsi_data_part dev1 y = scsi_data_part dev2 y := by
    intro y; simp only [scsi_data_part, h0, h1]
  have c : ∀ y, scsi_epilog_part dev1 rw y = scsi_epilog_part dev2 rw y := by
    intro y; simp only [scsi_epilog_part, h0, h1, h2, h4]
  rw [a, b, c]

/-- The read/write case of `windrbd_scsi` does not read `suprise_removal`. -/
theorem scsi_read_write_ignores_suprise_removal (env : Env) (dev : block_device) (lock : Int)
    (irp : IRP) (srb : SCSI_REQUEST_BLOCK) (rw : Dir) (v : Bool) :
    scsi_read_write env { dev with suprise_removal := v } lock irp srb rw =
      scsi_read_write env dev lock irp srb rw := by
  have hw : ∀ b : Bool,
      (wait_for_becoming_primary { dev with suprise_removal := v } b).1
        = (wait_for_becoming_primary dev b).1 ∧
      (∀ x, scsi_epilog_part (wait_for_becoming_primary { dev with suprise_removal := v } b).2 rw
          (scsi_data_part (wait_for_becoming_primary { dev with suprise_removal := v } b).2
            (scsi_prolog_part (wait_for_becoming_primary { dev with suprise_removal := v } b).2
              rw x))
        = scsi_epilog_part (wait_for_becoming_primary dev b).2 rw
          (scsi_data_part (wait_for_becoming_primary dev b).2
            (scsi_prolog_part (wait_for_becoming_primary dev b).2 rw x))) ∧
      (∀ L s, windrbd_make_drbd_requests env true
          (wait_for_becoming_primary { dev with suprise_removal := v } b).2 true L s rw
        = windrbd_make_drbd_requests env true (wait_for_becoming_primary dev b).2 true L s rw) := by
    intro b
    refine ⟨?_, ?_, ?_⟩
    · unfold wait_for_becoming_primary; dsimp only; split_ifs <;> rfl
    · intro x
      apply scsi_parts_congr <;>
        (unfold wait_for_becoming_primary; dsimp only; split_ifs <;> rfl)
    · intro L s
      apply make_requests_congr <;>
        (unfold wait_for_becoming_primary; dsimp only; split_ifs <;> rfl)
  have hn : (∀ x, scsi_epilog_part { dev with suprise_removal := v } rw
          (scsi_data_part { dev with suprise_removal := v }
            (scsi_prolog_part { dev with suprise_removal := v } rw x))
        = scsi_epilog_part dev rw (scsi_data_part dev (scsi_prolog_part dev rw x))) ∧
      (∀ L s, windrbd_make_drbd_requests env true { dev with suprise_removal := v } true L s rw
        = windrbd_make_drbd_requests env true dev true L s rw) :=
    ⟨fun x => scsi_parts_congr _ _ rw x rfl rfl rfl rfl rfl,
     fun L s => make_requests_congr env true _ _ true L s rw rfl rfl rfl rfl⟩
  unfold scsi_read_write
  dsimp only
  by_cases hc : rw = Dir.WRITE ∧ dev.is_bootdevice = true
  · simp only [if_pos hc, (hw env.role_after_wait).1, (hw env.role_after_wait).2.1,
      (hw env.role_after_wait).2.2]
  · simp only [if_neg hc, hn.1, hn.2]

/-- `windrbd_scsi` does not read `suprise_removal`. -/
theorem scsi_ignores_suprise_removal (env : Env) (dev : block_device) (lock : Int) (irp : IRP)
    (srb : Option SCSI_REQUEST_BLOCK) (v : Bool) :
    windrbd_scsi env (some { dev with suprise_removal := v }) lock irp srb =
      windrbd_scsi env (some dev) lock irp srb := by
  have hcap : scsi_capacity_size env { dev with suprise_removal := v }
      = scsi_capacity_size env dev := rfl
  unfold windrbd_scsi
  simp only [scsi_read_write_ignores_suprise_removal, hcap]

/-- C12 counterexample: after IRP_MN_SURPRISE_REMOVAL on the idle 4 GiB disk
a 2 MiB read is admitted: `windrbd_io` returns `STATUS_PENDING`, holds the
remove lock and has queued two fragments. -/
theorem surprise_removal_does_not_close_gate :
    (step idle_system (Op.pnp PnpMinor.IRP_MN_SURPRISE_REMOVAL)).map
      (fun s => (s.bdev.map fun d => d.suprise_removal,
        (windrbd_io env_all_ok false s.bdev s.remove_lock fresh_irp read_2M).status,
        (windrbd_io env_all_ok false s.bdev s.remove_lock fresh_irp read_2M).queued.length,
        (windrbd_io env_all_ok false s.bdev s.remove_lock fresh_irp read_2M).remove_lock))
      = some (some true, STATUS_PENDING, 2, 1) := by
  decide

/-- C12 as amended: handling IRP_MN_SURPRISE_REMOVAL leaves the admission
of reads and writes as it was (windrbd_io and windrbd_scsi answer a request
exactly as they would have before the notification), and the requests in flight are not
aborted: the remove lock, the pending requests and the in-flight fragments are
unchanged and every fragment completes through windrbd_bio_finished as it
would have without the notification. -/
theorem surprise_removal_keeps_admission_and_inflight (sys : System) (env : Env) (irp : IRP)
    (s : StackLocation) (srb : Option SCSI_REQUEST_BLOCK) (i : Nat) (error : Int) :
    windrbd_io env false (windrbd_pnp sys PnpMinor.IRP_MN_SURPRISE_REMOVAL).bdev
        (windrbd_pnp sys PnpMinor.IRP_MN_SURPRISE_REMOVAL).remove_lock irp s
      = windrbd_io env false sys.bdev sys.remove_lock irp s ∧
    windrbd_scsi env (windrbd_pnp sys PnpMinor.IRP_MN_SURPRISE_REMOVAL).bdev
        (windrbd_pnp sys PnpMinor.IRP_MN_SURPRISE_REMOVAL).remove_lock irp srb
      = windrbd_scsi env sys.bdev sys.remove_lock irp srb ∧
    (windrbd_pnp sys PnpMinor.IRP_MN_SURPRISE_REMOVAL).remove_lock = sys.remove_lock ∧
    (windrbd_pnp sys PnpMinor.IRP_MN_SURPRISE_REMOVAL).requests = sys.requests ∧
    (windrbd_pnp sys PnpMinor.IRP_MN_SURPRISE_REMOVAL).inflight = sys.inflight ∧
    step (windrbd_pnp sys PnpMinor.IRP_MN_SURPRISE_REMOVAL) (Op.bio_finished i error)
      = (step sys (Op.bio_finished i error)).map
          (fun t => windrbd_pnp t PnpMinor.IRP_MN_SURPRISE_REMOVAL) := by
  cases hb : sys.bdev with
  | none =>
    simp only [windrbd_pnp, hb, step]
    refine ⟨trivial, trivial, trivial, trivial, trivial, ?_⟩
    cases sys.inflight[i]? <;> simp
  | some dev =>
    simp only [windrbd_pnp, hb]
    refine ⟨io_ignores_suprise_removal env dev sys.remove_lock irp s true,
      scsi_ignores_suprise_removal env dev sys.remove_lock irp srb true, trivial, trivial,
      trivial, ?_⟩
    simp only [step, hb]
    cases hi : sys.inflight[i]? with
    | none => simp
    | some p =>
      obtain ⟨rid, b⟩ := p
      simp only []
      cases hr : sys.requests[rid]? with
      | none => simp
      | some ctx =>
        simp only []
        by_cases href : dev.ref = true
        · simp [href, windrbd_pnp]
        · simp [href]


/-! ## The overlay regions of a SCSI read -/

/-- The prolog part of a read: the sectors below `data_shift` are copied from
the prolog cache and the request moves on by that many sectors. -/
theorem scsi_prolog_part_read (dev : block_device) (shift s n : Nat)
    (hshift : dev.data_shift = shift) (hshift2 : shift < 2 ^ 31)
    (hn : 0 < n) (hn2 : n < 2 ^ 23) (hs : s < 2 ^ 63)
    (hp : 0 < shift → dev.disk_prolog = true) :
    scsi_prolog_part dev Dir.READ
      { start_sector := s, sector_count := n, buffer := 0, status := STATUS_SUCCESS
        copies := [], call_drbd := false, io_buffer := 0, io_start_sector := 0
        io_sector_count := 0 } =
      { start_sector := s + min n (shift - s)
        sector_count := ((n - min n (shift - s) : Nat) : Int)
        buffer := min n (shift - s) * 512
        status := STATUS_SUCCESS
        copies :=
          if s < shift then
            [{ epilog := false, to_cache := false, zero_fill := false, buffer_offset := 0
               cache_offset := s * 512, length := min n (shift - s) * 512 }]
          else []
        call_drbd := false, io_buffer := 0, io_start_sector := 0, io_sector_count := 0 } := by
  have hu : u64 dev.data_shift = shift := by rw [hshift]; unfold u64; omega
  unfold scsi_prolog_part
  simp only [hu]
  by_cases hlt : s < shift
  · have hpro := hp (by omega)
    have hn0 : u64 (((shift : Int) - (s : Int)) * 512) = (shift - s) * 512 := by
      unfold u64; omega
    have hn1 : u64 ((n : Int) * 512) = n * 512 := by unfold u64; omega
    simp only [hlt, hn0, hn1, hpro]
    simp only [true_and, if_pos hn, gt_iff_lt, Nat.cast_pos, ge_iff_le, if_true]
    by_cases hle : n ≤ shift - s
    · have hm : min n (shift - s) = n := by omega
      have e1 : u64 ((s : Int) + ((n * 512 : Nat) / 512 : Nat)) = s + n := by unfold u64; omega
      have e2 : s64 ((n : Int) - ((n * 512 : Nat) / 512 : Nat)) = ((n - n : Nat) : Int) := by
        unfold s64; omega
      have e3 : u64 ((s : Int) * 512) = s * 512 := by unfold u64; omega
      have hle' : n * 512 ≤ (shift - s) * 512 := by omega
      simp only [hle', if_true, hm, e1, e2, e3]
      simp
    · have hm : min n (shift - s) = shift - s := by omega
      have e1 : u64 ((s : Int) + (((shift - s) * 512 : Nat) / 512 : Nat)) = s + (shift - s) := by
        unfold u64; omega
      have e2 : s64 ((n : Int) - (((shift - s) * 512 : Nat) / 512 : Nat))
          = ((n - (shift - s) : Nat) : Int) := by
        unfold s64; omega
      have e3 : u64 ((s : Int) * 512) = s * 512 := by unfold u64; omega
      have hle' : ¬ n * 512 ≤ (shift - s) * 512 := by omega
      simp only [hle', if_false, hm, e1, e2, e3]
      simp
  · have hm : min n (shift - s) = 0 := by omega
    simp [hlt, hm]

/-- The data part of a read that starts at or above `data_shift`: the sectors
below the end of the data region are remembered for the engine. -/
theorem scsi_data_part_read (dev : block_device) (shift q s n b : Nat) (c : List OverlayCopy)
    (hshift : dev.data_shift = shift) (hshift2 : shift < 2 ^ 31)
    (hq : Int.tdiv dev.d_size 512 = q) (hq2 : q < 2 ^ 54)
    (hn2 : n < 2 ^ 23) (hs : s < 2 ^ 62) (hge : 0 < n → shift ≤ s) :
    scsi_data_part dev
      { start_sector := s, sector_count := n, buffer := b, status := STATUS_SUCCESS
        copies := c, call_drbd := false, io_buffer := 0, io_start_sector := 0
        io_sector_count := 0 } =
      if 0 < min n (shift + q - s) then
        { start_sector := s + min n (shift + q - s)
          sector_count := ((n - min n (shift + q - s) : Nat) : Int)
          buffer := b + min n (shift + q - s) * 512
          status := STATUS_SUCCESS
          copies := c
          call_drbd := true, io_buffer := b, io_start_sector := ((s - shift : Nat) : Int)
          io_sector_count := (min n (shift + q - s) : Nat) }
      else
        { start_sector := s, sector_count := n, buffer := b, status := STATUS_SUCCESS
          copies := c, call_drbd := false, io_buffer := 0, io_start_sector := 0
          io_sector_count := 0 } := by
  unfold scsi_data_part
  simp only [hshift, hq]
  by_cases hn : 0 < n
  · have hge0 := hge hn
    have hn' : ((n : Int) > 0) := by omega
    have e0 : s64 ((u64 ((s : Int) + (n : Int)) : Int) - s64 ((q : Int) + (shift : Int)))
        = (s : Int) + n - (q + shift) := by
      unfold s64 u64; omega
    simp only [if_pos hn', e0]
    by_cases hex : (s : Int) + n - (q + shift) > 0
    · have e1 : s64 ((n : Int) - ((s : Int) + n - (q + shift))) = (q : Int) + shift - s := by
        unfold s64; omega
      simp only [if_pos hex, e1]
      by_cases hnum : (q : Int) + shift - s > 0
      · have hm : min n (shift + q - s) = shift + q - s := by omega
        have hpos : 0 < shift + q - s := by omega
        have f1 : u64 ((s : Int) + ((q : Int) + shift - s)) = s + (shift + q - s) := by
          unfold u64; omega
        have f2 : s64 ((n : Int) - ((q : Int) + shift - s)) = ((n - (shift + q - s) : Nat) : Int) := by
          unfold s64; omega
        have f3 : s64 ((s : Int) - (shift : Int)) = ((s - shift : Nat) : Int) := by
          unfold s64; omega
        have f4 : (((q : Int) + shift - s) * 512).toNat = (shift + q - s) * 512 := by omega
        have f5 : (q : Int) + shift - s = ((shift + q - s : Nat) : Int) := by omega
        simp only [if_pos hnum, hm, if_pos hpos, f1, f2, f3, f4]
        simp only [f5]
      · have hm : min n (shift + q - s) = 0 := by omega
        simp only [if_neg hnum, hm, lt_irrefl, if_false]
    · have hm : min n (shift + q - s) = n := by omega
      have f1 : u64 ((s : Int) + (n : Int)) = s + n := by unfold u64; omega
      have f2 : s64 ((n : Int) - (n : Int)) = ((n - n : Nat) : Int) := by
        unfold s64; omega
      have f3 : s64 ((s : Int) - (shift : Int)) = ((s - shift : Nat) : Int) := by
        unfold s64; omega
      have f4 : ((n : Int) * 512).toNat = n * 512 := by omega
      simp only [if_neg hex, if_pos hn', hm, if_pos hn, f1, f2, f3, f4]
  · have hn0 : n = 0 := by omega
    subst hn0
    simp

/-- The epilog part of a read that ends inside the presented device: what is
left is copied from the epilog cache. -/
theorem scsi_epilog_part_read (dev : block_device) (shift q app s n b : Nat)
    (c : List OverlayCopy) (cd : Bool) (ib : Nat) (is ic : Int)
    (hshift : dev.data_shift = shift) (hshift2 : shift < 2 ^ 31)
    (happ : dev.appended_sectors = app) (happ2 : app < 2 ^ 31)
    (hq : Int.tdiv dev.d_size 512 = q) (hq2 : q < 2 ^ 54)
    (hn2 : n < 2 ^ 23) (hge : 0 < n → shift + q ≤ s) (hle : s + n ≤ shift + q + app)
    (he : 0 < app → dev.disk_epilog = true) :
    scsi_epilog_part dev Dir.READ
      { start_sector := s, sector_count := n, buffer := b, status := STATUS_SUCCESS
        copies := c, call_drbd := cd, io_buffer := ib, io_start_sector := is
        io_sector_count := ic } =
      { start_sector := s, sector_count := n, buffer := b, status := STATUS_SUCCESS
        copies := c ++ (if 0 < n then
          [{ epilog := true, to_cache := false, zero_fill := false, buffer_offset := b
             cache_offset := (s - (shift + q)) * 512, length := n * 512 }] else [])
        call_drbd := cd, io_buffer := ib, io_start_sector := is
        io_sector_count := ic } := by
  unfold scsi_epilog_part
  simp only [hshift, hq, happ]
  by_cases hn : 0 < n
  · have hge0 := hge hn
    have hn' : ((n : Int) > 0) := by omega
    have hep := he (by omega)
    have e0 : u64 ((shift : Int) + (q : Int)) = shift + q := by unfold u64; omega
    have e1 : u64 ((shift : Int) + (q : Int) + (app : Int)) = shift + q + app := by
      unfold u64; omega
    have e2 : u64 ((s : Int) + (n : Int)) = s + n := by unfold u64; omega
    have e3 : u64 (((s : Int) - ((shift + q : Nat) : Int)) * 512) = (s - (shift + q)) * 512 := by
      unfold u64; omega
    have e4 : u64 ((n : Int) * 512) = n * 512 := by unfold u64; omega
    have h1 : s ≥ shift + q := hge0
    have h2 : ¬ (s + n > shift + q + app) := by omega
    simp only [if_pos hn', e0, e1, e2, if_pos h1, if_neg h2, e3, e4, hep, if_pos hn]
    simp
  · have hn0 : n = 0 := by omega
    subst hn0
    simp

/-- The three parts in sequence, for a read inside the presented device. -/
theorem scsi_read_regions (dev : block_device) (shift q app s n p d e : Nat)
    (hshift : dev.data_shift = shift) (hshift2 : shift < 2 ^ 31)
    (happ : dev.appended_sectors = app) (happ2 : app < 2 ^ 31)
    (hq : Int.tdiv dev.d_size 512 = q) (hq2 : q < 2 ^ 54)
    (hn : 0 < n) (hn2 : n < 2 ^ 23) (hle : s + n ≤ shift + q + app)
    (hp : 0 < shift → dev.disk_prolog = true) (he : 0 < app → dev.disk_epilog = true)
    (hsplit : region_split shift q s n = (p, d, e)) :
    scsi_epilog_part dev Dir.READ (scsi_data_part dev (scsi_prolog_part dev Dir.READ
      { start_sector := s, sector_count := n, buffer := 0, status := STATUS_SUCCESS
        copies := [], call_drbd := false, io_buffer := 0, io_start_sector := 0
        io_sector_count := 0 })) =
      { start_sector := s + p + d, sector_count := (e : Int), buffer := (p + d) * 512
        status := STATUS_SUCCESS
        copies :=
          (if 0 < p then
            [{ epilog := false, to_cache := false, zero_fill := false, buffer_offset := 0
               cache_offset := s * 512, length := p * 512 }]
           else []) ++
          (if 0 < e then
            [{ epilog := true, to_cache := false, zero_fill := false
               buffer_offset := (p + d) * 512
               cache_offset := (s + p + d - shift - q) * 512, length := e * 512 }]
           else [])
        call_drbd := decide (0 < d)
        io_buffer := if 0 < d then p * 512 else 0
        io_start_sector := if 0 < d then ((s + p - shift : Nat) : Int) else 0
        io_sector_count := if 0 < d then (d : Int) else 0 } := by
  simp only [region_split, Prod.mk.injEq] at hsplit
  obtain ⟨hp1, hd1, he1⟩ := hsplit
  rw [hp1] at hd1 he1
  rw [hd1] at he1
  rw [scsi_prolog_part_read dev shift s n hshift hshift2 hn hn2 (by omega) hp, hp1]
  rw [scsi_data_part_read dev shift q (s + p) (n - p) (p * 512) _ hshift hshift2 hq hq2
    (by omega) (by omega) (by omega), hd1]
  have hc : (s < shift) ↔ 0 < p := by omega
  by_cases hd : 0 < d
  · rw [if_pos hd, scsi_epilog_part_read dev shift q app (s + p + d) (n - p - d) _ _ _ _ _ _
      hshift hshift2 happ happ2 hq hq2 (by omega) (by omega) (by omega) he, he1]
    have a1 : s + p + d - (shift + q) = s + p + d - shift - q := by omega
    simp only [hc, hd, if_true, decide_True, a1, Nat.add_mul]
  · have hd0 : d = 0 := by omega
    subst hd0
    rw [if_neg hd, scsi_epilog_part_read dev shift q app (s + p) (n - p) _ _ _ _ _ _
      hshift hshift2 happ happ2 hq hq2 (by omega) (by omega) (by omega) he]
    have a1 : s + p - (shift + q) = s + p + 0 - shift - q := by omega
    have a2 : n - p = e := by omega
    simp only [hc, lt_irrefl, if_false, decide_False, a1, a2, Nat.add_zero]

/-- The read case of `scsi_read_write` returns, with the overlay copies and
the forwarded call of `scsi_read_regions`. -/
theorem scsi_read_write_read (env : Env) (dev : block_device) (lock : Int) (irp : IRP)
    (srb : SCSI_REQUEST_BLOCK) (shift q app s n p d e : Nat)
    (hmap : srb.buffer_maps = true)
    (hs : srb.LogicalBlock = s) (hcount : srb.TransferBlocks = n)
    (hlen : n * 512 ≤ srb.DataTransferLength) (hlen2 : srb.DataTransferLength < 2 ^ 32)
    (hshift : dev.data_shift = shift) (hshift2 : shift < 2 ^ 31)
    (happ : dev.appended_sectors = app) (happ2 : app < 2 ^ 31)
    (hq : Int.tdiv dev.d_size 512 = q) (hq2 : q < 2 ^ 54)
    (hle : s + n ≤ shift + q + app)
    (hp : 0 < shift → dev.disk_prolog = true) (he : 0 < app → dev.disk_epilog = true)
    (hsplit : region_split shift q s n = (p, d, e)) :
    ∃ r, scsi_read_write env dev lock irp srb Dir.READ = some r ∧
      r.copies =
        (if 0 < p then
          [{ epilog := false, to_cache := false, zero_fill := false, buffer_offset := 0
             cache_offset := s * 512, length := p * 512 }]
         else []) ++
        (if 0 < e then
          [{ epilog := true, to_cache := false, zero_fill := false
             buffer_offset := (p + d) * 512
             cache_offset := (s + p + d - shift - q) * 512, length := e * 512 }]
         else []) ∧
      r.forwarded =
        (if 0 < d then
          some { io_buffer := p * 512, io_start_sector := ((s + p - shift : Nat) : Int)
                 io_sector_count := (d : Int) }
         else none) := by
  have hsc : ¬ (s64 ((n : Int) * 512) > (srb.DataTransferLength : Int)) := by
    unfold s64; omega
  by_cases hn : 0 < n
  · have hx := scsi_read_regions dev shift q app s n p d e hshift hshift2 happ happ2 hq hq2 hn
      (by omega) hle hp he hsplit
    have hn0 : ¬ ((n : Int) = 0) := by omega
    have hw : ¬ (Dir.READ = Dir.WRITE ∧ dev.is_bootdevice = true) := by simp
    unfold scsi_read_write
    dsimp only
    rw [if_neg hw]
    dsimp only
    rw [if_neg (by simp)]
    rw [hs, hcount, if_neg hsc, if_neg hn0, hmap, if_neg (by simp), hx]
    dsimp only
    generalize windrbd_make_drbd_requests env true dev true _ _ _ = sub
    by_cases hd : 0 < d
    · simp only [hd, decide_True, if_true]
      by_cases hsub : sub.status = STATUS_SUCCESS
      · rw [if_pos hsub]
        exact ⟨_, rfl, rfl, rfl⟩
      · rw [if_neg hsub]
        exact ⟨_, rfl, rfl, rfl⟩
    · simp only [hd, decide_False, if_false]
      simp [scsi_out]
  · have hn0 : n = 0 := by omega
    subst hn0
    simp only [region_split, Prod.mk.injEq] at hsplit
    obtain ⟨hp1, hd1, he1⟩ := hsplit
    have hp0 : p = 0 := by omega
    have hd0 : d = 0 := by omega
    have he0 : e = 0 := by omega
    subst hp0 hd0 he0
    have hw : ¬ (Dir.READ = Dir.WRITE ∧ dev.is_bootdevice = true) := by simp
    unfold scsi_read_write
    dsimp only
    rw [if_neg hw]
    dsimp only
    rw [if_neg (by simp)]
    rw [hs, hcount, if_neg hsc]
    simp [scsi_out]

/-- A range of whole sectors inside the data region is not shortened. -/
theorem effective_size_inside (dev : block_device) (sector k q : Nat)
    (hbs : dev.bd_block_size = 512) (hd0 : 0 ≤ dev.d_size) (hd1 : dev.d_size < 2 ^ 63)
    (hq : Int.tdiv dev.d_size 512 = q) (hle : sector + k ≤ q) :
    effective_size dev sector (k * 512) = k * 512 := by
  rw [Int.tdiv_eq_ediv hd0 (by decide)] at hq
  unfold effective_size byte_offset
  rw [hbs]
  have hc : ¬ (u64 ((u64 ((sector : Int) * 512) : Int) + ((k * 512 : Nat) : Int))
      > u64 dev.d_size) := by
    unfold u64; omega
  rw [if_neg hc]

/-- The read case of `scsi_read_write` for a read inside the presented device:
it returns, and the result holds the overlay copies, the forwarded call, and
the status and fragments that call produced. -/
theorem scsi_read_write_result (env : Env) (dev : block_device) (lock : Int) (irp : IRP)
    (srb : SCSI_REQUEST_BLOCK) (shift q app s n p d e : Nat)
    (hmap : srb.buffer_maps = true)
    (hs : srb.LogicalBlock = s) (hcount : srb.TransferBlocks = n)
    (hlen : n * 512 ≤ srb.DataTransferLength) (hlen2 : srb.DataTransferLength < 2 ^ 32)
    (hshift : dev.data_shift = shift) (hshift2 : shift < 2 ^ 31)
    (happ : dev.appended_sectors = app) (happ2 : app < 2 ^ 31)
    (hq : Int.tdiv dev.d_size 512 = q) (hq2 : q < 2 ^ 54)
    (hle : s + n ≤ shift + q + app)
    (hp : 0 < shift → dev.disk_prolog = true) (he : 0 < app → dev.disk_epilog = true)
    (hsplit : region_split shift q s n = (p, d, e)) :
    ∃ r, scsi_read_write env dev lock irp srb Dir.READ = some r ∧
      r.copies =
        (if 0 < p then
          [{ epilog := false, to_cache := false, zero_fill := false, buffer_offset := 0
             cache_offset := s * 512, length := p * 512 }]
         else []) ++
        (if 0 < e then
          [{ epilog := true, to_cache := false, zero_fill := false
             buffer_offset := (p + d) * 512
             cache_offset := (s + p + d - shift - q) * 512, length := e * 512 }]
         else []) ∧
      r.forwarded =
        (if 0 < d then
          some { io_buffer := p * 512, io_start_sector := ((s + p - shift : Nat) : Int)
                 io_sector_count := (d : Int) }
         else none) ∧
      r.status =
        (if 0 < d then
          (if (windrbd_make_drbd_requests env true dev true (d * 512) (s + p - shift)
              Dir.READ).status = STATUS_SUCCESS then STATUS_PENDING
           else (windrbd_make_drbd_requests env true dev true (d * 512) (s + p - shift)
              Dir.READ).status)
         else STATUS_SUCCESS) ∧
      r.queued =
        (if 0 < d then
          (windrbd_make_drbd_requests env true dev true (d * 512) (s + p - shift)
            Dir.READ).queued
         else []) := by
  have hsc : ¬ (s64 ((n : Int) * 512) > (srb.DataTransferLength : Int)) := by
    unfold s64; omega
  have hdn : d ≤ n ∧ p ≤ n := by
    simp only [region_split, Prod.mk.injEq] at hsplit
    omega
  have hw : ¬ (Dir.READ = Dir.WRITE ∧ dev.is_bootdevice = true) := by simp
  by_cases hn : 0 < n
  · have hx := scsi_read_regions dev shift q app s n p d e hshift hshift2 happ happ2 hq hq2 hn
      (by omega) hle hp he hsplit
    have hn0 : ¬ ((n : Int) = 0) := by omega
    have e1 : u32 ((d : Int) * 512) = d * 512 := by unfold u32; omega
    have e2 : u64 ((s + p - shift : Nat) : Int) = s + p - shift := by unfold u64; omega
    unfold scsi_read_write
    dsimp only
    rw [if_neg hw]
    dsimp only
    rw [if_neg (by simp)]
    rw [hs, hcount, if_neg hsc, if_neg hn0, hmap, if_neg (by simp), hx]
    dsimp only
    by_cases hd : 0 < d
    · simp only [hd, decide_True, if_true, e1, e2]
      generalize windrbd_make_drbd_requests env true dev true _ _ _ = sub
      by_cases hsub : sub.status = STATUS_SUCCESS
      · rw [if_pos hsub, if_pos hsub]
        exact ⟨_, rfl, rfl, rfl, rfl, rfl⟩
      · rw [if_neg hsub, if_neg hsub]
        exact ⟨_, rfl, rfl, rfl, rfl, rfl⟩
    · simp only [hd, decide_False, if_false]
      simp [scsi_out]
  · have hn0 : n = 0 := by omega
    subst hn0
    simp only [region_split, Prod.mk.injEq] at hsplit
    obtain ⟨hp1, hd1, he1⟩ := hsplit
    have hp0 : p = 0 := by omega
    have hd0 : d = 0 := by omega
    have he0 : e = 0 := by omega
    subst hp0 hd0 he0
    unfold scsi_read_write
    dsimp only
    rw [if_neg hw]
    dsimp only
    rw [if_neg (by simp)]
    rw [hs, hcount, if_neg hsc]
    simp [scsi_out]

/-- The fragments of a request of `L` bytes (at most 2 GiB) at `sector` of a
device with 512-byte blocks: fragment `b` starts at sector `sector + b * 2048`,
belongs at buffer offset `b` MiB and has `min (1 MiB) (L - b MiB)` bytes. -/
theorem make_bio_tiles (irp : Bool) (dev : block_device) (buffer : Bool)
    (L sector : Nat) (rw : Dir)
    (hbs : dev.bd_block_size = 512) (h0 : 0 < L) (h : L ≤ 2 ^ 31) (hs : sector + L < 2 ^ 64) :
    ((List.range' 0 (bio_count L)).map (make_bio irp dev buffer L sector rw)).map
        (fun b => (b.bi_opf, b.bi_sector, b.bi_mdl_offset, b.bi_size)) =
      (List.range ((L + MAX_BIO_SIZE - 1) / MAX_BIO_SIZE)).map (fun b =>
        (rw, sector + b * 2048, b * MAX_BIO_SIZE, min MAX_BIO_SIZE (L - b * MAX_BIO_SIZE))) := by
  have hc := bio_count_eq L h0 (by omega)
  have hsum := split_sum L h0 (by omega)
  have hlast := last_bio_size_le L
  have hlast0 : 0 < last_bio_size L := by
    unfold last_bio_size MAX_BIO_SIZE; split <;> omega
  rw [← List.range_eq_range', List.map_map, ← hc]
  apply List.map_congr_left
  intro b hb
  have hb1 : b < bio_count L := List.mem_range.mp hb
  have hcount : bio_count L ≤ 2048 := by
    rw [hc]; unfold MAX_BIO_SIZE; omega
  obtain ⟨m1, m2⟩ := make_bio_placement_below_2GiB irp dev buffer L sector rw b hbs (by omega)
    (by unfold MAX_BIO_SIZE at hsum; omega)
  simp only [Function.comp, m1, m2, make_bio_size]
  have hopf : (make_bio irp dev buffer L sector rw b).bi_opf = rw := rfl
  rw [hopf]
  by_cases hi : b = bio_count L - 1
  · rw [if_pos hi]
    have : min MAX_BIO_SIZE (L - b * MAX_BIO_SIZE) = last_bio_size L := by
      subst hi
      unfold MAX_BIO_SIZE at *
      omega
    rw [this]
  · rw [if_neg hi]
    have : min MAX_BIO_SIZE (L - b * MAX_BIO_SIZE) = MAX_BIO_SIZE := by
      unfold MAX_BIO_SIZE at *
      omega
    rw [this]


/-- C13 (amended): a SCSI read of `n` sectors at sector `s` inside the
presented device (512-byte blocks, the transfer buffer mapped and holding `n`
sectors, the overlay caches allocated) is cut into `p` sectors copied from the
prolog cache (cache offset `s * 512`, buffer offset 0), `d` sectors forwarded
to `windrbd_make_drbd_requests` (data sector `s + p - data_shift`, buffer
offset `p * 512`) and `e` sectors copied from the epilog cache (cache offset
`(s + p + d - data_shift - d_size / 512) * 512`, buffer offset
`(p + d) * 512`), with `p + d + e = n`. When the data part is at most 2 GiB,
the wait on `io_not_suspended`, the aggregator and every per-fragment
allocation succeed and the work queue exists, the `d` sectors reach the
engine: `windrbd_scsi` returns `STATUS_PENDING` (`STATUS_SUCCESS` when `d = 0`)
and has queued the read fragments `b = 0, 1, ...` of at most 1 MiB, fragment
`b` for data sector `s + p - data_shift + b * 2048`, at offset `b` MiB of
the forwarded buffer, the sizes adding up to `d * 512`. -/
theorem scsi_read_split_over_regions (env : Env) (dev : block_device) (lock : Int) (irp : IRP)
    (srb : SCSI_REQUEST_BLOCK) (shift q app s n p d e : Nat)
    (hdel : dev.delete_pending = false) (habout : dev.about_to_delete = false)
    (href : dev.ref = true)
    (hfun : srb.Function = SrbFunction.SRB_FUNCTION_EXECUTE_SCSI) (hlun : srb.Lun = 0)
    (hop : srb.opcode = ScsiOp.SCSIOP_READ ∨ srb.opcode = ScsiOp.SCSIOP_READ16)
    (hmap : srb.buffer_maps = true)
    (hs : srb.LogicalBlock = s) (hcount : srb.TransferBlocks = n)
    (hlen : n * 512 ≤ srb.DataTransferLength) (hlen2 : srb.DataTransferLength < 2 ^ 32)
    (hshift : dev.data_shift = shift) (hshift2 : shift < 2 ^ 31)
    (happ : dev.appended_sectors = app) (happ2 : app < 2 ^ 31)
    (hbs : dev.bd_block_size = 512) (hd0 : 0 ≤ dev.d_size) (hd1 : dev.d_size < 2 ^ 63)
    (hq : Int.tdiv dev.d_size 512 = q)
    (hle : s + n ≤ shift + q + app)
    (hp : 0 < shift → dev.disk_prolog = true) (he : 0 < app → dev.disk_epilog = true)
    (hwait : env.irql_passive = true → env.io_not_suspended = STATUS_SUCCESS)
    (hcd : env.kzalloc_common_data = true)
    (halloc : allocations_ok env ((d * 512 + MAX_BIO_SIZE - 1) / MAX_BIO_SIZE))
    (hwq : dev.io_workqueue = true)
    (h2G : d * 512 ≤ 2 ^ 31)
    (hsplit : region_split shift q s n = (p, d, e)) :
    p + d + e = n ∧
    ∃ r, windrbd_scsi env (some dev) lock irp (some srb) = some r ∧
      r.copies =
        (if 0 < p then
          [{ epilog := false, to_cache := false, zero_fill := false, buffer_offset := 0
             cache_offset := s * 512, length := p * 512 }]
         else []) ++
        (if 0 < e then
          [{ epilog := true, to_cache := false, zero_fill := false
             buffer_offset := (p + d) * 512
             cache_offset := (s + p + d - shift - q) * 512, length := e * 512 }]
         else []) ∧
      r.forwarded =
        (if 0 < d then
          some { io_buffer := p * 512, io_start_sector := ((s + p - shift : Nat) : Int)
                 io_sector_count := (d : Int) }
         else none) ∧
      r.status = (if 0 < d then STATUS_PENDING else STATUS_SUCCESS) ∧
      r.queued.map (fun b => (b.bi_opf, b.bi_sector, b.bi_mdl_offset, b.bi_size)) =
        (List.range ((d * 512 + MAX_BIO_SIZE - 1) / MAX_BIO_SIZE)).map (fun b =>
          (Dir.READ, s + p - shift + b * 2048, b * MAX_BIO_SIZE,
            min MAX_BIO_SIZE (d * 512 - b * MAX_BIO_SIZE))) ∧
      (r.queued.map bio.bi_size).sum = d * 512 := by
  have hq2 : q < 2 ^ 54 := by
    have := hq
    rw [Int.tdiv_eq_ediv hd0 (by decide)] at this
    omega
  have hsp : region_split shift q s n = (p, d, e) := hsplit
  simp only [region_split, Prod.mk.injEq] at hsp
  refine ⟨by omega, ?_⟩
  obtain ⟨r, hr, h1, h2, h3, h4⟩ := scsi_read_write_result env dev (lock + 1)
    { irp with Information := 0 }
    { srb with SrbStatus := SRB_STATUS.SRB_STATUS_INVALID_REQUEST } shift q app s n p d e
    hmap hs hcount hlen hlen2 hshift hshift2 happ happ2 hq hq2 hle hp he hsplit
  have hscsi : windrbd_scsi env (some dev) lock irp (some srb) = some r := by
    rw [← hr]
    unfold windrbd_scsi
    simp only [hdel, habout, href, hlun, hfun]
    rcases hop with ho | ho
    · simp only [ho, hfun, hlun]
      simp only [Bool.or_false, Bool.not_true, Bool.false_eq_true, if_false, ne_eq,
        not_true_eq_false]
    · simp only [ho, hfun, hlun]
      simp only [Bool.or_false, Bool.not_true, Bool.false_eq_true, if_false, ne_eq,
        not_true_eq_false]
  refine ⟨r, hscsi, h1, h2, ?_⟩
  by_cases hd : 0 < d
  · have heff := effective_size_inside dev (s + p - shift) d q hbs hd0 hd1 hq (by omega)
    have hoff : byte_offset dev (s + p - shift) < u64 dev.d_size := by
      have := hq
      rw [Int.tdiv_eq_ediv hd0 (by decide)] at this
      unfold byte_offset u64
      rw [hbs]
      omega
    have hreach : reaches_split_loop env dev true (d * 512) (s + p - shift) Dir.READ :=
      ⟨by simp, hoff, by rw [heff]; omega, rfl,
        fun h => h.2 (hwait h.1), hcd⟩
    have hc := bio_count_eq (d * 512) (by omega) (by omega)
    have hok := make_requests_ok env true dev true (d * 512) (s + p - shift) Dir.READ hreach
      (by rw [heff, hc]; exact halloc) hwq
    rw [heff] at hok
    rw [hok] at h3 h4
    simp only [if_pos hd, if_true] at h3 h4
    rw [if_pos hd]
    refine ⟨h3, ?_, ?_⟩
    · rw [h4]
      exact make_bio_tiles true dev true (d * 512) (s + p - shift) Dir.READ hbs (by omega) h2G
        (by omega)
    · rw [h4]
      exact fragment_sizes_sum true dev true (d * 512) (s + p - shift) Dir.READ (by omega)
        (by omega)
  · have hd00 : d = 0 := by omega
    subst hd00
    simp only [lt_irrefl, if_false] at h3 h4
    rw [if_neg (lt_irrefl 0)]
    refine ⟨h3, ?_, ?_⟩
    · rw [h4]; simp [MAX_BIO_SIZE]
    · rw [h4]; simp

/-- C13 witness: `data_shift` = 128, `s` = 126, `n` = 5: two prolog sectors,
then three data sectors from data sector 0, queued as one fragment of 1536
bytes. -/
theorem scsi_read_split_over_regions_witness :
    ∃ r, windrbd_scsi env_all_ok (some disk_4G_overlay) 0 fresh_irp (some scsi_read_5_at_126)
        = some r ∧
      r.copies = [{ epilog := false, to_cache := false, zero_fill := false, buffer_offset := 0
                    cache_offset := 126 * 512, length := 2 * 512 }] ∧
      r.forwarded = some { io_buffer := 2 * 512, io_start_sector := 0, io_sector_count := 3 } ∧
      r.status = STATUS_PENDING ∧
      r.queued.map (fun b => (b.bi_opf, b.bi_sector, b.bi_mdl_offset, b.bi_size)) =
        [(Dir.READ, 0, 0, 3 * 512)] ∧
      (r.queued.map bio.bi_size).sum = 3 * 512 := by
  have h := (scsi_read_split_over_regions env_all_ok disk_4G_overlay 0 fresh_irp
    scsi_read_5_at_126 128 8388608 128 126 5 2 3 0 rfl rfl rfl rfl rfl (Or.inl rfl) rfl rfl rfl
    (by decide) (by decide) rfl (by decide) rfl (by decide) rfl (by decide) (by decide)
    (by decide) (by decide) (fun _ => rfl) (fun _ => rfl) (fun _ => rfl) rfl
    (fun _ _ => ⟨rfl, rfl, rfl, rfl⟩) rfl (by decide) (by decide)).2
  obtain ⟨r, h0, h1, h2, h3, h4, h5⟩ := h
  refine ⟨r, h0, ?_, ?_, ?_, ?_, ?_⟩
  · simpa using h1
  · simpa using h2
  · simpa using h3
  · rw [h4]; decide
  · simpa using h5

/-- C13 (counterexample): the READ(10) of 5 sectors at sector 126 of the 4 GiB
disk with overlay lies inside the presented device and splits into 2 prolog
and 3 data sectors. When `bio_alloc` fails, the prolog bytes are copied and
`windrbd_make_drbd_requests` is called for the 3 data sectors, but no fragment
is queued: the IRP is completed with `STATUS_INSUFFICIENT_RESOURCES` and the
data sectors never reach the engine. -/
theorem scsi_data_part_not_forwarded :
    (126 : Int) + 5 ≤ disk_4G_overlay.data_shift + Int.tdiv disk_4G_overlay.d_size 512
      + disk_4G_overlay.appended_sectors ∧
    region_split 128 8388608 126 5 = (2, 3, 0) ∧
    (windrbd_scsi env_bio_alloc_fails (some disk_4G_overlay) 0 fresh_irp
        (some scsi_read_5_at_126)).map
      (fun r => (r.status, r.irp.Status, r.irp.completed))
      = some (STATUS_INSUFFICIENT_RESOURCES, STATUS_INSUFFICIENT_RESOURCES, 1) ∧
    (windrbd_scsi env_bio_alloc_fails (some disk_4G_overlay) 0 fresh_irp
        (some scsi_read_5_at_126)).map
      (fun r => (r.copies.map fun c => c.length, r.forwarded, r.queued))
      = some ([1024], some { io_buffer := 1024, io_start_sector := 0, io_sector_count := 3 },
          []) := by
  refine ⟨by decide, by decide, by decide, by decide⟩


/-! ## Forwarded range, device end and reported byte count of SCSI requests -/

/-- C14: a READ(16) of one sector at logical block 2^63 + 2^55 on the 4 GiB
disk (8388608 data sectors, no overlay) is forwarded to
`windrbd_make_drbd_requests`: the test `excess_sectors > 0` is made on a signed
64-bit difference, which is negative here. The forwarded first sector is
negative as `int64_t`, the call is accepted because `sector * 512` wraps to 0,
and one fragment with `bi_sector` 2^63 + 2^55 is queued; `windrbd_scsi` returns
`STATUS_PENDING`. -/
theorem forwarded_sector_outside_data_region :
    Int.tdiv disk_4G.d_size 512 = 8388608 ∧
    (windrbd_scsi env_all_ok (some disk_4G) 0 fresh_irp (some scsi_read16_beyond_2_63)).map
        (fun r => (r.status, r.forwarded, r.copies, r.queued.map fun b => (b.bi_sector, b.bi_size)))
      = some (STATUS_PENDING,
          some { io_buffer := 0, io_start_sector := -(2 ^ 63) + 2 ^ 55, io_sector_count := 1 },
          [], [(2 ^ 63 + 2 ^ 55, 512)]) := by
  decide

/-- C17: on the 4 GiB disk with overlay the presented device has 8388864
sectors. A READ(10) of one sector at logical block 8388864 is completed with
`STATUS_SUCCESS`, `SRB_STATUS_SUCCESS` and a transfer length of 512 bytes:
nothing is forwarded and the epilog copy is cut to 0 bytes. At logical block
8388865 the result is the same, and the length of the epilog copy is
`(last_sector - start_sector) * 512` = -512 taken as `size_t`. -/
theorem read_at_device_end_succeeds :
    disk_4G_overlay.data_shift + Int.tdiv disk_4G_overlay.d_size 512
      + disk_4G_overlay.appended_sectors = 8388864 ∧
    (windrbd_scsi env_all_ok (some disk_4G_overlay) 0 fresh_irp (some (scsi_read_1_at 8388864))).map
        (fun r => (r.status, r.irp.Status, r.irp.completed,
          r.srb.map fun x => (x.SrbStatus, x.DataTransferLength)))
      = some (STATUS_SUCCESS, STATUS_SUCCESS, 1, some (SRB_STATUS.SRB_STATUS_SUCCESS, 512)) ∧
    (windrbd_scsi env_all_ok (some disk_4G_overlay) 0 fresh_irp (some (scsi_read_1_at 8388864))).map
        (fun r => (r.forwarded, r.copies))
      = some (none,
          [{ epilog := true, to_cache := false, zero_fill := false, buffer_offset := 0
             cache_offset := 128 * 512, length := 0 }]) ∧
    (windrbd_scsi env_all_ok (some disk_4G_overlay) 0 fresh_irp (some (scsi_read_1_at 8388865))).map
        (fun r => (r.status, r.irp.Status, r.irp.completed,
          r.srb.map fun x => (x.SrbStatus, x.DataTransferLength)))
      = some (STATUS_SUCCESS, STATUS_SUCCESS, 1, some (SRB_STATUS.SRB_STATUS_SUCCESS, 512)) ∧
    (windrbd_scsi env_all_ok (some disk_4G_overlay) 0 fresh_irp (some (scsi_read_1_at 8388865))).map
        (fun r => (r.forwarded, r.copies))
      = some (none,
          [{ epilog := true, to_cache := false, zero_fill := false, buffer_offset := 0
             cache_offset := 129 * 512, length := 2 ^ 64 - 512 }]) := by
  refine ⟨by decide, by decide, by decide, by decide, by decide⟩

/-- C20 (counterexample): the READ(10) of 5 sectors at sector 126 of the 4 GiB
disk with overlay sets `srb->DataTransferLength` to 2560, copies 1024 bytes
from the prolog and forwards 1536 bytes in one fragment; when that fragment
completes without error the IRP is completed with `IoStatus.Information`
1536, not 2560. -/
theorem scsi_read_reports_data_bytes_only :
    (windrbd_scsi env_all_ok (some disk_4G_overlay) 0 fresh_irp (some scsi_read_5_at_126)).map
        (fun r => (r.status, r.srb.map fun x => x.DataTransferLength,
          r.copies.map fun x => x.length, r.queued.map fun b => b.bi_size))
      = some (STATUS_PENDING, some 2560, [1024], [1536]) ∧
    (windrbd_scsi env_all_ok (some disk_4G_overlay) 0 fresh_irp (some scsi_read_5_at_126)).bind
        (fun r => r.ctx.map fun c =>
          ((run_completions r.queued c).irp.Status,
           (run_completions r.queued c).irp.Information,
           (run_completions r.queued c).irp.completed))
      = some (STATUS_SUCCESS, 1536, 1) := by
  decide

/-- The read case of `scsi_read_write` when a data part exists and
`windrbd_make_drbd_requests` accepts it: what the result holds. -/
theorem scsi_read_write_forwarded (env : Env) (dev : block_device) (lock : Int) (irp : IRP)
    (srb : SCSI_REQUEST_BLOCK) (shift q app s n p d e : Nat)
    (hmap : srb.buffer_maps = true)
    (hs : srb.LogicalBlock = s) (hcount : srb.TransferBlocks = n)
    (hlen : n * 512 ≤ srb.DataTransferLength) (hlen2 : srb.DataTransferLength < 2 ^ 32)
    (hshift : dev.data_shift = shift) (hshift2 : shift < 2 ^ 31)
    (happ : dev.appended_sectors = app) (happ2 : app < 2 ^ 31)
    (hq : Int.tdiv dev.d_size 512 = q) (hq2 : q < 2 ^ 54)
    (hle : s + n ≤ shift + q + app)
    (hp : 0 < shift → dev.disk_prolog = true) (he : 0 < app → dev.disk_epilog = true)
    (hsplit : region_split shift q s n = (p, d, e)) (hd : 0 < d)
    (hsub : (windrbd_make_drbd_requests env true dev true (d * 512) (s + p - shift)
      Dir.READ).status = STATUS_SUCCESS) :
    ∃ r, scsi_read_write env dev lock irp srb Dir.READ = some r ∧
      r.status = STATUS_PENDING ∧
      r.irp = { irp with
        Information := 0
        Status := STATUS_PENDING
        status_writes := irp.status_writes + 1
        pending := irp.pending || (windrbd_make_drbd_requests env true dev true (d * 512)
          (s + p - shift) Dir.READ).irp_pending } ∧
      r.srb.map (fun x => x.DataTransferLength) = some (n * 512) ∧
      r.remove_lock = lock ∧
      r.common_data = (windrbd_make_drbd_requests env true dev true (d * 512) (s + p - shift)
        Dir.READ).common_data ∧
      r.queued = (windrbd_make_drbd_requests env true dev true (d * 512) (s + p - shift)
        Dir.READ).queued := by
  have hsc : ¬ (s64 ((n : Int) * 512) > (srb.DataTransferLength : Int)) := by
    unfold s64; omega
  have hn : 0 < n := by
    simp only [region_split, Prod.mk.injEq] at hsplit
    omega
  have hdn : d ≤ n ∧ p ≤ n := by
    simp only [region_split, Prod.mk.injEq] at hsplit
    omega
  have hx := scsi_read_regions dev shift q app s n p d e hshift hshift2 happ happ2 hq hq2 hn
    (by omega) hle hp he hsplit
  have hn0 : ¬ ((n : Int) = 0) := by omega
  have hw : ¬ (Dir.READ = Dir.WRITE ∧ dev.is_bootdevice = true) := by simp
  have e1 : u32 ((d : Int) * 512) = d * 512 := by unfold u32; omega
  have e2 : u64 ((s + p - shift : Nat) : Int) = s + p - shift := by unfold u64; omega
  have e3 : u32 ((n : Int) * 512) = n * 512 := by unfold u32; omega
  unfold scsi_read_write
  dsimp only
  rw [if_neg hw]
  dsimp only
  rw [if_neg (by simp)]
  rw [hs, hcount, if_neg hsc, if_neg hn0, hmap, if_neg (by simp), hx]
  dsimp only
  simp only [hd, decide_True, if_true, e1, e2, e3, hsub]
  exact ⟨_, rfl, rfl, rfl, rfl, rfl, rfl, rfl⟩

/-- C20 (amended): for a SCSI read inside the presented device (512-byte
blocks) whose data part of `d > 0` sectors is accepted by
`windrbd_make_drbd_requests`, `windrbd_scsi` returns `STATUS_PENDING` with
`srb->DataTransferLength` equal to the full transfer length `n * 512`, and when
the fragments complete without error, in any order, the IRP is completed once
with `STATUS_SUCCESS` and `IoStatus.Information` equal to `d * 512`, the bytes
of the data part only (the prolog and epilog bytes are not counted). -/
theorem scsi_read_reports_forwarded_bytes (env : Env) (dev : block_device) (lock : Int)
    (irp : IRP) (srb : SCSI_REQUEST_BLOCK) (shift q app s n p d e : Nat) (order : List bio)
    (hdel : dev.delete_pending = false) (habout : dev.about_to_delete = false)
    (href : dev.ref = true)
    (hfun : srb.Function = SrbFunction.SRB_FUNCTION_EXECUTE_SCSI) (hlun : srb.Lun = 0)
    (hop : srb.opcode = ScsiOp.SCSIOP_READ ∨ srb.opcode = ScsiOp.SCSIOP_READ16)
    (hmap : srb.buffer_maps = true)
    (hs : srb.LogicalBlock = s) (hcount : srb.TransferBlocks = n)
    (hlen : n * 512 ≤ srb.DataTransferLength) (hlen2 : srb.DataTransferLength < 2 ^ 32)
    (hshift : dev.data_shift = shift) (hshift2 : shift < 2 ^ 31)
    (happ : dev.appended_sectors = app) (happ2 : app < 2 ^ 31)
    (hbs : dev.bd_block_size = 512) (hd0 : 0 ≤ dev.d_size) (hd1 : dev.d_size < 2 ^ 63)
    (hq : Int.tdiv dev.d_size 512 = q)
    (hle : s + n ≤ shift + q + app)
    (hp : 0 < shift → dev.disk_prolog = true) (he : 0 < app → dev.disk_epilog = true)
    (hsplit : region_split shift q s n = (p, d, e)) (hd : 0 < d)
    (hsub : (windrbd_make_drbd_requests env true dev true (d * 512) (s + p - shift)
      Dir.READ).status = STATUS_SUCCESS)
    (hperm : order.Perm (windrbd_make_drbd_requests env true dev true (d * 512) (s + p - shift)
      Dir.READ).queued) :
    ∃ r c, windrbd_scsi env (some dev) lock irp (some srb) = some r ∧
      r.status = STATUS_PENDING ∧ r.ctx = some c ∧ order.Perm r.queued ∧
      r.srb.map (fun x => x.DataTransferLength) = some (n * 512) ∧
      (run_completions order c).irp.Status = STATUS_SUCCESS ∧
      (run_completions order c).irp.Information = d * 512 ∧
      (run_completions order c).irp.completed + (run_completions order c).delayed_io_completion
        = irp.completed + 1 := by
  have hq2 : q < 2 ^ 54 := by
    have := hq
    rw [Int.tdiv_eq_ediv hd0 (by decide)] at this
    omega
  have hsp : region_split shift q s n = (p, d, e) := hsplit
  simp only [region_split, Prod.mk.injEq] at hsp
  have heff := effective_size_inside dev (s + p - shift) d q hbs hd0 hd1 hq (by omega)
  obtain ⟨r, hr, h1, h2, h3, h4, h5, h6⟩ := scsi_read_write_forwarded env dev (lock + 1)
    { irp with Information := 0 }
    { srb with SrbStatus := SRB_STATUS.SRB_STATUS_INVALID_REQUEST } shift q app s n p d e
    hmap hs hcount hlen hlen2 hshift hshift2 happ happ2 hq hq2 hle hp he hsplit hd hsub
  have hrep := completions_report_effective_size env dev true (d * 512) (s + p - shift) Dir.READ
    { irp with Information := 0, Status := STATUS_PENDING
               status_writes := irp.status_writes + 1 } (lock + 1) order hsub hperm
  have hscsi : windrbd_scsi env (some dev) lock irp (some srb) = some r := by
    rw [← hr]
    unfold windrbd_scsi
    simp only [hdel, habout, href, hlun, hfun]
    rcases hop with ho | ho
    · simp only [ho, hfun, hlun]
      simp only [Bool.or_false, Bool.not_true, Bool.false_eq_true, if_false, ne_eq,
        not_true_eq_false]
    · simp only [ho, hfun, hlun]
      simp only [Bool.or_false, Bool.not_true, Bool.false_eq_true, if_false, ne_eq,
        not_true_eq_false]
  cases hcd : (windrbd_make_drbd_requests env true dev true (d * 512) (s + p - shift)
      Dir.READ).common_data with
  | none =>
    simp [Submission.ctx, hcd] at hrep
  | some cd =>
    simp only [Submission.ctx, hcd, Option.map_some', Option.some.injEq, Prod.mk.injEq,
      heff] at hrep
    obtain ⟨_, b1, b2, b3⟩ := hrep
    refine ⟨r, { irp := r.irp, common_data := cd, common_data_freed := 0
                 delayed_io_completion := 0, remove_lock := r.remove_lock, copies := [] },
      hscsi, h1, ?_, ?_, h3, ?_, ?_, ?_⟩
    · simp only [ScsiDispatched.ctx, h5, hcd, Option.map_some']
    · rw [h6]; exact hperm
    · rw [h2, h4]; exact b1
    · rw [h2, h4]; exact b2
    · rw [h2, h4]; exact b3

/-- C20 witness: the read of 5 sectors at sector 126 on the 4 GiB disk with
overlay: 3 data sectors, `Information` is 1536. -/
theorem scsi_read_reports_forwarded_bytes_witness :
    ∃ r c, windrbd_scsi env_all_ok (some disk_4G_overlay) 0 fresh_irp (some scsi_read_5_at_126)
        = some r ∧
      r.status = STATUS_PENDING ∧ r.ctx = some c ∧
      (windrbd_make_drbd_requests env_all_ok true disk_4G_overlay true (3 * 512) (126 + 2 - 128)
        Dir.READ).queued.Perm r.queued ∧
      r.srb.map (fun x => x.DataTransferLength) = some (5 * 512) ∧
      (run_completions (windrbd_make_drbd_requests env_all_ok true disk_4G_overlay true (3 * 512)
        (126 + 2 - 128) Dir.READ).queued c).irp.Status = STATUS_SUCCESS ∧
      (run_completions (windrbd_make_drbd_requests env_all_ok true disk_4G_overlay true (3 * 512)
        (126 + 2 - 128) Dir.READ).queued c).irp.Information = 3 * 512 ∧
      (run_completions (windrbd_make_drbd_requests env_all_ok true disk_4G_overlay true (3 * 512)
        (126 + 2 - 128) Dir.READ).queued c).irp.completed +
        (run_completions (windrbd_make_drbd_requests env_all_ok true disk_4G_overlay true (3 * 512)
        (126 + 2 - 128) Dir.READ).queued c).delayed_io_completion
        = fresh_irp.completed + 1 :=
  scsi_read_reports_forwarded_bytes env_all_ok disk_4G_overlay 0 fresh_irp scsi_read_5_at_126
    128 8388608 128 126 5 2 3 0 _ rfl rfl rfl rfl rfl (Or.inl rfl) rfl rfl rfl
    (by decide) (by decide) rfl (by decide) rfl (by decide) rfl (by decide) (by decide)
    (by decide) (by decide) (fun _ => rfl) (fun _ => rfl) (by decide) (by decide) (by decide)
    (List.Perm.refl _)


/-! ## The overlay switch -/

/-- `fake_partition_table` writes neither `data_shift` nor `appended_sectors`. -/
theorem fake_partition_table_overlay (env : Env) (dev : block_device) (p e : Bool) :
    (fake_partition_table env dev p e).data_shift = dev.data_shift ∧
    (fake_partition_table env dev p e).appended_sectors = dev.appended_sectors := by
  unfold fake_partition_table
  dsimp only
  split_ifs <;> exact ⟨rfl, rfl⟩

/-- Deriving the GUIDs writes neither `data_shift` nor `appended_sectors`. -/
theorem derive_guids_overlay (dev : block_device) :
    (derive_guids dev).data_shift = dev.data_shift ∧
    (derive_guids dev).appended_sectors = dev.appended_sectors := by
  unfold derive_guids
  dsimp only
  split_ifs <;> exact ⟨rfl, rfl⟩

/-- C15: for a Primary device with `d_size > 0` whose boot sector has been
read (before, or by the read the function itself issues),
`windrbd_check_for_filesystem_and_maybe_start_faking_partition_table` returns 0
and leaves `data_shift = appended_sectors = 128` when `is_filesystem` holds and
`data_shift = appended_sectors = 0` when it does not; for a device that is not
Primary or has `d_size <= 0` it returns 0 and leaves the device, the cached
prolog and epilog included, as it was. -/
theorem overlay_switch_by_filesystem (env : Env) (dev : block_device)
    (is_filesystem prolog_alloc epilog_alloc : Bool) :
    (dev.drbd_device = true → dev.role_primary = true → 0 < dev.d_size →
      (dev.have_read_bootsector = true ∨
        (windrbd_make_drbd_requests env false dev true 512 0 Dir.READ).status = STATUS_SUCCESS) →
      (windrbd_check_for_filesystem_and_maybe_start_faking_partition_table env dev
        is_filesystem prolog_alloc epilog_alloc).1 = STATUS_SUCCESS ∧
      (windrbd_check_for_filesystem_and_maybe_start_faking_partition_table env dev
        is_filesystem prolog_alloc epilog_alloc).2.data_shift
          = (if is_filesystem then 128 else 0) ∧
      (windrbd_check_for_filesystem_and_maybe_start_faking_partition_table env dev
        is_filesystem prolog_alloc epilog_alloc).2.appended_sectors
          = (if is_filesystem then 128 else 0)) ∧
    (dev.drbd_device = false ∨ dev.role_primary = false ∨ dev.d_size ≤ 0 →
      windrbd_check_for_filesystem_and_maybe_start_faking_partition_table env dev
        is_filesystem prolog_alloc epilog_alloc = (STATUS_SUCCESS, dev)) := by
  constructor
  · intro hd hr hs hread
    have hc1 : ¬ (dev.drbd_device = false ∨ dev.role_primary = false) := by simp [hd, hr]
    have hc2 : ¬ (dev.d_size ≤ 0) := by omega
    have herr : ¬ ((if dev.have_read_bootsector = true then STATUS_SUCCESS
        else (windrbd_make_drbd_requests env false dev true 512 0 Dir.READ).status)
          ≠ STATUS_SUCCESS) := by
      rcases hread with h | h
      · simp [h]
      · split_ifs <;> simp [h]
    unfold windrbd_check_for_filesystem_and_maybe_start_faking_partition_table
    dsimp only
    rw [if_neg hc1, if_neg hc2, if_neg herr]
    cases is_filesystem
    · simp
    · simp only [if_true]
      refine ⟨trivial, ?_, ?_⟩
      · rw [(fake_partition_table_overlay _ _ _ _).1]
      · rw [(fake_partition_table_overlay _ _ _ _).2]
  · intro h
    unfold windrbd_check_for_filesystem_and_maybe_start_faking_partition_table
    dsimp only
    by_cases hc1 : dev.drbd_device = false ∨ dev.role_primary = false
    · rw [if_pos hc1]
    · rw [if_neg hc1]
      have hc2 : dev.d_size ≤ 0 := by
        rcases h with h | h | h
        · exact absurd (Or.inl h) hc1
        · exact absurd (Or.inr h) hc1
        · exact h
      rw [if_pos hc2]

/-- C15 witness: the 4 GiB disk with a file system gets 128 sectors on either
side; the same disk as Secondary is left alone. -/
theorem overlay_switch_by_filesystem_witness :
    (windrbd_check_for_filesystem_and_maybe_start_faking_partition_table env_all_ok disk_4G
      true true true).2.data_shift = 128 ∧
    (windrbd_check_for_filesystem_and_maybe_start_faking_partition_table env_all_ok disk_4G
      true true true).2.appended_sectors = 128 ∧
    windrbd_check_for_filesystem_and_maybe_start_faking_partition_table env_all_ok
      { disk_4G with role_primary := false } true true true
        = (STATUS_SUCCESS, { disk_4G with role_primary := false }) :=
  ⟨((overlay_switch_by_filesystem env_all_ok disk_4G true true true).1 rfl rfl (by decide)
      (Or.inr (by decide))).2.1,
   ((overlay_switch_by_filesystem env_all_ok disk_4G true true true).1 rfl rfl (by decide)
      (Or.inr (by decide))).2.2,
   (overlay_switch_by_filesystem env_all_ok { disk_4G with role_primary := false }
      true true true).2 (Or.inr (Or.inl rfl))⟩

/-! ## Capacity queries -/

/-- Appending a least significant byte. -/
theorem be_value_append (l : List Nat) (a : Nat) : be_value (l ++ [a]) = be_value l * 256 + a := by
  unfold be_value
  rw [List.foldl_append]
  rfl

/-- A `k`-byte integer has `k` bytes. -/
theorem le_bytes_length (k x : Nat) : (le_bytes k x).length = k := by
  induction k generalizing x with
  | zero => rfl
  | succ k ih => simp [le_bytes, ih]

/-- The reversed bytes of a `k`-byte integer, read in big-endian order, give
the integer. -/
theorem be_value_reverse_le_bytes (k x : Nat) :
    be_value (REVERSE_BYTES (le_bytes k x)) = x % 256 ^ k := by
  unfold REVERSE_BYTES
  induction k generalizing x with
  | zero => simp [le_bytes, be_value, Nat.mod_one]
  | succ k ih =>
    simp only [le_bytes, List.reverse_cons, be_value_append, ih]
    rw [pow_succ, mul_comm (256 ^ k) 256, Nat.mod_mul]
    ring

/-- Without overflow the READ CAPACITY cases compute
`d_size + (data_shift + appended_sectors) * 512`. -/
theorem scsi_capacity_size_exact (env : Env) (dev : block_device)
    (hsize : dev.is_bootdevice = true → env.wait_for_size = dev.d_size)
    (hd0 : 0 < dev.d_size) (hd1 : dev.d_size < 2 ^ 62)
    (ho0 : 0 ≤ dev.data_shift + dev.appended_sectors)
    (ho1 : dev.data_shift + dev.appended_sectors < 2 ^ 22) :
    scsi_capacity_size env dev = dev.d_size + (dev.data_shift + dev.appended_sectors) * 512 := by
  unfold scsi_capacity_size
  have h1 : (if dev.is_bootdevice = true then env.wait_for_size else dev.d_size) = dev.d_size := by
    by_cases hb : dev.is_bootdevice = true
    · rw [if_pos hb]; exact hsize hb
    · rw [if_neg hb]
  rw [h1]
  unfold s64 s32
  omega

/-- C18: for a device whose size is known (for a boot device `wait_for_size`
returns `d_size`) and positive, READ CAPACITY(16) stores the block size 512 in
4 bytes and the last logical block
`(d_size + (data_shift + appended_sectors) * 512) / 512 - 1` in 8 bytes, both
big-endian; READ CAPACITY(10) stores the same block size and, in 4 bytes
big-endian, the same last block when it is at most 0xFFFFFFFF and 0xFFFFFFFF
otherwise. The sizes are those for which the sum does not overflow. -/
theorem read_capacity_big_endian (env : Env) (dev : block_device) (lock : Int) (irp : IRP)
    (srb : SCSI_REQUEST_BLOCK)
    (hdel : dev.delete_pending = false) (habout : dev.about_to_delete = false)
    (href : dev.ref = true)
    (hfun : srb.Function = SrbFunction.SRB_FUNCTION_EXECUTE_SCSI) (hlun : srb.Lun = 0)
    (hsize : dev.is_bootdevice = true → env.wait_for_size = dev.d_size)
    (hd0 : 0 < dev.d_size) (hd1 : dev.d_size < 2 ^ 62)
    (ho0 : 0 ≤ dev.data_shift + dev.appended_sectors)
    (ho1 : dev.data_shift + dev.appended_sectors < 2 ^ 22) :
    (srb.opcode = ScsiOp.SCSIOP_READ_CAPACITY16 →
      ∃ r bpb lba, windrbd_scsi env (some dev) lock irp (some srb) = some r ∧
        r.status = STATUS_SUCCESS ∧
        r.BytesPerBlock = some bpb ∧ bpb.length = 4 ∧ be_value bpb = 512 ∧
        r.LogicalBlockAddress = some lba ∧ lba.length = 8 ∧
        be_value lba
          = u64 ((dev.d_size + (dev.data_shift + dev.appended_sectors) * 512) / 512 - 1)) ∧
    (srb.opcode = ScsiOp.SCSIOP_READ_CAPACITY →
      ∃ r bpb lba, windrbd_scsi env (some dev) lock irp (some srb) = some r ∧
        r.status = STATUS_SUCCESS ∧
        r.BytesPerBlock = some bpb ∧ bpb.length = 4 ∧ be_value bpb = 512 ∧
        r.LogicalBlockAddress = some lba ∧ lba.length = 4 ∧
        be_value lba
          = if (dev.d_size + (dev.data_shift + dev.appended_sectors) * 512) / 512 - 1
                ≤ 0xFFFFFFFF
            then u32 ((dev.d_size + (dev.data_shift + dev.appended_sectors) * 512) / 512 - 1)
            else 0xFFFFFFFF) := by
  have hcap := scsi_capacity_size_exact env dev hsize hd0 hd1 ho0 ho1
  have hpos : scsi_capacity_size env dev > 0 := by rw [hcap]; omega
  have hnn : 0 ≤ dev.d_size + (dev.data_shift + dev.appended_sectors) * 512 := by omega
  have hT : s64 (Int.tdiv (scsi_capacity_size env dev) 512 - 1)
      = (dev.d_size + (dev.data_shift + dev.appended_sectors) * 512) / 512 - 1 := by
    rw [hcap, Int.tdiv_eq_ediv hnn (by decide)]
    unfold s64
    omega
  constructor
  · intro ho
    unfold windrbd_scsi
    simp only [hdel, habout, href, hlun, hfun, ho]
    simp only [Bool.or_false, Bool.not_true, Bool.false_eq_true, if_false, ne_eq,
      not_true_eq_false, if_pos hpos, hT]
    refine ⟨_, _, _, rfl, rfl, rfl, ?_, ?_, rfl, ?_, ?_⟩
    · simp [REVERSE_BYTES, le_bytes_length]
    · rw [be_value_reverse_le_bytes]; decide
    · simp [REVERSE_BYTES, le_bytes_length]
    · rw [be_value_reverse_le_bytes]
      unfold u64
      omega
  · intro ho
    unfold windrbd_scsi
    simp only [hdel, habout, href, hlun, hfun, ho]
    simp only [Bool.or_false, Bool.not_true, Bool.false_eq_true, if_false, ne_eq,
      not_true_eq_false, if_pos hpos, hT]
    refine ⟨_, _, _, rfl, rfl, rfl, ?_, ?_, rfl, ?_, ?_⟩
    · simp [REVERSE_BYTES, le_bytes_length]
    · rw [be_value_reverse_le_bytes]; decide
    · split_ifs <;> simp [REVERSE_BYTES, le_bytes_length]
    · by_cases hc : (dev.d_size + (dev.data_shift + dev.appended_sectors) * 512) / 512 - 1
          > 0xffffffff
      · rw [if_pos hc, if_neg (by omega)]
        decide
      · rw [if_neg hc, if_pos (by omega), be_value_reverse_le_bytes]
        unfold u32
        omega

/-- C18 witness: READ CAPACITY(16) on the 4 GiB disk with overlay. -/
theorem read_capacity_big_endian_witness :
    ∃ r bpb lba, windrbd_scsi env_all_ok (some disk_4G_overlay) 0 fresh_irp
        (some scsi_read_capacity16) = some r ∧
      r.status = STATUS_SUCCESS ∧
      r.BytesPerBlock = some bpb ∧ bpb.length = 4 ∧ be_value bpb = 512 ∧
      r.LogicalBlockAddress = some lba ∧ lba.length = 8 ∧
      be_value lba
        = u64 ((disk_4G_overlay.d_size
            + (disk_4G_overlay.data_shift + disk_4G_overlay.appended_sectors) * 512) / 512 - 1) :=
  (read_capacity_big_endian env_all_ok disk_4G_overlay 0 fresh_irp scsi_read_capacity16
    rfl rfl rfl rfl rfl (by decide) (by decide) (by decide) (by decide) (by decide)).1 rfl

/-- C19 (counterexample): on the 4 GiB disk with overlay (128 + 128 sectors)
`IOCTL_DISK_GET_LENGTH_INFO` and `DiskSize` of
`IOCTL_DISK_GET_DRIVE_GEOMETRY_EX` report 4294967296 bytes, the value of
`d_size`, while the size including the overlay, which READ CAPACITY reports as
last block 4295098368 / 512 - 1, is 4295098368 bytes. -/
theorem capacity_ioctls_omit_overlay :
    (windrbd_device_control env_all_ok sdk_sizes (some disk_4G_overlay) fresh_irp
      IoControlCode.IOCTL_DISK_GET_LENGTH_INFO 8).map (fun r => (r.status, r.Length))
        = some (STATUS_SUCCESS, some 4294967296) ∧
    (windrbd_device_control env_all_ok sdk_sizes (some disk_4G_overlay) fresh_irp
      IoControlCode.IOCTL_DISK_GET_DRIVE_GEOMETRY_EX 40).map (fun r => (r.status, r.DiskSize))
        = some (STATUS_SUCCESS, some 4294967296) ∧
    disk_4G_overlay.d_size
      + (disk_4G_overlay.data_shift + disk_4G_overlay.appended_sectors) * 512 = 4295098368 ∧
    scsi_capacity_size env_all_ok disk_4G_overlay = 4295098368 ∧
    (windrbd_scsi env_all_ok (some disk_4G_overlay) 0 fresh_irp (some scsi_read_capacity16)).map
      (fun r => (r.status, r.LogicalBlockAddress.map be_value))
        = some (STATUS_SUCCESS, some (4295098368 / 512 - 1)) := by
  refine ⟨by decide, by decide, by decide, by decide, by decide⟩

/-- Waiting for the Primary role changes neither size nor block size. -/
theorem wait_for_becoming_primary_sizes (dev : block_device) (r : Bool) :
    (wait_for_becoming_primary dev r).2.d_size = dev.d_size ∧
    (wait_for_becoming_primary dev r).2.bd_block_size = dev.bd_block_size := by
  unfold wait_for_becoming_primary
  split_ifs <;> exact ⟨rfl, rfl⟩

/-- C19 (amended): on a disk device that is not `delete_pending` (and, for a
boot device, has become Primary) `IOCTL_DISK_GET_LENGTH_INFO` and `DiskSize` of
`IOCTL_DISK_GET_DRIVE_GEOMETRY_EX` report `d_size`, the bytes of the data
region without the overlay, whenever the output buffer is large enough (and
the geometry division does not trap); the size READ CAPACITY works with is
`d_size + (data_shift + appended_sectors) * 512`, so the two agree exactly
when `data_shift + appended_sectors = 0`. -/
theorem capacity_ioctls_report_d_size (env : Env) (sz : IoctlSizes) (dev : block_device)
    (irp : IRP) (len : Nat)
    (hdel : dev.delete_pending = false)
    (hwait : dev.is_bootdevice = true →
      (wait_for_becoming_primary dev env.role_after_wait).1 = STATUS_SUCCESS) :
    (sz.GET_LENGTH_INFORMATION ≤ len →
      ∃ r, windrbd_device_control env sz (some dev) irp
          IoControlCode.IOCTL_DISK_GET_LENGTH_INFO len = some r ∧
        r.status = STATUS_SUCCESS ∧ r.Length = some dev.d_size) ∧
    (sz.DISK_GEOMETRY_EX ≤ len → dev.bd_block_size ≠ 0 →
      ¬ (dev.d_size = -2 ^ 63 ∧ dev.bd_block_size = -1) →
      ∃ r, windrbd_device_control env sz (some dev) irp
          IoControlCode.IOCTL_DISK_GET_DRIVE_GEOMETRY_EX len = some r ∧
        r.status = STATUS_SUCCESS ∧ r.DiskSize = some dev.d_size) ∧
    ((dev.is_bootdevice = true → env.wait_for_size = dev.d_size) →
      0 < dev.d_size → dev.d_size < 2 ^ 62 →
      0 ≤ dev.data_shift + dev.appended_sectors →
      dev.data_shift + dev.appended_sectors < 2 ^ 22 →
      scsi_capacity_size env dev
        = dev.d_size + (dev.data_shift + dev.appended_sectors) * 512) := by
  have hw : ¬ ((if dev.is_bootdevice = true then wait_for_becoming_primary dev env.role_after_wait
      else (STATUS_SUCCESS, dev)).1 ≠ STATUS_SUCCESS) := by
    by_cases hb : dev.is_bootdevice = true
    · rw [if_pos hb]; simp [hwait hb]
    · rw [if_neg hb]; simp
  have hsz : (if dev.is_bootdevice = true then wait_for_becoming_primary dev env.role_after_wait
      else (STATUS_SUCCESS, dev)).2.d_size = dev.d_size ∧
      (if dev.is_bootdevice = true then wait_for_becoming_primary dev env.role_after_wait
      else (STATUS_SUCCESS, dev)).2.bd_block_size = dev.bd_block_size := by
    by_cases hb : dev.is_bootdevice = true
    · rw [if_pos hb]; exact wait_for_becoming_primary_sizes dev _
    · rw [if_neg hb]; exact ⟨rfl, rfl⟩
  refine ⟨?_, ?_, ?_⟩
  · intro hlen
    unfold windrbd_device_control
    dsimp only
    rw [hdel]
    simp only [Bool.false_eq_true, if_false, if_neg hw, if_neg (not_lt.mpr hlen), hsz.1]
    exact ⟨_, rfl, rfl, rfl⟩
  · intro hlen hbs hmin
    have hg : ¬ (dev.bd_block_size = 0 ∨ (dev.d_size = -2 ^ 63 ∧ dev.bd_block_size = -1)) := by
      intro h
      rcases h with h | h
      · exact hbs h
      · exact hmin h
    unfold windrbd_device_control fill_drive_geometry
    dsimp only
    rw [hdel]
    simp only [Bool.false_eq_true, if_false, if_neg hw, if_neg (not_lt.mpr hlen), hsz.1,
      hsz.2, if_neg hg]
    exact ⟨_, rfl, rfl, rfl⟩
  · intro h1 h2 h3 h4 h5
    exact scsi_capacity_size_exact env dev h1 h2 h3 h4 h5

/-- C19 witness: `IOCTL_DISK_GET_LENGTH_INFO` on the 4 GiB disk with overlay. -/
theorem capacity_ioctls_report_d_size_witness :
    ∃ r, windrbd_device_control env_all_ok sdk_sizes (some disk_4G_overlay) fresh_irp
        IoControlCode.IOCTL_DISK_GET_LENGTH_INFO 8 = some r ∧
      r.status = STATUS_SUCCESS ∧ r.Length = some disk_4G_overlay.d_size :=
  (capacity_ioctls_report_d_size env_all_ok sdk_sizes disk_4G_overlay fresh_irp 8 rfl
    (by decide)).1 (by decide)


/-! ## The published partition end -/

/-- A byte is below 256. -/
theorem byte_lt (b : Buffer) (a : Nat) : b.byte a < 256 := by
  unfold Buffer.byte
  exact Nat.mod_lt _ (by decide)

/-- The little-endian value of `n` bytes is below `256 ^ n`. -/
theorem le_value_lt (l : List Nat) (h : ∀ x ∈ l, x < 256) : le_value l < 256 ^ l.length := by
  induction l with
  | nil => simp [le_value]
  | cons a l ih =>
    have ha := h a (by simp)
    have hl := ih (fun x hx => h x (by simp [hx]))
    simp only [le_value, List.length_cons, pow_succ]
    omega

/-- Loading `k` bytes gives `k` bytes. -/
theorem load_length (b : Buffer) (off k : Nat) : (b.load off k).length = k := by
  simp [Buffer.load]

/-- A `k`-byte integer read from a buffer is below `256 ^ k`. -/
theorem load_le_lt (b : Buffer) (off k : Nat) : b.load_le off k < 256 ^ k := by
  have h := le_value_lt (b.load off k) (by
    intro x hx
    simp only [Buffer.load, List.mem_map] at hx
    obtain ⟨i, _, rfl⟩ := hx
    exact byte_lt b _)
  rw [load_length] at h
  exact h

/-- The bytes of a `k`-byte integer hold the integer modulo `256 ^ k`. -/
theorem le_value_le_bytes (k x : Nat) : le_value (le_bytes k x) = x % 256 ^ k := by
  induction k generalizing x with
  | zero => simp [le_bytes, le_value, Nat.mod_one]
  | succ k ih =>
    simp only [le_bytes, le_value, ih]
    rw [pow_succ, mul_comm (256 ^ k) 256, Nat.mod_mul]

/-- The bytes of an integer are bytes. -/
theorem le_bytes_lt (k x : Nat) : ∀ y ∈ le_bytes k x, y < 256 := by
  induction k generalizing x with
  | zero => simp [le_bytes]
  | succ k ih =>
    intro y hy
    simp only [le_bytes, List.mem_cons] at hy
    rcases hy with rfl | hy
    · exact Nat.mod_lt _ (by decide)
    · exact ih _ y hy

/-- The first `n` bytes are `n` bytes. -/
theorem first_bytes_length (n : Nat) (l : List Nat) : (first_bytes n l).length = n := by
  simp [first_bytes]

/-- Reading back what was just written. -/
theorem load_store_same (b : Buffer) (off : Nat) (bs : List Nat) (h : ∀ y ∈ bs, y < 256) :
    (b.store off bs).load off bs.length = bs := by
  apply List.ext_getElem
  · simp [Buffer.load]
  · intro i h1 h2
    simp only [Buffer.load, List.getElem_map, List.getElem_range, Buffer.byte, Buffer.store,
      writes_byte]
    have hc : off ≤ off + i ∧ off + i < off + bs.length := ⟨by omega, by omega⟩
    rw [if_pos hc, Nat.add_sub_cancel_left]
    have hg : bs.getD i 0 = bs[i] := by
      simp [List.getD, List.getElem?_eq_getElem h2]
    rw [hg]
    exact Nat.mod_eq_of_lt (h _ (List.getElem_mem _))

/-- A write does not change the bytes outside its range. -/
theorem load_store_disjoint (b : Buffer) (off : Nat) (bs : List Nat) (o k : Nat)
    (h : o + k ≤ off ∨ off + bs.length ≤ o) :
    (b.store off bs).load o k = b.load o k := by
  unfold Buffer.load
  apply List.map_congr_left
  intro i hi
  have hi' : i < k := List.mem_range.mp hi
  simp only [Buffer.byte, Buffer.store, writes_byte]
  have hc : ¬ (off ≤ o + i ∧ o + i < off + bs.length) := by omega
  rw [if_neg hc]

/-- Reading back the integer just written. -/
theorem load_le_store_le_same (b : Buffer) (off k x : Nat) :
    (b.store_le off k x).load_le off k = x % 256 ^ k := by
  unfold Buffer.store_le Buffer.load_le
  have h := load_store_same b off (le_bytes k x) (le_bytes_lt k x)
  rw [le_bytes_length] at h
  rw [h, le_value_le_bytes]

/-- A write outside the range of an integer does not change it. -/
theorem load_le_store_disjoint (b : Buffer) (off : Nat) (bs : List Nat) (o k : Nat)
    (h : o + k ≤ off ∨ off + bs.length ≤ o) :
    (b.store off bs).load_le o k = b.load_le o k := by
  unfold Buffer.load_le
  rw [load_store_disjoint b off bs o k h]

/-- An integer written outside the range of another does not change it. -/
theorem load_le_store_le_disjoint (b : Buffer) (off n x o k : Nat)
    (h : o + k ≤ off ∨ off + n ≤ o) :
    (b.store_le off n x).load_le o k = b.load_le o k := by
  unfold Buffer.store_le
  apply load_le_store_disjoint
  rw [le_bytes_length]
  exact h

/-- The partition end at offset 0x428 of the prolog that
`fake_partition_table` builds when both allocations succeed: the old value if
a prolog exists and its field is not 0, `d_size / 512 + data_shift - 1`
otherwise. -/
theorem fake_partition_table_partition_end (env : Env) (dev : block_device) :
    (fake_partition_table env dev true true).disk_prolog = true ∧
    (fake_partition_table env dev true true).prolog.load_le 0x428 8 =
      (if (if dev.disk_prolog then dev.prolog.load_le 0x428 8 else 0) ≠ 0
        then dev.prolog.load_le 0x428 8
        else u64 (Int.tdiv dev.d_size 512 + dev.data_shift - 1)) := by
  refine ⟨by unfold fake_partition_table; simp, ?_⟩
  unfold fake_partition_table
  dsimp only
  simp only [Bool.true_eq_false, if_false]
  rw [load_le_store_le_disjoint _ _ _ _ _ _ (Or.inr (by decide)),
    load_le_store_le_disjoint _ _ _ _ _ _ (Or.inr (by decide)),
    load_le_store_le_disjoint _ _ _ _ _ _ (Or.inr (by decide)),
    load_le_store_disjoint _ _ _ _ _
      (Or.inr (by split_ifs <;> (rw [first_bytes_length]; decide))),
    load_le_store_disjoint _ _ _ _ _
      (Or.inr (by split_ifs <;> (rw [first_bytes_length]; decide))),
    load_le_store_le_same]
  by_cases hp : dev.disk_prolog = true
  · simp only [hp, if_true]
    by_cases h0 : dev.prolog.load_le 0x428 8 ≠ 0
    · rw [if_pos h0]
      exact Nat.mod_eq_of_lt (load_le_lt _ _ _)
    · rw [if_neg h0]
      apply Nat.mod_eq_of_lt
      unfold u64
      omega
  · simp only [hp]
    simp only [Bool.false_eq_true, if_false, ne_eq, not_true_eq_false]
    apply Nat.mod_eq_of_lt
    unfold u64
    omega

/-- C16 (counterexample): the 4 GiB disk has a prolog whose partition end
field at offset 0x428 is 0; `fake_partition_table` does not keep that value
but stores 8388735 = 4 GiB / 512 + 128 - 1 in the new prolog. -/
theorem partition_end_replaced_when_zero :
    disk_4G_wiped.disk_prolog = true ∧
    disk_4G_wiped.prolog.load_le 0x428 8 = 0 ∧
    (fake_partition_table env_all_ok disk_4G_wiped true true).prolog.load_le 0x428 8
      = 8388735 := by
  refine ⟨rfl, by decide, ?_⟩
  rw [(fake_partition_table_partition_end env_all_ok disk_4G_wiped).2]
  decide

/-- Deriving the GUIDs does not touch the prolog. -/
theorem derive_guids_prolog (dev : block_device) :
    (derive_guids dev).disk_prolog = dev.disk_prolog ∧
    (derive_guids dev).prolog = dev.prolog := by
  unfold derive_guids
  dsimp only
  split_ifs <;> exact ⟨rfl, rfl⟩

/-- Whatever the allocations do, `fake_partition_table` keeps a partition end
that is not 0. -/
theorem fake_partition_table_keeps (env : Env) (dev : block_device) (pa ea : Bool)
    (hp : dev.disk_prolog = true) (h0 : dev.prolog.load_le 0x428 8 ≠ 0) :
    (fake_partition_table env dev pa ea).disk_prolog = true ∧
    (fake_partition_table env dev pa ea).prolog.load_le 0x428 8
      = dev.prolog.load_le 0x428 8 := by
  cases pa
  · unfold fake_partition_table
    exact ⟨hp, rfl⟩
  · cases ea
    · unfold fake_partition_table
      exact ⟨hp, rfl⟩
    · obtain ⟨h1, h2⟩ := fake_partition_table_partition_end env dev
      refine ⟨h1, ?_⟩
      rw [h2, hp]
      simp only [if_true]
      rw [if_pos h0]

/-- The same after the GUIDs have been derived. -/
theorem fake_after_guids_keeps (env : Env) (dev : block_device) (pa ea : Bool)
    (hp : dev.disk_prolog = true) (h0 : dev.prolog.load_le 0x428 8 ≠ 0) :
    (fake_partition_table env
      { derive_guids dev with data_shift := 128, appended_sectors := 128 } pa ea).disk_prolog
        = true ∧
    (fake_partition_table env
      { derive_guids dev with data_shift := 128, appended_sectors := 128 } pa ea).prolog.load_le
        0x428 8 = dev.prolog.load_le 0x428 8 := by
  have h := fake_partition_table_keeps env
    { derive_guids dev with data_shift := 128, appended_sectors := 128 } pa ea
    (by
      show (derive_guids dev).disk_prolog = true
      rw [(derive_guids_prolog dev).1]; exact hp)
    (by
      show (derive_guids dev).prolog.load_le 0x428 8 ≠ 0
      rw [(derive_guids_prolog dev).2]; exact h0)
  refine ⟨h.1, ?_⟩
  rw [h.2]
  show (derive_guids dev).prolog.load_le 0x428 8 = _
  rw [(derive_guids_prolog dev).2]

/-- The overlay switch keeps a partition end that is not 0, on every path. -/
theorem check_for_filesystem_keeps (env : Env) (dev : block_device) (fs pa ea : Bool)
    (hp : dev.disk_prolog = true) (h0 : dev.prolog.load_le 0x428 8 ≠ 0) :
    (windrbd_check_for_filesystem_and_maybe_start_faking_partition_table env dev
      fs pa ea).2.disk_prolog = true ∧
    (windrbd_check_for_filesystem_and_maybe_start_faking_partition_table env dev
      fs pa ea).2.prolog.load_le 0x428 8 = dev.prolog.load_le 0x428 8 := by
  unfold windrbd_check_for_filesystem_and_maybe_start_faking_partition_table
  dsimp only
  by_cases hc1 : dev.drbd_device = false ∨ dev.role_primary = false
  · rw [if_pos hc1]; exact ⟨hp, rfl⟩
  · rw [if_neg hc1]
    by_cases hc2 : dev.d_size ≤ 0
    · rw [if_pos hc2]; exact ⟨hp, rfl⟩
    · rw [if_neg hc2]
      by_cases hc3 : (if dev.have_read_bootsector = true then STATUS_SUCCESS
          else (windrbd_make_drbd_requests env false dev true 512 0 Dir.READ).status)
            ≠ STATUS_SUCCESS
      · rw [if_pos hc3]; exact ⟨hp, rfl⟩
      · rw [if_neg hc3]
        cases fs
        · rw [if_neg (by decide)]
          exact ⟨hp, rfl⟩
        · rw [if_pos rfl]
          exact fake_after_guids_keeps env _ pa ea hp h0

/-- A size change keeps a partition end that is not 0. -/
theorem device_size_change_keeps (env : Env) (dev : block_device) (fs pa ea : Bool)
    (hp : dev.disk_prolog = true) (h0 : dev.prolog.load_le 0x428 8 ≠ 0) :
    (windrbd_device_size_change env dev fs pa ea).disk_prolog = true ∧
    (windrbd_device_size_change env dev fs pa ea).prolog.load_le 0x428 8
      = dev.prolog.load_le 0x428 8 := by
  unfold windrbd_device_size_change
  by_cases hc : dev.d_size > 0
  · rw [if_pos hc]; exact check_for_filesystem_keeps env dev fs pa ea hp h0
  · rw [if_neg hc]; exact ⟨hp, rfl⟩

/-- C16 (amended): the 8-byte partition end at offset 0x428 of the prolog
`fake_partition_table` builds equals the value at offset 0x428 of the old
prolog when a prolog exists and that value is not 0, for every `d_size`; when
no prolog exists or the old value is 0 it is `d_size / 512 + data_shift - 1`.
Hence, once a prolog with a partition end other than 0 is published, the
partition end stays the same over every sequence of size changes
(`windrbd_device_size_change` after `d_size` was set to any value, whatever
the boot sector check and the allocations yield). -/
theorem partition_end_kept_when_nonzero (env : Env) (dev : block_device) :
    (fake_partition_table env dev true true).prolog.load_le 0x428 8 =
      (if (if dev.disk_prolog then dev.prolog.load_le 0x428 8 else 0) ≠ 0
        then dev.prolog.load_le 0x428 8
        else u64 (Int.tdiv dev.d_size 512 + dev.data_shift - 1)) ∧
    (dev.disk_prolog = true → dev.prolog.load_le 0x428 8 ≠ 0 →
      ∀ changes : List (Int × Bool × Bool × Bool),
        (changes.foldl (fun d c =>
            windrbd_device_size_change env { d with d_size := c.1 } c.2.1 c.2.2.1 c.2.2.2)
          dev).prolog.load_le 0x428 8 = dev.prolog.load_le 0x428 8) := by
  refine ⟨(fake_partition_table_partition_end env dev).2, ?_⟩
  intro hp h0 changes
  have key : ∀ (cs : List (Int × Bool × Bool × Bool)) (d : block_device),
      d.disk_prolog = true → d.prolog.load_le 0x428 8 ≠ 0 →
      (cs.foldl (fun d c =>
          windrbd_device_size_change env { d with d_size := c.1 } c.2.1 c.2.2.1 c.2.2.2)
        d).prolog.load_le 0x428 8 = d.prolog.load_le 0x428 8 := by
    intro cs
    induction cs with
    | nil => intro d _ _; rfl
    | cons c cs ih =>
      intro d hd hd0
      obtain ⟨k1, k2⟩ := device_size_change_keeps env { d with d_size := c.1 } c.2.1 c.2.2.1
        c.2.2.2 hd hd0
      simp only [List.foldl_cons]
      rw [ih _ k1 (by rw [k2]; exact hd0), k2]
  exact key changes dev hp h0

/-- C16 witness: the published 4 GiB disk grows to 8 GiB and shrinks to 2 GiB;
the partition end stays 8388735. -/
theorem partition_end_kept_when_nonzero_witness :
    (([(8589934592, true, true, true), (2147483648, true, true, true)] :
        List (Int × Bool × Bool × Bool)).foldl (fun d c =>
          windrbd_device_size_change env_all_ok { d with d_size := c.1 } c.2.1 c.2.2.1 c.2.2.2)
        disk_4G_published).prolog.load_le 0x428 8
      = disk_4G_published.prolog.load_le 0x428 8 :=
  (partition_end_kept_when_nonzero env_all_ok disk_4G_published).2 rfl (by decide) _

/-! ## The synchronous variant and large reads -/

/-- The status the synchronous variant returns does not depend on what the
engine reports. -/
theorem sync_status_ignores_engine (env : Env) (dev : block_device) (buffer : Bool)
    (total_size sector : Nat) (rw : Dir) (engine : Nat → Int) :
    (windrbd_make_drbd_requests_sync env dev buffer total_size sector rw engine).map
        (fun r => r.1)
      = some (windrbd_make_drbd_requests env false dev buffer total_size sector rw).status := by
  unfold windrbd_make_drbd_requests_sync
  dsimp only
  have h : ∀ l : List bio, l.all windrbd_internal_io_finished = true := by
    intro l
    simp [windrbd_internal_io_finished]
  rw [if_pos (h _)]
  rfl

/-- C22 (code evaluated at the failing input): the boot sector read on the
4 GiB disk when the engine completes the fragment with errno -5.
`read_boot_sector_from_drbd` returns `STATUS_SUCCESS` (0); the same fragment
completing with the same error in the asynchronous variant completes the IRP
with `STATUS_DEVICE_DOES_NOT_EXIST`. -/
theorem sync_read_ignores_engine_error :
    (read_boot_sector_from_drbd env_all_ok disk_4G (fun _ => -5)).map
      (fun r => (r.1, r.2.map fun b => (b.bi_size, b.bi_sector, b.bi_status)))
      = some (STATUS_SUCCESS, [(512, 0, -5)]) ∧
    ((windrbd_make_drbd_requests env_all_ok true disk_4G true 512 0 Dir.READ).ctx
        fresh_irp 1).map
      (fun c => (run_completions
        ((windrbd_make_drbd_requests env_all_ok true disk_4G true 512 0 Dir.READ).queued.map
          fun b => { b with bi_status := -5 }) c).irp.Status)
      = some STATUS_DEVICE_DOES_NOT_EXIST := by
  refine ⟨by decide, by decide⟩

/-- C26 (code evaluated at the failing input): a read of 2 GiB + 1 byte at
sector 0. Fragment 2048 has `bi_mdl_offset` 2^31 and one byte; it completes
without error, and its copy into the caller buffer goes to offset -2^31:
`int offset = bio->bi_mdl_offset` does not hold 2^31. -/
theorem fragment_2048_copied_below_buffer :
    ((windrbd_make_drbd_requests env_all_ok true disk_4G true 2147483649 0
        Dir.READ).queued[2048]?).bind
      (fun b => ((windrbd_make_drbd_requests env_all_ok true disk_4G true 2147483649 0
          Dir.READ).ctx fresh_irp 1).map
        fun c => (b.bi_mdl_offset, b.bv_len, b.bi_status, fragment_copy b c))
      = some (2147483648, 1, 0, [(-2147483648, 1)]) := by
  rw [make_requests_ok env_all_ok true disk_4G true 2147483649 0 Dir.READ (by decide)
    (fun _ _ => ⟨rfl, rfl, rfl, rfl⟩) rfl]
  rw [getElem?_map_range' _ _ 2048 (by decide)]
  decide

/-! ## SCSI requests outside the presented device, capacity without a size -/

/-- C29 (code evaluated at the failing input): on the 4 GiB disk with overlay
the epilog cache has 65536 bytes. A WRITE(10) of one sector at logical block
8388865 (one past the end of the presented device) copies from the caller
buffer to epilog offset 129 * 512 with length -512 taken as `size_t`; a
READ(10) of one sector at logical block 8389000 copies from epilog offset
264 * 512 with length -136 * 512 taken as `size_t`. Both requests complete
with `STATUS_SUCCESS`. -/
theorem overlay_copy_outside_cache :
    disk_4G_overlay.appended_sectors * 512 = 65536 ∧
    (windrbd_scsi env_all_ok (some disk_4G_overlay) 0 fresh_irp
        (some (scsi_write_1_at 8388865))).map
      (fun r => (r.status, r.srb.map fun x => (x.SrbStatus, x.DataTransferLength), r.copies))
      = some (STATUS_SUCCESS, some (SRB_STATUS.SRB_STATUS_SUCCESS, 512),
          [{ epilog := true, to_cache := true, zero_fill := false, buffer_offset := 0
             cache_offset := 129 * 512, length := 2 ^ 64 - 512 }]) ∧
    (windrbd_scsi env_all_ok (some disk_4G_overlay) 0 fresh_irp
        (some (scsi_read_1_at 8389000))).map
      (fun r => (r.status, r.srb.map fun x => (x.SrbStatus, x.DataTransferLength), r.copies))
      = some (STATUS_SUCCESS, some (SRB_STATUS.SRB_STATUS_SUCCESS, 512),
          [{ epilog := true, to_cache := false, zero_fill := false, buffer_offset := 0
             cache_offset := 264 * 512, length := 2 ^ 64 - 136 * 512 }]) := by
  refine ⟨by decide, by decide, by decide⟩

/-- C30 (code evaluated at the failing input): the disk with overlay whose
size was set to 0 (a size change to 0 leaves the overlay as it is) answers
READ CAPACITY(16) and READ CAPACITY(10) with `STATUS_SUCCESS`,
`SRB_STATUS_SUCCESS` and last block 255; as a boot device for which
`wait_for_size` returns -1 it answers with last block 254. Without overlay the
same requests give `STATUS_NO_SUCH_DEVICE` and `SRB_STATUS_NO_DEVICE`. -/
theorem capacity_of_overlay_without_size :
    disk_overlay_no_size.d_size = 0 ∧
    windrbd_device_size_change env_all_ok disk_overlay_no_size true true true
      = disk_overlay_no_size ∧
    (windrbd_scsi env_all_ok (some disk_overlay_no_size) 0 fresh_irp
        (some scsi_read_capacity16)).map
      (fun r => (r.status, r.srb.map fun x => x.SrbStatus, r.irp.Information,
        r.LogicalBlockAddress.map be_value))
      = some (STATUS_SUCCESS, some SRB_STATUS.SRB_STATUS_SUCCESS, 12, some 255) ∧
    (windrbd_scsi env_all_ok (some disk_overlay_no_size) 0 fresh_irp
        (some scsi_read_capacity10)).map
      (fun r => (r.status, r.srb.map fun x => x.SrbStatus, r.irp.Information,
        r.LogicalBlockAddress.map be_value))
      = some (STATUS_SUCCESS, some SRB_STATUS.SRB_STATUS_SUCCESS, 8, some 255) ∧
    env_size_unknown.wait_for_size = -1 ∧
    (windrbd_scsi env_size_unknown (some boot_disk_overlay) 0 fresh_irp
        (some scsi_read_capacity16)).map
      (fun r => (r.status, r.srb.map fun x => x.SrbStatus, r.irp.Information,
        r.LogicalBlockAddress.map be_value))
      = some (STATUS_SUCCESS, some SRB_STATUS.SRB_STATUS_SUCCESS, 12, some 254) ∧
    (windrbd_scsi env_all_ok (some { disk_4G with d_size := 0 }) 0 fresh_irp
        (some scsi_read_capacity16)).map
      (fun r => (r.status, r.srb.map fun x => x.SrbStatus, r.irp.Information,
        r.LogicalBlockAddress.map be_value))
      = some (STATUS_NO_SUCH_DEVICE, some SRB_STATUS.SRB_STATUS_NO_DEVICE, 0, none) := by
  refine ⟨rfl, by decide, by decide, by decide, rfl, by decide, by decide⟩

/-! ## Starting a thread -/

/-- A started task stays started, whatever the thread does. -/
theorem task_run_keeps_started (ops : List TaskOp) :
    ∀ t t1 : task_struct, t.thread_started = true → task_run t ops = some t1 →
      t1.thread_started = true := by
  induction ops with
  | nil =>
    intro t t1 h hr
    simp only [task_run, Option.some.injEq] at hr
    subst hr; exact h
  | cons op ops ih =>
    intro t t1 h hr
    simp only [task_run] at hr
    cases hs : task_step t op with
    | none => rw [hs] at hr; simp at hr
    | some s =>
      rw [hs] at hr
      simp only [Option.some_bind] at hr
      refine ih s t1 ?_ hr
      cases op with
      | wake =>
        simp only [task_step, wake_up_process, h, if_true, Option.some.injEq] at hs
        subst hs; exact h
      | thread_waits =>
        simp only [task_step, windrbd_thread_setup_wait] at hs
        split_ifs at hs
        simp only [Option.some.injEq] at hs
        subst hs; exact h
      | thread_exits =>
        simp only [task_step, windrbd_thread_setup_exit, Option.some.injEq] at hs
        subst hs; exact h

/-- C25: for every task that `kthread_create` returns, the first call of
`wake_up_process` returns 1, sets `thread_started` and signals the start event
(and changes nothing else); in every state the task reaches afterwards, by
further calls and by the progress of its own thread, a call returns 0 and
leaves the task as it is. -/
theorem wake_up_process_once (alloc : Bool) (threadfn data : Nat) (comm : List Nat)
    (current_is_root next_pid : Int) (status : NTSTATUS) (t : task_struct)
    (hcreate : (kthread_create alloc threadfn data comm current_is_root next_pid status).1
      = some t) :
    wake_up_process t = (1, { t with thread_started := true, start_event := true }) ∧
    ∀ (ops : List TaskOp) (t1 : task_struct),
      task_run (wake_up_process t).2 ops = some t1 → wake_up_process t1 = (0, t1) := by
  have hs : t.thread_started = false := by
    unfold kthread_create at hcreate
    split_ifs at hcreate
    simp only [Option.some.injEq] at hcreate
    subst hcreate; rfl
  have h1 : wake_up_process t = (1, { t with thread_started := true, start_event := true }) := by
    simp [wake_up_process, hs]
  refine ⟨h1, ?_⟩
  intro ops t1 hr
  have := task_run_keeps_started ops (wake_up_process t).2 t1 (by rw [h1]) hr
  simp [wake_up_process, this]

/-- C25 witness: a task created with pid 1, woken three times while its
thread consumes the start event and exits. -/
theorem wake_up_process_once_witness :
    ∃ t, (kthread_create true 0 0 [] 0 0 STATUS_SUCCESS).1 = some t ∧
      wake_up_process t = (1, { t with thread_started := true, start_event := true }) ∧
      ∀ t1, task_run (wake_up_process t).2
          [TaskOp.wake, TaskOp.thread_waits, TaskOp.wake, TaskOp.thread_exits] = some t1 →
        wake_up_process t1 = (0, t1) :=
  ⟨_, rfl,
   (wake_up_process_once true 0 0 [] 0 0 STATUS_SUCCESS _ rfl).1,
   fun t1 h => (wake_up_process_once true 0 0 [] 0 0 STATUS_SUCCESS _ rfl).2 _ t1 h⟩

/-! ## Create and close, flush -/

/-- One create or close call moves a non-negative `num_openers` below
`INT_MAX` by at most one and keeps it non-negative. -/
theorem open_close_bounds (n : Int) (op : OpenClose) (h0 : 0 ≤ n) (h1 : n < 2 ^ 31 - 1) :
    0 ≤ open_close n op ∧ open_close n op ≤ n + 1 := by
  cases op with
  | create env bdev irp err =>
    cases bdev with
    | none => simp only [open_close, windrbd_create]; omega
    | some dev =>
      simp only [open_close, windrbd_create]
      split_ifs <;> dsimp only <;> (try unfold s32) <;> omega
  | close bdev irp =>
    cases bdev with
    | none => simp only [open_close, windrbd_close]; omega
    | some dev =>
      simp only [open_close, windrbd_close]
      split_ifs <;> dsimp only <;> omega

/-- Over a sequence of create and close calls `num_openers` stays between 0
and its start value plus the number of calls. -/
theorem open_close_sequence (ops : List OpenClose) :
    ∀ n : Int, 0 ≤ n → n + ops.length < 2 ^ 31 →
      0 ≤ ops.foldl open_close n ∧ ops.foldl open_close n ≤ n + ops.length := by
  induction ops with
  | nil => intro n h0 _; simp [h0]
  | cons op ops ih =>
    intro n h0 h1
    simp only [List.length_cons, Nat.cast_add, Nat.cast_one] at h1
    obtain ⟨a, b⟩ := open_close_bounds n op h0 (by omega)
    obtain ⟨c, d⟩ := ih (open_close n op) a (by omega)
    simp only [List.foldl_cons, List.length_cons, Nat.cast_add, Nat.cast_one]
    exact ⟨c, by omega⟩

/-- C24: for a disk device that is not `delete_pending` and has no DRBD
device, `windrbd_create` returns `STATUS_SUCCESS` and increases `num_openers`
by one, and `windrbd_close` after it returns `STATUS_SUCCESS` and restores
`num_openers`; over every sequence of create and close calls (on any device
state, whatever `drbd_open` and the waits return) `num_openers` is never
negative. `num_openers` starts non-negative and the calls do not take it past
`INT_MAX`. -/
theorem create_close_count (env : Env) (dev : block_device) (n : Int) (irp1 irp2 : IRP)
    (err : Int) (hdel : dev.delete_pending = false) (hdrbd : dev.drbd_device = false)
    (h0 : 0 ≤ n) (h1 : n < 2 ^ 31 - 1) :
    windrbd_create env (some dev) n irp1 err
      = (STATUS_SUCCESS, complete_irp irp1 STATUS_SUCCESS, n + 1) ∧
    windrbd_close (some dev) (n + 1) irp2
      = (STATUS_SUCCESS, complete_irp irp2 STATUS_SUCCESS, n) ∧
    ∀ ops : List OpenClose, n + ops.length < 2 ^ 31 → 0 ≤ ops.foldl open_close n := by
  refine ⟨?_, ?_, ?_⟩
  · have hs : s32 (n + 1) = n + 1 := by unfold s32; omega
    simp [windrbd_create, hdel, hdrbd, hs]
  · have hp : n + 1 > 0 := by omega
    simp [windrbd_close, hdel, hp]
  · intro ops hlen
    exact (open_close_sequence ops n h0 hlen).1

/-- C24 witness: the 4 GiB disk before the DRBD device is attached, opened
and closed from `num_openers` = 0; then two creates and three closes. -/
theorem create_close_count_witness :
    windrbd_create env_all_ok (some { disk_4G with drbd_device := false }) 0 fresh_irp 0
      = (STATUS_SUCCESS, complete_irp fresh_irp STATUS_SUCCESS, 0 + 1) ∧
    windrbd_close (some { disk_4G with drbd_device := false }) (0 + 1) fresh_irp
      = (STATUS_SUCCESS, complete_irp fresh_irp STATUS_SUCCESS, 0) ∧
    0 ≤ [OpenClose.create env_all_ok (some disk_4G) fresh_irp 0,
         OpenClose.create env_all_ok (some disk_4G) fresh_irp (-1),
         OpenClose.close (some disk_4G) fresh_irp,
         OpenClose.close (some disk_4G) fresh_irp,
         OpenClose.close (some disk_4G) fresh_irp].foldl open_close 0 :=
  ⟨(create_close_count env_all_ok { disk_4G with drbd_device := false } 0 fresh_irp fresh_irp 0
      rfl rfl (by decide) (by decide)).1,
   (create_close_count env_all_ok { disk_4G with drbd_device := false } 0 fresh_irp fresh_irp 0
      rfl rfl (by decide) (by decide)).2.1,
   (create_close_count env_all_ok { disk_4G with drbd_device := false } 0 fresh_irp fresh_irp 0
      rfl rfl (by decide) (by decide)).2.2 _ (by decide)⟩

/-- C23 (counterexample): on the 4 GiB disk, which is not `delete_pending`,
`windrbd_flush` returns `STATUS_INSUFFICIENT_RESOURCES`, completes the IRP
with that status and submits nothing when `bio_alloc` fails. -/
theorem flush_without_bio :
    disk_4G.delete_pending = false ∧
    windrbd_flush (some disk_4G) false fresh_irp
      = (STATUS_INSUFFICIENT_RESOURCES, complete_irp fresh_irp STATUS_INSUFFICIENT_RESOURCES,
          none) := by
  refine ⟨rfl, by decide⟩

/-- C23 (amended): on a disk device that is not `delete_pending`,
`windrbd_flush` submits, when `bio_alloc` succeeds, exactly one bio of size 0
carrying the write and pre-flush flags, marks the IRP pending and returns
`STATUS_PENDING`; the completion of that bio completes the IRP once, with
`STATUS_SUCCESS` and byte count 0 if the engine reports no error and with
`STATUS_UNSUCCESSFUL` and byte count 0 otherwise. When `bio_alloc` fails it
submits nothing and completes the IRP with `STATUS_INSUFFICIENT_RESOURCES`. On
a `delete_pending` device it returns `STATUS_NO_SUCH_DEVICE` without
submitting anything. -/
theorem flush_submits_one_bio (dev : block_device) (irp : IRP) (bio_alloc : Bool) :
    (dev.delete_pending = false → bio_alloc = true →
      ∃ b, windrbd_flush (some dev) bio_alloc irp
          = (STATUS_PENDING, { irp with pending := true }, some b) ∧
        b.REQ_OP_WRITE = true ∧ b.REQ_PREFLUSH = true ∧ b.bi_size = 0 ∧
        ∀ error : Int,
          (windrbd_bio_flush_finished { b with bi_status := error }
              { irp with pending := true }).completed = irp.completed + 1 ∧
          (windrbd_bio_flush_finished { b with bi_status := error }
              { irp with pending := true }).Information = 0 ∧
          (windrbd_bio_flush_finished { b with bi_status := error }
              { irp with pending := true }).Status
            = (if error = 0 then STATUS_SUCCESS else STATUS_UNSUCCESSFUL)) ∧
    (dev.delete_pending = false → bio_alloc = false →
      windrbd_flush (some dev) bio_alloc irp
        = (STATUS_INSUFFICIENT_RESOURCES, complete_irp irp STATUS_INSUFFICIENT_RESOURCES,
            none)) ∧
    (dev.delete_pending = true →
      windrbd_flush (some dev) bio_alloc irp
        = (STATUS_NO_SUCH_DEVICE,
            { complete_irp irp STATUS_NO_SUCH_DEVICE with Information := 0 }, none)) := by
  refine ⟨?_, ?_, ?_⟩
  · intro hdel ha
    refine ⟨{ REQ_OP_WRITE := true, REQ_PREFLUSH := true, bi_size := 0, bi_status := 0 },
      ?_, rfl, rfl, rfl, ?_⟩
    · simp [windrbd_flush, hdel, ha]
    · intro error
      unfold windrbd_bio_flush_finished
      dsimp only
      split_ifs <;> exact ⟨rfl, rfl, rfl⟩
  · intro hdel ha
    simp [windrbd_flush, hdel, ha]
  · intro hdel
    simp [windrbd_flush, hdel]

/-- C23 witness: a flush on the 4 GiB disk whose bio the engine completes
with errno -5. -/
theorem flush_submits_one_bio_witness :
    ∃ b, windrbd_flush (some disk_4G) true fresh_irp
        = (STATUS_PENDING, { fresh_irp with pending := true }, some b) ∧
      b.REQ_OP_WRITE = true ∧ b.REQ_PREFLUSH = true ∧ b.bi_size = 0 ∧
      (windrbd_bio_flush_finished { b with bi_status := -5 }
          { fresh_irp with pending := true }).Status = STATUS_UNSUCCESSFUL := by
  obtain ⟨b, h1, h2, h3, h4, h5⟩ :=
    (flush_submits_one_bio disk_4G fresh_irp true).1 rfl rfl
  exact ⟨b, h1, h2, h3, h4, (h5 (-5)).2.2⟩

/-! ## Bytes of the overlay caches -/

/-- The byte at an offset after a write. -/
theorem byte_store (b : Buffer) (off : Nat) (bs : List Nat) (a : Nat) :
    (b.store off bs).byte a =
      if off ≤ a ∧ a < off + bs.length then bs.getD (a - off) 0 % 256 else b.byte a := by
  simp only [Buffer.byte, Buffer.store, writes_byte]
  split_ifs <;> rfl

/-- A fresh buffer holds zeros. -/
theorem byte_kzalloc (n a : Nat) : (kzalloc n).byte a = 0 := rfl

/-- A write does not change a byte outside its range. -/
theorem byte_store_outside (b : Buffer) (off : Nat) (bs : List Nat) (a : Nat)
    (h : a < off ∨ off + bs.length ≤ a) : (b.store off bs).byte a = b.byte a := by
  rw [byte_store, if_neg (by omega)]

/-- An integer written does not change a byte outside its range. -/
theorem byte_store_le_outside (b : Buffer) (off k x a : Nat) (h : a < off ∨ off + k ≤ a) :
    (b.store_le off k x).byte a = b.byte a := by
  unfold Buffer.store_le
  exact byte_store_outside b off _ a (by rw [le_bytes_length]; exact h)

/-- Element `i` of a load. -/
theorem getD_load (b : Buffer) (off k i : Nat) (h : i < k) :
    (b.load off k).getD i 0 = b.byte (off + i) := by
  simp [Buffer.load, List.getD, List.getElem?_map, List.getElem?_range h]

/-- A copy of `k` bytes from another buffer: byte `i` of the copy. -/
theorem byte_store_load (b c : Buffer) (off o k i : Nat) (h : i < k) :
    (b.store off (c.load o k)).byte (off + i) = c.byte (o + i) := by
  rw [byte_store, if_pos ⟨by omega, by rw [load_length]; omega⟩, Nat.add_sub_cancel_left,
    getD_load c o k i h]
  exact Nat.mod_eq_of_lt (byte_lt c _)

/-- Two loads agree when their bytes agree. -/
theorem load_congr (b c : Buffer) (o1 o2 k : Nat)
    (h : ∀ i, i < k → b.byte (o1 + i) = c.byte (o2 + i)) : b.load o1 k = c.load o2 k := by
  unfold Buffer.load
  apply List.map_congr_left
  intro i hi
  exact h i (List.mem_range.mp hi)

/-- A second write over the same range hides the first. -/
theorem byte_store_store (b : Buffer) (off : Nat) (bs1 bs2 : List Nat) (a : Nat)
    (h : bs1.length = bs2.length) :
    ((b.store off bs1).store off bs2).byte a = (b.store off bs2).byte a := by
  rw [byte_store, byte_store, byte_store]
  by_cases hc : off ≤ a ∧ a < off + bs2.length
  · rw [if_pos hc, if_pos hc]
  · rw [if_neg hc, if_neg hc, if_neg (by rw [h]; exact hc)]

/-- Reading back a write, byte by byte. -/
theorem load_store_same_mod (b : Buffer) (off : Nat) (bs : List Nat) :
    (b.store off bs).load off bs.length = bs.map (fun x => x % 256) := by
  apply List.ext_getElem
  · simp [Buffer.load]
  · intro i h1 h2
    have hi : i < bs.length := by simpa [Buffer.load] using h1
    simp only [Buffer.load, List.getElem_map, List.getElem_range]
    rw [byte_store, if_pos ⟨by omega, by omega⟩, Nat.add_sub_cancel_left]
    simp [List.getD, List.getElem?_eq_getElem hi]

/-- The checksums of a table are those of its final contents: the header
checksum is computed over the header with its own field zero, after the entry
checksum was stored. -/
theorem crc_chain (crc : List Nat → Nat) (p6 : Buffer) :
    (((p6.store_le 0x258 4 (crc (p6.load 0x400 (0x80 * 0x80)))).store_le 0x210 4 0).store_le
        0x210 4
        (crc (((p6.store_le 0x258 4 (crc (p6.load 0x400 (0x80 * 0x80)))).store_le
          0x210 4 0).load 0x200 0x5c))).load_le 0x258 4
      = crc ((((p6.store_le 0x258 4 (crc (p6.load 0x400 (0x80 * 0x80)))).store_le
          0x210 4 0).store_le 0x210 4
          (crc (((p6.store_le 0x258 4 (crc (p6.load 0x400 (0x80 * 0x80)))).store_le
            0x210 4 0).load 0x200 0x5c))).load 0x400 (0x80 * 0x80)) % 2 ^ 32 ∧
    (((p6.store_le 0x258 4 (crc (p6.load 0x400 (0x80 * 0x80)))).store_le 0x210 4 0).store_le
        0x210 4
        (crc (((p6.store_le 0x258 4 (crc (p6.load 0x400 (0x80 * 0x80)))).store_le
          0x210 4 0).load 0x200 0x5c))).load_le 0x210 4
      = crc (((((p6.store_le 0x258 4 (crc (p6.load 0x400 (0x80 * 0x80)))).store_le
          0x210 4 0).store_le 0x210 4
          (crc (((p6.store_le 0x258 4 (crc (p6.load 0x400 (0x80 * 0x80)))).store_le
            0x210 4 0).load 0x200 0x5c))).store_le 0x210 4 0).load 0x200 0x5c) % 2 ^ 32 := by
  generalize hp7 : p6.store_le 0x258 4 (crc (p6.load 0x400 (0x80 * 0x80))) = p7
  generalize hp8 : p7.store_le 0x210 4 0 = p8
  generalize hc : crc (p8.load 0x200 0x5c) = c
  constructor
  · rw [load_le_store_le_disjoint _ _ _ _ _ _ (Or.inr (by decide)), ← hp8,
      load_le_store_le_disjoint _ _ _ _ _ _ (Or.inr (by decide)), ← hp7,
      load_le_store_le_same]
    have e : ((((p6.store_le 0x258 4 (crc (p6.load 0x400 (0x80 * 0x80)))).store_le
        0x210 4 0).store_le 0x210 4 c).load 0x400 (0x80 * 0x80)) = p6.load 0x400 (0x80 * 0x80) := by
      apply load_congr
      intro i hi
      rw [byte_store_le_outside _ _ _ _ _ (Or.inr (by omega)),
        byte_store_le_outside _ _ _ _ _ (Or.inr (by omega)),
        byte_store_le_outside _ _ _ _ _ (Or.inr (by omega))]
    rw [e]
    norm_num
  · rw [load_le_store_le_same]
    have e : ((p8.store_le 0x210 4 c).store_le 0x210 4 0).load 0x200 0x5c
        = p8.load 0x200 0x5c := by
      apply load_congr
      intro i _
      unfold Buffer.store_le
      rw [byte_store_store _ _ _ _ _ (by rw [le_bytes_length, le_bytes_length]), ← hp8]
      unfold Buffer.store_le
      rw [byte_store_store _ _ _ _ _ rfl]
    rw [e, hc]
    norm_num

/-- C27: in the prolog that `fake_partition_table` publishes, the 32-bit field
at offset 0x258 is `crc32` of the bytes [0x400, 0x400 + 0x80 * 0x80) of that
prolog, and the 32-bit field at offset 0x210 is `crc32` of its bytes
[0x200, 0x25c) taken with the field at 0x210 set to zero: both checksums are
those of the final contents, LBA fields and GUIDs included. `crc32` is the
function of the environment, its value stored in 32 bits. -/
theorem prolog_checksums_consistent (env : Env) (dev : block_device) :
    (fake_partition_table env dev true true).prolog.load_le 0x258 4
      = env.crc32 ((fake_partition_table env dev true true).prolog.load 0x400 (0x80 * 0x80))
          % 2 ^ 32 ∧
    (fake_partition_table env dev true true).prolog.load_le 0x210 4
      = env.crc32 (((fake_partition_table env dev true true).prolog.store_le 0x210 4 0).load
          0x200 0x5c) % 2 ^ 32 := by
  unfold fake_partition_table
  dsimp only
  simp only [Bool.true_eq_false, if_false]
  exact crc_chain env.crc32 _

/-! ## The GUIDs of the synthetic partition table -/

/-- An integer written outside a range does not change the bytes loaded from
the range. -/
theorem load_store_le_disjoint (b : Buffer) (off n x o k : Nat)
    (h : o + k ≤ off ∨ off + n ≤ o) :
    (b.store_le off n x).load o k = b.load o k := by
  unfold Buffer.store_le
  apply load_store_disjoint
  rw [le_bytes_length]
  exact h

/-- The two GUIDs stay where they were written: the checksum fields written
after them lie elsewhere. -/
theorem guid_chain (p4 : Buffer) (g1 g2 : List Nat) (x1 x2 x3 : Nat)
    (h1 : g1.length = 16) (h2 : g2.length = 16) :
    (((((p4.store 0x238 g1).store 0x410 g2).store_le 0x258 4 x1).store_le 0x210 4
        x2).store_le 0x210 4 x3).load 0x238 16 = g1.map (fun x => x % 256) ∧
    (((((p4.store 0x238 g1).store 0x410 g2).store_le 0x258 4 x1).store_le 0x210 4
        x2).store_le 0x210 4 x3).load 0x410 16 = g2.map (fun x => x % 256) := by
  have a := load_store_same_mod p4 0x238 g1
  have b := load_store_same_mod (p4.store 0x238 g1) 0x410 g2
  rw [h1] at a
  rw [h2] at b
  constructor
  · rw [load_store_le_disjoint _ _ _ _ _ _ (Or.inr (by decide)),
      load_store_le_disjoint _ _ _ _ _ _ (Or.inr (by decide)),
      load_store_le_disjoint _ _ _ _ _ _ (Or.inl (by decide)),
      load_store_disjoint _ _ _ _ _ (Or.inl (by decide)), a]
  · rw [load_store_le_disjoint _ _ _ _ _ _ (Or.inr (by decide)),
      load_store_le_disjoint _ _ _ _ _ _ (Or.inr (by decide)),
      load_store_le_disjoint _ _ _ _ _ _ (Or.inr (by decide)), b]

/-- The GUIDs in the prolog `fake_partition_table` builds: those of the device
if it has them, random bytes otherwise. -/
theorem fake_partition_table_guids (env : Env) (dev : block_device) :
    (fake_partition_table env dev true true).prolog.load 0x238 16
      = (if dev.has_guids then first_bytes 16 dev.disk_guid
          else first_bytes 16 env.random_disk_guid).map (fun x => x % 256) ∧
    (fake_partition_table env dev true true).prolog.load 0x410 16
      = (if dev.has_guids then first_bytes 16 dev.partition_guid
          else first_bytes 16 env.random_partition_guid).map (fun x => x % 256) := by
  unfold fake_partition_table
  dsimp only
  simp only [Bool.true_eq_false, if_false]
  exact guid_chain _ _ _ _ _ _ (by split_ifs <;> exact first_bytes_length _ _)
    (by split_ifs <;> exact first_bytes_length _ _)

/-- The first `n` bytes of an array of `n` bytes. -/
theorem first_bytes_self (n : Nat) (l : List Nat) (h : l.length = n) : first_bytes n l = l := by
  apply List.ext_getElem
  · simp [first_bytes, h]
  · intro i h1 h2
    simp [first_bytes, List.getD, List.getElem?_eq_getElem h2]

/-- The GUIDs derived from an NTFS boot sector. -/
theorem derive_guids_ntfs (dev : block_device)
    (h : (dev.boot_sector.drop 3).take 4 = [0x4e, 0x54, 0x46, 0x53]) :
    (derive_guids dev).has_guids = true ∧
    (derive_guids dev).disk_guid = first_bytes 8 (dev.boot_sector.drop 0x48)
      ++ [0xac, 0x5c, 0x0f, 0xb5, 0x55, 0x05, 0x7c, 0xe6] ∧
    (derive_guids dev).partition_guid = first_bytes 8 (dev.boot_sector.drop 0x48)
      ++ [0x38, 0x0d, 0x87, 0xfe, 0x28, 0x09, 0x7b, 0xa7] := by
  unfold derive_guids
  simp [h]

/-- The GUIDs derived from a ReFS boot sector. -/
theorem derive_guids_refs (dev : block_device)
    (h : (dev.boot_sector.drop 3).take 4 = [0x52, 0x65, 0x46, 0x53]) :
    (derive_guids dev).has_guids = true ∧
    (derive_guids dev).disk_guid = first_bytes 8 (dev.boot_sector.drop 0x38)
      ++ [0xac, 0x5c, 0x0f, 0xb5, 0x55, 0x05, 0x7c, 0xe6] ∧
    (derive_guids dev).partition_guid = first_bytes 8 (dev.boot_sector.drop 0x38)
      ++ [0x38, 0x0d, 0x87, 0xfe, 0x28, 0x09, 0x7b, 0xa7] := by
  unfold derive_guids
  simp [h]

/-- What the overlay switch does for a Primary device with a size whose boot
sector `bs` holds a file system. -/
theorem check_for_filesystem_found (env : Env) (dev : block_device) (pa ea : Bool)
    (bs : List Nat)
    (hd : dev.drbd_device = true ∧ dev.role_primary = true ∧ 0 < dev.d_size)
    (hr : (dev.have_read_bootsector = true ∧ dev.boot_sector = bs) ∨
      (dev.have_read_bootsector = false ∧
        (windrbd_make_drbd_requests env false dev true 512 0 Dir.READ).status = STATUS_SUCCESS ∧
        env.boot_sector_data = bs)) :
    (windrbd_check_for_filesystem_and_maybe_start_faking_partition_table env dev
      true pa ea).2 =
      fake_partition_table env
        { derive_guids
            { dev with
              have_read_bootsector := true, boot_sector := bs
              data_shift := 0, appended_sectors := 0 } with
          data_shift := 128, appended_sectors := 128 } pa ea := by
  obtain ⟨h1, h2, h3⟩ := hd
  have hc1 : ¬ (dev.drbd_device = false ∨ dev.role_primary = false) := by simp [h1, h2]
  have hc2 : ¬ (dev.d_size ≤ 0) := by omega
  have herr : ¬ ((if dev.have_read_bootsector = true then STATUS_SUCCESS
      else (windrbd_make_drbd_requests env false dev true 512 0 Dir.READ).status)
        ≠ STATUS_SUCCESS) := by
    rcases hr with h | h
    · simp [h.1]
    · simp [h.1, h.2.1]
  have hbs : (if dev.have_read_bootsector = true then dev.boot_sector
      else env.boot_sector_data) = bs := by
    rcases hr with h | h
    · rw [if_pos h.1]; exact h.2
    · rw [if_neg (by simp [h.1])]; exact h.2.2
  unfold windrbd_check_for_filesystem_and_maybe_start_faking_partition_table
  dsimp only
  rw [if_neg hc1, if_neg hc2, if_neg herr, if_pos rfl, hbs]

/-- The GUIDs the overlay switch writes for a boot sector `bs` with a
signature: a function of `bs`. -/
theorem guids_of_signed_boot_sector (env : Env) (dev : block_device) (bs : List Nat)
    (serial_at : Nat)
    (hd : dev.drbd_device = true ∧ dev.role_primary = true ∧ 0 < dev.d_size)
    (hr : (dev.have_read_bootsector = true ∧ dev.boot_sector = bs) ∨
      (dev.have_read_bootsector = false ∧
        (windrbd_make_drbd_requests env false dev true 512 0 Dir.READ).status = STATUS_SUCCESS ∧
        env.boot_sector_data = bs))
    (hsig : ((bs.drop 3).take 4 = [0x4e, 0x54, 0x46, 0x53] ∧ serial_at = 0x48) ∨
      ((bs.drop 3).take 4 = [0x52, 0x65, 0x46, 0x53] ∧ serial_at = 0x38)) :
    (windrbd_check_for_filesystem_and_maybe_start_faking_partition_table env dev
        true true true).2.prolog.load 0x238 16
      = (first_bytes 8 (bs.drop serial_at)
          ++ [0xac, 0x5c, 0x0f, 0xb5, 0x55, 0x05, 0x7c, 0xe6]).map (fun x => x % 256) ∧
    (windrbd_check_for_filesystem_and_maybe_start_faking_partition_table env dev
        true true true).2.prolog.load 0x410 16
      = (first_bytes 8 (bs.drop serial_at)
          ++ [0x38, 0x0d, 0x87, 0xfe, 0x28, 0x09, 0x7b, 0xa7]).map (fun x => x % 256) := by
  rw [check_for_filesystem_found env dev true true bs hd hr]
  obtain ⟨g1, g2⟩ := fake_partition_table_guids env
    { derive_guids
        { dev with
          have_read_bootsector := true, boot_sector := bs
          data_shift := 0, appended_sectors := 0 } with
      data_shift := 128, appended_sectors := 128 }
  rw [g1, g2]
  have key : (derive_guids
        { dev with
          have_read_bootsector := true, boot_sector := bs
          data_shift := 0, appended_sectors := 0 }).has_guids = true ∧
      (derive_guids
        { dev with
          have_read_bootsector := true, boot_sector := bs
          data_shift := 0, appended_sectors := 0 }).disk_guid
        = first_bytes 8 (bs.drop serial_at)
          ++ [0xac, 0x5c, 0x0f, 0xb5, 0x55, 0x05, 0x7c, 0xe6] ∧
      (derive_guids
        { dev with
          have_read_bootsector := true, boot_sector := bs
          data_shift := 0, appended_sectors := 0 }).partition_guid
        = first_bytes 8 (bs.drop serial_at)
          ++ [0x38, 0x0d, 0x87, 0xfe, 0x28, 0x09, 0x7b, 0xa7] := by
    rcases hsig with ⟨h, rfl⟩ | ⟨h, rfl⟩
    · exact derive_guids_ntfs _ h
    · exact derive_guids_refs _ h
  obtain ⟨k1, k2, k3⟩ := key
  show (if (derive_guids _).has_guids = true then first_bytes 16 (derive_guids _).disk_guid
      else _).map _ = _ ∧
    (if (derive_guids _).has_guids = true then first_bytes 16 (derive_guids _).partition_guid
      else _).map _ = _
  rw [if_pos k1, if_pos k1, k2, k3,
    first_bytes_self 16 _ (by simp [first_bytes_length]),
    first_bytes_self 16 _ (by simp [first_bytes_length])]
  exact ⟨rfl, rfl⟩

/-- C21 (counterexample): the 4 GiB disk with a FAT boot sector in which a
file system is detected. The boot sector has neither the NTFS nor the ReFS
signature, so the GUIDs are the bytes `get_random_bytes` delivers: two runs
that differ only in those bytes write different disk GUIDs (0x11.. and
0x33..) and different partition GUIDs (0x22.. and 0x44..). -/
theorem random_guids_without_signature :
    (windrbd_check_for_filesystem_and_maybe_start_faking_partition_table env_random_a
        (disk_4G_with_boot_sector boot_sector_fat) true true true).2.prolog.load 0x238 16
      = List.replicate 16 0x11 ∧
    (windrbd_check_for_filesystem_and_maybe_start_faking_partition_table env_random_b
        (disk_4G_with_boot_sector boot_sector_fat) true true true).2.prolog.load 0x238 16
      = List.replicate 16 0x33 ∧
    (windrbd_check_for_filesystem_and_maybe_start_faking_partition_table env_random_a
        (disk_4G_with_boot_sector boot_sector_fat) true true true).2.prolog.load 0x410 16
      = List.replicate 16 0x22 ∧
    (windrbd_check_for_filesystem_and_maybe_start_faking_partition_table env_random_b
        (disk_4G_with_boot_sector boot_sector_fat) true true true).2.prolog.load 0x410 16
      = List.replicate 16 0x44 := by
  refine ⟨by decide, by decide, by decide, by decide⟩

/-- C21 (amended): for every boot sector in which a file system is detected
and which carries the NTFS or the ReFS signature at offset 3, the disk GUID
(prolog offset 0x238) and the partition GUID (prolog offset 0x410) written
into the synthetic partition table are a function of the boot sector alone:
two runs, on any two Primary devices with a size and in any two environments,
with the same boot sector write the same GUIDs. For NTFS the first 8 bytes of
both GUIDs are the boot sector bytes 0x48..0x4f, for ReFS the bytes
0x38..0x3f. -/
theorem guids_determined_by_boot_sector (env1 env2 : Env) (dev1 dev2 : block_device)
    (bs : List Nat) (serial_at : Nat)
    (hd1 : dev1.drbd_device = true ∧ dev1.role_primary = true ∧ 0 < dev1.d_size)
    (hd2 : dev2.drbd_device = true ∧ dev2.role_primary = true ∧ 0 < dev2.d_size)
    (hr1 : (dev1.have_read_bootsector = true ∧ dev1.boot_sector = bs) ∨
      (dev1.have_read_bootsector = false ∧
        (windrbd_make_drbd_requests env1 false dev1 true 512 0 Dir.READ).status
          = STATUS_SUCCESS ∧
        env1.boot_sector_data = bs))
    (hr2 : (dev2.have_read_bootsector = true ∧ dev2.boot_sector = bs) ∨
      (dev2.have_read_bootsector = false ∧
        (windrbd_make_drbd_requests env2 false dev2 true 512 0 Dir.READ).status
          = STATUS_SUCCESS ∧
        env2.boot_sector_data = bs))
    (hsig : ((bs.drop 3).take 4 = [0x4e, 0x54, 0x46, 0x53] ∧ serial_at = 0x48) ∨
      ((bs.drop 3).take 4 = [0x52, 0x65, 0x46, 0x53] ∧ serial_at = 0x38)) :
    (windrbd_check_for_filesystem_and_maybe_start_faking_partition_table env1 dev1
        true true true).2.prolog.load 0x238 16
      = (windrbd_check_for_filesystem_and_maybe_start_faking_partition_table env2 dev2
        true true true).2.prolog.load 0x238 16 ∧
    (windrbd_check_for_filesystem_and_maybe_start_faking_partition_table env1 dev1
        true true true).2.prolog.load 0x410 16
      = (windrbd_check_for_filesystem_and_maybe_start_faking_partition_table env2 dev2
        true true true).2.prolog.load 0x410 16 ∧
    ((windrbd_check_for_filesystem_and_maybe_start_faking_partition_table env1 dev1
        true true true).2.prolog.load 0x238 16).take 8
      = (first_bytes 8 (bs.drop serial_at)).map (fun x => x % 256) ∧
    ((windrbd_check_for_filesystem_and_maybe_start_faking_partition_table env1 dev1
        true true true).2.prolog.load 0x410 16).take 8
      = (first_bytes 8 (bs.drop serial_at)).map (fun x => x % 256) := by
  obtain ⟨a1, a2⟩ := guids_of_signed_boot_sector env1 dev1 bs serial_at hd1 hr1 hsig
  obtain ⟨b1, b2⟩ := guids_of_signed_boot_sector env2 dev2 bs serial_at hd2 hr2 hsig
  refine ⟨by rw [a1, b1], by rw [a2, b2], ?_, ?_⟩
  · rw [a1, List.map_append]
    exact List.take_left' (by simp [first_bytes_length])
  · rw [a2, List.map_append]
    exact List.take_left' (by simp [first_bytes_length])

/-- C21 witness: the NTFS boot sector with volume serial number 1, ..., 8 on
the 4 GiB disk, in the two environments with different random bytes. -/
theorem guids_determined_by_boot_sector_witness :
    (windrbd_check_for_filesystem_and_maybe_start_faking_partition_table env_random_a
        (disk_4G_with_boot_sector boot_sector_ntfs) true true true).2.prolog.load 0x238 16
      = (windrbd_check_for_filesystem_and_maybe_start_faking_partition_table env_random_b
        (disk_4G_with_boot_sector boot_sector_ntfs) true true true).2.prolog.load 0x238 16 ∧
    ((windrbd_check_for_filesystem_and_maybe_start_faking_partition_table env_random_a
        (disk_4G_with_boot_sector boot_sector_ntfs) true true true).2.prolog.load 0x238 16).take 8
      = (first_bytes 8 (boot_sector_ntfs.drop 0x48)).map (fun x => x % 256) ∧
    (first_bytes 8 (boot_sector_ntfs.drop 0x48)).map (fun x => x % 256)
      = [1, 2, 3, 4, 5, 6, 7, 8] :=
  ⟨(guids_determined_by_boot_sector env_random_a env_random_b
      (disk_4G_with_boot_sector boot_sector_ntfs) (disk_4G_with_boot_sector boot_sector_ntfs)
      boot_sector_ntfs 0x48 (by decide) (by decide) (Or.inl ⟨rfl, rfl⟩) (Or.inl ⟨rfl, rfl⟩)
      (Or.inl ⟨by decide, rfl⟩)).1,
   (guids_determined_by_boot_sector env_random_a env_random_b
      (disk_4G_with_boot_sector boot_sector_ntfs) (disk_4G_with_boot_sector boot_sector_ntfs)
      boot_sector_ntfs 0x48 (by decide) (by decide) (Or.inl ⟨rfl, rfl⟩) (Or.inl ⟨rfl, rfl⟩)
      (Or.inl ⟨by decide, rfl⟩)).2.2.1,
   by decide⟩

/-! ## The epilog -/

/-- A copy of `k` bytes from another buffer: a part of the copy. -/
theorem load_store_load (b c : Buffer) (off o k j m : Nat) (h : j + m ≤ k) :
    (b.store off (c.load o k)).load (off + j) m = c.load (o + j) m := by
  apply load_congr
  intro i hi
  rw [Nat.add_assoc, Nat.add_assoc, byte_store_load b c off o k (j + i) (by omega)]

/-- The same for an integer. -/
theorem load_le_store_load (b c : Buffer) (off o k j m : Nat) (h : j + m ≤ k) :
    (b.store off (c.load o k)).load_le (off + j) m = c.load_le (o + j) m := by
  unfold Buffer.load_le
  rw [load_store_load b c off o k j m h]

/-- The epilog built from a prolog `P`: the backup header in the sector at
`last`, the entry sector in front, zeros between. -/
theorem epilog_chain (crc : List Nat → Nat) (P : Buffer) (n last : Nat) (hl : 512 ≤ last) :
    let b0 := (kzalloc n).store last (P.load 0x200 512)
    let b1 := b0.store 0 (P.load (512 * 2) 512)
    let swap := b1.load_le (last + 0x20) 8
    let b2 := b1.store_le (last + 0x20) 8 (b1.load_le (last + 0x18) 8)
    let b3 := b2.store_le (last + 0x18) 8 swap
    let b4 := b3.store_le (last + 0x10) 4 0
    let b5 := b4.store_le (last + 0x10) 4 (crc (b4.load last 0x5c))
    (∀ i, i < 512 → ¬ (0x10 ≤ i ∧ i < 0x14) → ¬ (0x18 ≤ i ∧ i < 0x28) →
      b5.byte (last + i) = P.byte (0x200 + i)) ∧
    b5.load_le (last + 0x18) 8 = P.load_le (0x200 + 0x20) 8 ∧
    b5.load_le (last + 0x20) 8 = P.load_le (0x200 + 0x18) 8 ∧
    b5.load_le (last + 0x10) 4
      = crc ((b5.store_le (last + 0x10) 4 0).load last 0x5c) % 2 ^ 32 ∧
    b5.load 0 512 = P.load (512 * 2) 512 ∧
    (∀ a, 512 ≤ a → a < last → b5.byte a = 0) ∧
    b5.size = n := by
  intro b0 b1 swap b2 b3 b4 b5
  have hb1 : ∀ j m, j + m ≤ 512 → b1.load_le (last + j) m = P.load_le (0x200 + j) m := by
    intro j m h
    show (b0.store 0 (P.load (512 * 2) 512)).load_le (last + j) m = _
    rw [load_le_store_disjoint _ _ _ _ _ (Or.inr (by rw [load_length]; omega))]
    exact load_le_store_load _ P last 0x200 512 j m h
  refine ⟨?_, ?_, ?_, ?_, ?_, ?_, ?_⟩
  · intro i hi h1 h2
    show ((((((b0.store 0 (P.load (512 * 2) 512)).store_le (last + 0x20) 8 _).store_le
      (last + 0x18) 8 _).store_le (last + 0x10) 4 _).store_le (last + 0x10) 4 _).byte
        (last + i)) = _
    rw [byte_store_le_outside _ _ _ _ _ (by omega), byte_store_le_outside _ _ _ _ _ (by omega),
      byte_store_le_outside _ _ _ _ _ (by omega), byte_store_le_outside _ _ _ _ _ (by omega),
      byte_store_outside _ _ _ _ (Or.inr (by rw [load_length]; omega))]
    exact byte_store_load _ P last 0x200 512 i hi
  · show ((b3.store_le (last + 0x10) 4 0).store_le (last + 0x10) 4 _).load_le
      (last + 0x18) 8 = _
    rw [load_le_store_le_disjoint _ _ _ _ _ _ (Or.inr (by omega)),
      load_le_store_le_disjoint _ _ _ _ _ _ (Or.inr (by omega))]
    show (b2.store_le (last + 0x18) 8 swap).load_le (last + 0x18) 8 = _
    rw [load_le_store_le_same, Nat.mod_eq_of_lt (load_le_lt _ _ _)]
    exact hb1 0x20 8 (by decide)
  · show ((b3.store_le (last + 0x10) 4 0).store_le (last + 0x10) 4 _).load_le
      (last + 0x20) 8 = _
    rw [load_le_store_le_disjoint _ _ _ _ _ _ (Or.inr (by omega)),
      load_le_store_le_disjoint _ _ _ _ _ _ (Or.inr (by omega))]
    show ((b1.store_le (last + 0x20) 8 (b1.load_le (last + 0x18) 8)).store_le
      (last + 0x18) 8 swap).load_le (last + 0x20) 8 = _
    rw [load_le_store_le_disjoint _ _ _ _ _ _ (Or.inr (by omega)), load_le_store_le_same,
      Nat.mod_eq_of_lt (load_le_lt _ _ _)]
    exact hb1 0x18 8 (by decide)
  · show (b4.store_le (last + 0x10) 4 (crc (b4.load last 0x5c))).load_le (last + 0x10) 4 = _
    rw [load_le_store_le_same]
    have e : ((b4.store_le (last + 0x10) 4 (crc (b4.load last 0x5c))).store_le
        (last + 0x10) 4 0).load last 0x5c = b4.load last 0x5c := by
      apply load_congr
      intro i _
      unfold Buffer.store_le
      rw [byte_store_store _ _ _ _ _ (by rw [le_bytes_length, le_bytes_length])]
      show ((b3.store (last + 0x10) (le_bytes 4 0)).store (last + 0x10) (le_bytes 4 0)).byte _
        = (b3.store (last + 0x10) (le_bytes 4 0)).byte _
      rw [byte_store_store _ _ _ _ _ rfl]
    show _ = crc (((b4.store_le (last + 0x10) 4 (crc (b4.load last 0x5c))).store_le
        (last + 0x10) 4 0).load last 0x5c) % 2 ^ 32
    rw [e]
    norm_num
  · show (((((b1.store_le (last + 0x20) 8 _).store_le (last + 0x18) 8 _).store_le
      (last + 0x10) 4 _).store_le (last + 0x10) 4 _).load 0 512) = _
    have hd : ∀ (b : Buffer) (off k x : Nat), 512 ≤ off →
        (b.store_le off k x).load 0 512 = b.load 0 512 := by
      intro b off k x h
      apply load_congr
      intro i hi
      rw [byte_store_le_outside _ _ _ _ _ (Or.inl (by omega))]
    rw [hd _ _ _ _ (by omega), hd _ _ _ _ (by omega), hd _ _ _ _ (by omega),
      hd _ _ _ _ (by omega)]
    have := load_store_load b0 P 0 (512 * 2) 512 0 512 (by decide)
    simpa using this
  · intro a h1 h2
    show ((((((b0.store 0 (P.load (512 * 2) 512)).store_le (last + 0x20) 8 _).store_le
      (last + 0x18) 8 _).store_le (last + 0x10) 4 _).store_le (last + 0x10) 4 _).byte a) = _
    rw [byte_store_le_outside _ _ _ _ _ (by omega), byte_store_le_outside _ _ _ _ _ (by omega),
      byte_store_le_outside _ _ _ _ _ (by omega), byte_store_le_outside _ _ _ _ _ (by omega),
      byte_store_outside _ _ _ _ (Or.inr (by rw [load_length]; omega))]
    show ((kzalloc n).store last (P.load 0x200 512)).byte a = 0
    rw [byte_store_outside _ _ _ _ (Or.inl h2)]
    rfl
  · rfl

/-- C28: after `fake_partition_table` (called, as in the source, with 128
appended sectors) the last 512-byte sector of the epilog (at 127 * 512) equals
the header sector of the prolog (bytes 0x200..0x3ff) except that the 8-byte
fields at offsets 0x18 and 0x20 are exchanged and the 32-bit field at offset
0x10 is `crc32` of the first 0x5c bytes of that epilog sector taken with the
field zeroed; the first epilog sector equals the prolog bytes 0x400..0x5ff;
every other byte of the 128 * 512 bytes of the epilog is zero. -/
theorem epilog_is_backup_of_prolog (env : Env) (dev : block_device)
    (happ : dev.appended_sectors = 128) :
    (∀ i, i < 512 → ¬ (0x10 ≤ i ∧ i < 0x14) → ¬ (0x18 ≤ i ∧ i < 0x28) →
      (fake_partition_table env dev true true).epilog.byte (127 * 512 + i)
        = (fake_partition_table env dev true true).prolog.byte (0x200 + i)) ∧
    (fake_partition_table env dev true true).epilog.load_le (127 * 512 + 0x18) 8
      = (fake_partition_table env dev true true).prolog.load_le (0x200 + 0x20) 8 ∧
    (fake_partition_table env dev true true).epilog.load_le (127 * 512 + 0x20) 8
      = (fake_partition_table env dev true true).prolog.load_le (0x200 + 0x18) 8 ∧
    (fake_partition_table env dev true true).epilog.load_le (127 * 512 + 0x10) 4
      = env.crc32 (((fake_partition_table env dev true true).epilog.store_le
          (127 * 512 + 0x10) 4 0).load (127 * 512) 0x5c) % 2 ^ 32 ∧
    (fake_partition_table env dev true true).epilog.load 0 512
      = (fake_partition_table env dev true true).prolog.load 0x400 512 ∧
    (∀ a, 512 ≤ a → a < 127 * 512 →
      (fake_partition_table env dev true true).epilog.byte a = 0) ∧
    (fake_partition_table env dev true true).epilog.size = 128 * 512 := by
  have hlast : (s32 ((128 - 1) * 512)).toNat = 127 * 512 := by decide
  have hsize : (s32 (128 * 512)).toNat = 128 * 512 := by decide
  unfold fake_partition_table
  dsimp only
  simp only [Bool.true_eq_false, if_false]
  rw [happ, hlast, hsize]
  exact epilog_chain env.crc32 _ (128 * 512) (127 * 512) (by decide)

/-- C28 witness: the epilog built for the 4 GiB disk with overlay. -/
theorem epilog_is_backup_of_prolog_witness :
    (fake_partition_table env_all_ok disk_4G_overlay true true).epilog.load 0 512
      = (fake_partition_table env_all_ok disk_4G_overlay true true).prolog.load 0x400 512 ∧
    (fake_partition_table env_all_ok disk_4G_overlay true true).epilog.load_le
        (127 * 512 + 0x18) 8
      = (fake_partition_table env_all_ok disk_4G_overlay true true).prolog.load_le
        (0x200 + 0x20) 8 ∧
    (fake_partition_table env_all_ok disk_4G_overlay true true).epilog.size = 128 * 512 :=
  ⟨(epilog_is_backup_of_prolog env_all_ok disk_4G_overlay rfl).2.2.2.2.1,
   (epilog_is_backup_of_prolog env_all_ok disk_4G_overlay rfl).2.1,
   (epilog_is_backup_of_prolog env_all_ok disk_4G_overlay rfl).2.2.2.2.2.2⟩
end WinDRBD
